import Mathlib

/-!
# llmchat: the multi-provider conversation gateway of `src/App.js`

A shallow embedding of the gateway functions of `RootApp` (`validateApiKey`,
`sendMessage`, the model registry with `addNewModel` and the quick-access
selector, the archive with `saveCurrentChat` and `viewChatHistory`,
`copyToClipboard`, `handleFileUpload`, `handleTranscription`, and the key store
with `saveApiKeys` and `loadApiKeys`) together with the JavaScript values they
manipulate, followed by theorems about them.

Conventions of the embedding.

* React state is the record `AppState`. A handler closes over the state of the
  render that created it (its *snapshot*) and writes through functional updaters
  `setX (prev => ...)`; the embedding therefore passes the snapshot and the
  current `World` separately: reads come from the snapshot, writes go to the world.
* Every HTTP call made through `axios` or `fetch` is appended to `World.requests`;
  the network is a function from the request to what the server did.
* A block of statements returns a `Step`: the world it leaves behind and the
  exception it threw, if any. State written before a `throw` is kept.
-/

set_option autoImplicit false

namespace LlmChat

/-! ## JavaScript values -/

/-- A value that can occur in a parsed JSON response or in a request body.
A number is represented by its two observables used in `App.js`: whether it is
truthy and how it prints (`ToString`). -/
inductive JsVal where
  | undefined : JsVal
  | null : JsVal
  | bool (b : Bool) : JsVal
  | num (truthy : Bool) (shown : String) : JsVal
  | str (s : String) : JsVal
  | arr (items : List JsVal) : JsVal
  | obj (fields : List (String × JsVal)) : JsVal

/-- Errors that are thrown in the gateway code. -/
inductive JsError where
  | error (message : String) : JsError
  | typeError : JsError
  | requestFailed : JsError
  deriving DecidableEq, Repr

namespace JsVal

/-- ECMAScript `ToBoolean`. -/
def truthy : JsVal → Bool
  | undefined => false
  | null => false
  | bool b => b
  | num t _ => t
  | str s => s != ""
  | arr _ => true
  | obj _ => true

mutual
/-- ECMAScript `ToString` on the values above (`Array.prototype.toString`
joins with a comma and prints `null` and `undefined` elements as nothing). -/
def toStr : JsVal → String
  | undefined => "undefined"
  | null => "null"
  | bool true => "true"
  | bool false => "false"
  | num _ shown => shown
  | str s => s
  | arr items => joinComma items
  | obj _ => "[object Object]"
/-- Elements of an array printed by `Array.prototype.join(',')`. -/
def joinComma : List JsVal → String
  | [] => ""
  | [x] => elemStr x
  | x :: y :: rest => elemStr x ++ "," ++ joinComma (y :: rest)
/-- One element inside `join`: `null` and `undefined` print as the empty string. -/
def elemStr : JsVal → String
  | undefined => ""
  | null => ""
  | bool true => "true"
  | bool false => "false"
  | num _ shown => shown
  | str s => s
  | arr items => joinComma items
  | obj _ => "[object Object]"
end

/-- Look a key up in the fields of an object. -/
def lookupField (k : String) : List (String × JsVal) → JsVal
  | [] => undefined
  | (k', v) :: rest => if k' = k then v else lookupField k rest

/-- Property read `v.k` for the property names the gateway reads (`data`
fields such as `choices`, `message`, `content`, `candidates`, `parts`, `text`):
reading from `undefined` or `null` throws a `TypeError`, an object yields the
field or `undefined`, and strings, numbers, booleans and arrays have no
property of these names. -/
def getProp (v : JsVal) (k : String) : Except JsError JsVal :=
  match v with
  | undefined => .error .typeError
  | null => .error .typeError
  | obj fields => .ok (lookupField k fields)
  | _ => .ok undefined

/-- Index read `v[0]`: a `TypeError` on `undefined` and `null`, the first
element of an array, a one-character string for a non-empty string (its first
character stands for the first code unit; the gateway only reads properties of
it), the field named `0` of an object, and `undefined` otherwise. -/
def getIndex0 (v : JsVal) : Except JsError JsVal :=
  match v with
  | undefined => .error .typeError
  | null => .error .typeError
  | arr [] => .ok undefined
  | arr (x :: _) => .ok x
  | str s => .ok (match s.data with
      | [] => undefined
      | c :: _ => str (String.mk [c]))
  | obj fields => .ok (lookupField "0" fields)
  | _ => .ok undefined

/-- Optional property read `v?.k`: `undefined` when `v` is `undefined` or `null`. -/
def getPropOpt (v : JsVal) (k : String) : JsVal :=
  match v with
  | obj fields => lookupField k fields
  | _ => undefined

/-- Optional index read `v?.[0]`. -/
def getIndex0Opt (v : JsVal) : JsVal :=
  match v with
  | arr (x :: _) => x
  | str s => (match s.data with
      | [] => undefined
      | c :: _ => str (String.mk [c]))
  | obj fields => lookupField "0" fields
  | _ => undefined

end JsVal

/-! ## Strings -/

/-- ECMAScript white space and line terminators, the characters `trim` strips. -/
def jsIsWhiteSpace (c : Char) : Bool :=
  let n := c.toNat
  n == 0x09 || n == 0x0A || n == 0x0B || n == 0x0C || n == 0x0D || n == 0x20 ||
  n == 0xA0 || n == 0x1680 || (0x2000 ≤ n && n ≤ 0x200A) || n == 0x2028 ||
  n == 0x2029 || n == 0x202F || n == 0x205F || n == 0x3000 || n == 0xFEFF

/-- JavaScript `String.prototype.trim`. -/
def jsTrim (s : String) : String :=
  String.mk (((s.data.dropWhile jsIsWhiteSpace).reverse.dropWhile jsIsWhiteSpace).reverse)

/-- The test `!apiKey?.trim()` on a key that is `null` or a string. -/
def keyBlank : Option String → Bool
  | none => true
  | some k => jsTrim k == ""

/-- The test `!key || key.trim() === ''` on a key that is `null` or a string. -/
def keyMissingOrBlank : Option String → Bool
  | none => true
  | some k => k == "" || jsTrim k == ""

/-! ## Data model -/

/-- A chat message object `{ text, isUser, timestamp }`; `isHighlighted` is the
field `copyToClipboard` adds, absent on messages made by `sendMessage`. The text
of an assistant message is whatever value the provider response carried. -/
structure Message where
  text : JsVal
  isUser : Bool
  timestamp : String
  isHighlighted : Option Bool := none

/-- The attachment object held in `uploadedFile`. `handleFileUpload` fills `uri`,
`name`, `base64` and `type`; `sendMessage` also reads `content`. -/
structure UploadedFile where
  uri : String
  name : String
  base64 : Option String
  type : Option String
  content : Option String := none

/-- An entry of `availableModels`. -/
structure ModelConfig where
  name : String
  value : String
  api : String
  shortName : String
  quickAccess : Option Bool := none

/-- An entry of `chatHistory`. -/
structure ChatArchive where
  id : Nat
  messages : List Message
  name : String

/-- The React state of `RootApp` that the gateway reads and writes.
`apiValidationStatus` is an object keyed by provider name; the last six fields
are the new-model form and the two dialogs, with their initial values. -/
structure AppState where
  messages : List Message
  inputText : String
  isLoading : Bool
  uploadedFile : Option UploadedFile
  chatHistory : List ChatArchive
  availableModels : List ModelConfig
  selectedApi : String
  selectedModel : String
  systemPrompt : String
  googleApiKey : Option String
  openRouterApiKeyInput : Option String
  cerebrasApiKey : Option String
  lemonfoxApiKey : Option String
  openRouterApiKey : Option String
  openAiApiKey : Option String
  apiValidationStatus : List (String × String)
  selectedWhisperProvider : Option String
  newModelName : String := ""
  newModelValue : String := ""
  newModelShortName : String := ""
  isAddingNewModel : Bool := false
  isHistoryModalVisible : Bool := false
  isSettingsModalVisible : Bool := false

/-- Read `obj[k]` of a string-valued object; `none` is `undefined`. -/
def getKey (k : String) : List (String × String) → Option String
  | [] => none
  | (k', v) :: rest => if k' = k then some v else getKey k rest

/-- The object `{ ...prev, [k]: v }`: an existing key keeps its place and takes
the new value, a new key is added at the end. -/
def setKey (k v : String) : List (String × String) → List (String × String)
  | [] => [(k, v)]
  | (k', v') :: rest => if k' = k then (k', v) :: rest else (k', v') :: setKey k v rest

/-! ## The network and the world -/

/-- An HTTP request as passed to `axios.get`, `axios.post` or `fetch`. -/
structure Request where
  method : String
  url : String
  headers : List (String × String)
  body : JsVal

/-- What the network does with a request: no response at all, or a response
with a status code and a parsed body. -/
inductive NetResult where
  | noResponse : NetResult
  | response (status : Nat) (data : JsVal) : NetResult

/-- The state of the application and the HTTP requests issued so far, oldest first. -/
structure World where
  state : AppState
  requests : List Request

/-- The effect of a block of statements: the world it leaves and the exception
it threw, if it threw. -/
structure Step where
  world : World
  thrown : Option JsError

/-- How an `axios` promise settles (default `validateStatus`): it resolves with
the status and the data for a 2xx response and rejects otherwise. -/
def axiosSettle : NetResult → Except JsError (Nat × JsVal)
  | .noResponse => .error .requestFailed
  | .response status data =>
    if 200 ≤ status ∧ status < 300 then .ok (status, data) else .error .requestFailed

/-- How a `fetch` promise settles: it resolves with the status of any response
and rejects when there is none. -/
def fetchSettle : NetResult → Except JsError Nat
  | .noResponse => .error .requestFailed
  | .response status _ => .ok status

/-- The `ok` flag of a `fetch` response. -/
def responseOk (status : Nat) : Bool := 200 ≤ status && status ≤ 299

namespace World

/-- `setMessages(f)` with a functional updater. -/
def setMessages (f : List Message → List Message) (w : World) : World :=
  { w with state := { w.state with messages := f w.state.messages } }

/-- `setInputText(v)`. -/
def setInputText (v : String) (w : World) : World :=
  { w with state := { w.state with inputText := v } }

/-- `setIsLoading(v)`. -/
def setIsLoading (v : Bool) (w : World) : World :=
  { w with state := { w.state with isLoading := v } }

/-- `setUploadedFile(v)`. -/
def setUploadedFile (v : Option UploadedFile) (w : World) : World :=
  { w with state := { w.state with uploadedFile := v } }

/-- `setApiValidationStatus((prev) => ({ ...prev, [apiType]: v }))`. -/
def setApiValidationStatus (apiType v : String) (w : World) : World :=
  { w with state := { w.state with
      apiValidationStatus := setKey apiType v w.state.apiValidationStatus } }

/-- Record that a request was handed to the HTTP client. -/
def issue (req : Request) (w : World) : World :=
  { w with requests := w.requests ++ [req] }

/-- The world `w` after `l` more messages were appended and `rs` more requests
issued, everything else as it was. -/
def extend (w : World) (l : List Message) (rs : List Request) : World :=
  { state := { w.state with messages := w.state.messages ++ l },
    requests := w.requests ++ rs }

end World

/-! ## `sendMessage` -/

/-- The lookup `availableModels.find((m) => m.value === selectedModel)`. -/
def selectedModelConfig (s : AppState) : Option ModelConfig :=
  s.availableModels.find? (fun m => m.value == s.selectedModel)

/-- The guard at the top of `sendMessage`:
`!text.trim() && (!uploadedFile || selectedModelConfig?.api !== 'google')`. -/
def sendGuard (s : AppState) (text : String) : Bool :=
  jsTrim text == "" &&
    (s.uploadedFile.isNone ||
      (match selectedModelConfig s with
       | none => true
       | some cfg => cfg.api != "google"))

/-- The object `userMessage` of `sendMessage`. -/
def userMessage (s : AppState) (text timestamp : String) : Message :=
  { text := .str (if jsTrim text != "" then text
      else "Datei hochgeladen: " ++
        (match s.uploadedFile with
         | none => "Unbekannte Datei"
         | some f => if f.name != "" then f.name else "Unbekannte Datei")),
    isUser := true,
    timestamp := timestamp }

/-- The message appended by the `catch` block of `sendMessage`. -/
def errorMessage (timestamp : String) : Message :=
  { text := .str "Error: Could not get a response. Please try again.",
    isUser := false,
    timestamp := timestamp }

/-- The object `llmMessage` of `sendMessage`. -/
def llmMessage (text : JsVal) (timestamp : String) : Message :=
  { text := text, isUser := false, timestamp := timestamp }

/-- A part `{ text: v }` of a google request. -/
def textPart (v : JsVal) : JsVal := .obj [("text", v)]

/-- The parts pushed for the prior messages: the text of a user message, and
the template `Assistant: ${message.text}` for the others. -/
def historyParts (messages : List Message) : List JsVal :=
  messages.map (fun message =>
    if message.isUser then textPart message.text
    else textPart (.str ("Assistant: " ++ message.text.toStr)))

/-- The parts pushed for the attachment: `inlineData` and the caption for an
image with a truthy `base64`, otherwise the file text when `content` is truthy. -/
def attachmentParts : Option UploadedFile → List JsVal
  | none => []
  | some f =>
    if (match f.base64 with | some b => b != "" | none => false) && f.type == some "image" then
      [ .obj [("inlineData",
          .obj [("mimeType", .str "image/jpeg"),
                ("data", match f.base64 with | some b => .str b | none => .undefined)])],
        textPart (.str
          "Please describe what you see in this image and provide relevant insights.") ]
    else
      match f.content with
      | some c =>
        if c != "" then
          [textPart (.str ("Hochgeladene Datei: " ++ f.name ++ "\n\n" ++ c))]
        else []
      | none => []

/-- The array `parts` built in the google branch. -/
def googleParts (s : AppState) (text : String) : List JsVal :=
  [textPart (.str s.systemPrompt)] ++ historyParts s.messages ++
    (if jsTrim text != "" then [textPart (.str text)] else []) ++
    attachmentParts s.uploadedFile

/-- The request posted in the google branch. -/
def googleRequest (s : AppState) (text key : String) : Request :=
  { method := "POST",
    url := "https://generativelanguage.googleapis.com/v1beta/models/" ++ s.selectedModel ++
      ":generateContent?key=" ++ key,
    headers := [],
    body := .obj [
      ("contents", .arr [.obj [("parts", .arr (googleParts s text))]]),
      ("generationConfig", .obj [
        ("temperature", .num true "0.7"),
        ("topK", .num true "1"),
        ("topP", .num true "1"),
        ("maxOutputTokens", .num true "2048"),
        ("stopSequences", .arr [])])] }

/-- The callback `part => part.text || ''` mapped over the parts of the reply. -/
def partTexts : List JsVal → Except JsError (List JsVal)
  | [] => .ok []
  | part :: rest =>
    match part.getProp "text" with
    | .error e => .error e
    | .ok t =>
      match partTexts rest with
      | .error e => .error e
      | .ok ts => .ok ((if t.truthy then t else .str "") :: ts)

/-- The array method `join('')`. -/
def joinEmpty (items : List JsVal) : String :=
  String.join (items.map JsVal.elemStr)

/-- The value `responseContent` of the google branch: `''` unless
`response.data?.candidates?.[0]?.content?.parts` is truthy, and then
`parts.map(part => part.text || '').join('')`, which throws a `TypeError`
when `parts` is not an array or holds `null`. -/
def googleResponseContent (data : JsVal) : Except JsError String :=
  let parts := (((data.getPropOpt "candidates").getIndex0Opt).getPropOpt "content").getPropOpt
    "parts"
  if parts.truthy then
    match parts with
    | .arr items =>
      (match partTexts items with
       | .error e => .error e
       | .ok ts => .ok (joinEmpty ts))
    | _ => .error .typeError
  else .ok ""

/-- The array `chatHistory` of the cerebras, openrouter and openai branches. -/
def chatHistory (s : AppState) (text : String) : List JsVal :=
  s.messages.map (fun message =>
      JsVal.obj [("role", .str (if message.isUser then "user" else "assistant")),
                 ("content", message.text)]) ++
    [.obj [("role", .str "system"), ("content", .str s.systemPrompt)]] ++
    [.obj [("role", .str "user"), ("content", .str text)]]

/-- The expression `response.data.choices[0].message.content`. -/
def chatResponseContent (data : JsVal) : Except JsError JsVal :=
  match data.getProp "choices" with
  | .error e => .error e
  | .ok choices =>
    match choices.getIndex0 with
    | .error e => .error e
    | .ok choice =>
      match choice.getProp "message" with
      | .error e => .error e
      | .ok message => message.getProp "content"

/-- The request posted in the cerebras branch. -/
def cerebrasRequest (s : AppState) (text key : String) : Request :=
  { method := "POST",
    url := "https://api.cerebras.ai/v1/chat/completions",
    headers := [("Authorization", "Bearer " ++ key)],
    body := .obj [
      ("messages", .arr (chatHistory s text)),
      ("model", .str s.selectedModel),
      ("stream", .bool false),
      ("temperature", .num false "0"),
      ("max_completion_tokens", .num true "-1"),
      ("seed", .num false "0"),
      ("top_p", .num true "1")] }

/-- The request posted in the openrouter branch. -/
def openRouterRequest (s : AppState) (text key : String) : Request :=
  { method := "POST",
    url := "https://openrouter.ai/api/v1/chat/completions",
    headers := [("Authorization", "Bearer " ++ key)],
    body := .obj [
      ("messages", .arr (chatHistory s text)),
      ("model", .str s.selectedModel)] }

/-- The request posted in the openai branch. -/
def openAiRequest (s : AppState) (text key : String) : Request :=
  { method := "POST",
    url := "https://api.openai.com/v1/chat/completions",
    headers := [("Authorization", "Bearer " ++ key)],
    body := .obj [
      ("messages", .arr (chatHistory s text)),
      ("model", .str s.selectedModel),
      ("temperature", .num true "0.7")] }

/-- The call `await axios.post(...)` followed by the code that reads the reply
and appends `llmMessage`: the request is issued, a rejected promise or a
failed read throws, and otherwise the parsed reply is appended. -/
def postAndAppend (net : Request → NetResult) (timestamp : String) (req : Request)
    (parse : JsVal → Except JsError JsVal) (w : World) : Step :=
  match axiosSettle (net req) with
  | .error e => ⟨w.issue req, some e⟩
  | .ok (_, data) =>
    match parse data with
    | .error e => ⟨w.issue req, some e⟩
    | .ok content =>
      ⟨(w.issue req).setMessages (fun prevMessages => prevMessages ++ [llmMessage content timestamp]),
        none⟩

/-- The body of the `try` block of `sendMessage`. -/
def sendMessageTry (net : Request → NetResult) (timestamp : String) (snap : AppState)
    (text : String) (w : World) : Step :=
  match selectedModelConfig snap with
  | none => ⟨w, some .typeError⟩
  | some cfg =>
    if cfg.api = "google" then
      match snap.googleApiKey with
      | none => ⟨w, some (.error "No valid Google API key available.")⟩
      | some key =>
        if keyBlank (some key) then ⟨w, some (.error "No valid Google API key available.")⟩
        else
          postAndAppend net timestamp (googleRequest snap text key)
            (fun data => (googleResponseContent data).map JsVal.str) w
    else if cfg.api = "cerebras" then
      match snap.cerebrasApiKey with
      | none => ⟨w, some (.error "Kein gültiger Cerebras API-Schlüssel vorhanden.")⟩
      | some key =>
        if keyMissingOrBlank (some key) then
          ⟨w, some (.error "Kein gültiger Cerebras API-Schlüssel vorhanden.")⟩
        else postAndAppend net timestamp (cerebrasRequest snap text key) chatResponseContent w
    else if cfg.api = "openrouter" then
      match snap.openRouterApiKey with
      | none => ⟨w, some (.error "Kein gültiger OpenRouter API-Schlüssel vorhanden.")⟩
      | some key =>
        if keyMissingOrBlank (some key) then
          ⟨w, some (.error "Kein gültiger OpenRouter API-Schlüssel vorhanden.")⟩
        else postAndAppend net timestamp (openRouterRequest snap text key) chatResponseContent w
    else if cfg.api = "openai" then
      match snap.openAiApiKey with
      | none => ⟨w, some (.error "No valid OpenAI API key available.")⟩
      | some key =>
        if keyMissingOrBlank (some key) then
          ⟨w, some (.error "No valid OpenAI API key available.")⟩
        else postAndAppend net timestamp (openAiRequest snap text key) chatResponseContent w
    else ⟨w, none⟩

/-- The handler `sendMessage(text)` run to completion: `snap` is the state the
handler closed over, `w` the world it runs in, `timestamp` the formatted clock
reading, `net` the behaviour of the network. The guard returns at once; after it
the user message is appended, the `try` block runs, the `catch` block appends the
error message when the block threw, and the `finally` block clears the
attachment and the loading flag. -/
def sendMessage (net : Request → NetResult) (timestamp : String) (snap : AppState)
    (text : String) (w : World) : Step :=
  if sendGuard snap text then ⟨w, none⟩
  else
    let w1 := ((w.setMessages (fun prevMessages => prevMessages ++ [userMessage snap text timestamp])
      ).setInputText "").setIsLoading true
    let body := sendMessageTry net timestamp snap text w1
    let w2 := match body.thrown with
      | none => body.world
      | some _ => body.world.setMessages
          (fun prevMessages => prevMessages ++ [errorMessage timestamp])
    ⟨(w2.setUploadedFile none).setIsLoading false, none⟩

/-! ## `validateApiKey` -/

/-- The probe request of each `case` of the `switch` in `validateApiKey`. -/
def probeRequest (apiType key : String) : Option Request :=
  if apiType = "google" then
    some { method := "GET",
           url := "https://generativelanguage.googleapis.com/v1beta/models?key=" ++ key,
           headers := [], body := .undefined }
  else if apiType = "openRouter" then
    some { method := "GET", url := "https://openrouter.ai/api/v1/auth/key",
           headers := [("Authorization", "Bearer " ++ key)], body := .undefined }
  else if apiType = "cerebras" then
    some { method := "GET", url := "https://api.cerebras.ai/v1/models",
           headers := [("Authorization", "Bearer " ++ key)], body := .undefined }
  else if apiType = "lemonfox" then
    some { method := "GET", url := "https://api.lemonfox.ai/v1/models",
           headers := [("Authorization", "Bearer " ++ key)], body := .undefined }
  else if apiType = "openai" then
    some { method := "GET", url := "https://api.openai.com/v1/models",
           headers := [("Authorization", "Bearer " ++ key)], body := .undefined }
  else none

/-- The value of `isValid` after the inner `try`/`catch` of a `case`: the
openRouter probe goes through `fetch` and reads `response.ok`; the others go
through `axios.get` and test `response.status === 200`; a rejected promise is
caught and leaves `isValid` false. -/
def probeValid (apiType : String) (r : NetResult) : Bool :=
  if apiType = "openRouter" then
    match fetchSettle r with
    | .error _ => false
    | .ok status => responseOk status
  else
    match axiosSettle r with
    | .error _ => false
    | .ok (status, _) => status == 200

/-- The handler `validateApiKey(apiType, apiKey)` run to completion. The state is
first set to `none`; a blank key sets it to `error` and returns; otherwise the
`switch` issues the probe of the provider (none for an unknown `apiType`) and
the state is set from `isValid`. Every `case` catches its own errors, so the
outer `catch` is never entered. -/
def validateApiKey (net : Request → NetResult) (apiType : String) (apiKey : Option String)
    (w : World) : Step :=
  let w0 := w.setApiValidationStatus apiType "none"
  match apiKey with
  | none => ⟨w0.setApiValidationStatus apiType "error", none⟩
  | some key =>
    if keyBlank (some key) then ⟨w0.setApiValidationStatus apiType "error", none⟩
    else
      match probeRequest apiType key with
      | none => ⟨w0.setApiValidationStatus apiType "error", none⟩
      | some req =>
        ⟨(w0.issue req).setApiValidationStatus apiType
            (if probeValid apiType (net req) then "success" else "error"), none⟩

/-- The state `RootApp` starts in. -/
def initialState : AppState :=
  { messages := [],
    inputText := "",
    isLoading := false,
    uploadedFile := none,
    chatHistory := [],
    availableModels := [
      { name := "4o Mini", value := "gpt-4", api := "openai", shortName := "M",
        quickAccess := some true },
      { name := "DeepSeek V3", value := "deepseek/deepseek-chat", api := "openrouter",
        shortName := "D", quickAccess := some true },
      { name := "Gemini 2.0", value := "gemini-2.0-flash-exp", api := "google",
        shortName := "F", quickAccess := some true },
      { name := "Gemini 2.0 Flash Thinking Exp", value := "gemini-2.0-flash-thinking-exp-1219",
        api := "google", shortName := "T", quickAccess := some true },
      { name := "Llama 3.3", value := "meta-llama/llama-3.3-70b-instruct", api := "openrouter",
        shortName := "L", quickAccess := some true },
      { name := "Cerebras Llama 3.3", value := "llama-3.3-70b", api := "cerebras",
        shortName := "C", quickAccess := some true }],
    selectedApi := "openrouter",
    selectedModel := "gemini-2.0-flash-exp",
    systemPrompt := "Please respond as succinctly as possible, ensuring clarity and completeness. Prioritize brevity without sacrificing precision or understanding. Use concise language, expanding only when necessary to maintain accuracy. Incorporate principles of Nonviolent Communication naturally and thoughtfully, where relevant. When sharing code, provide only the complete code and add additional explanations only if absolutely necessary for clarity.",
    googleApiKey := none,
    openRouterApiKeyInput := none,
    cerebrasApiKey := none,
    lemonfoxApiKey := none,
    openRouterApiKey := none,
    openAiApiKey := none,
    apiValidationStatus := [("google", "none"), ("openRouter", "none"), ("cerebras", "none"),
      ("lemonfox", "none"), ("openai", "none")],
    selectedWhisperProvider := none }

/-! ## Names used to state the theorems -/

/-- The helper `getApiValidationKey`: the key of `apiValidationStatus` under
which the state of a model provider is kept. -/
def getApiValidationKey (api : String) : String :=
  if api = "google" then "google"
  else if api = "openrouter" then "openRouter"
  else if api = "cerebras" then "cerebras"
  else if api = "lemonfox" then "lemonfox"
  else if api = "openai" then "openai"
  else ""

/-- The key variable that the branch of `sendMessage` for a provider reads. -/
def sendKey (s : AppState) (api : String) : Option String :=
  if api = "google" then s.googleApiKey
  else if api = "cerebras" then s.cerebrasApiKey
  else if api = "openrouter" then s.openRouterApiKey
  else if api = "openai" then s.openAiApiKey
  else none

/-- The request that the branch of `sendMessage` for a provider posts. -/
def sendRequest (s : AppState) (text api key : String) : Request :=
  if api = "google" then googleRequest s text key
  else if api = "cerebras" then cerebrasRequest s text key
  else if api = "openrouter" then openRouterRequest s text key
  else openAiRequest s text key

/-- The reading of the reply in the branch of `sendMessage` for a provider. -/
def parseReply (api : String) (data : JsVal) : Except JsError JsVal :=
  if api = "google" then (googleResponseContent data).map JsVal.str
  else chatResponseContent data

/-- The four providers `sendMessage` has a branch for. -/
def hasSendBranch (api : String) : Prop :=
  api = "google" ∨ api = "cerebras" ∨ api = "openrouter" ∨ api = "openai"

/-! ## `validateApiKey` as two steps

An `async` handler runs up to its `await`, and resumes when the awaited promise
settles; other handlers can run in between. -/

/-- The part of `validateApiKey(apiType, apiKey)` that runs before the `await`:
the state is set to `none`; a blank key, or an `apiType` without a `case`, ends
the call with the state `error` and nothing pending; otherwise the probe is
issued and is pending. -/
def validateApiKeyStart (apiType : String) (apiKey : Option String) (w : World) :
    World × Option Request :=
  let w0 := w.setApiValidationStatus apiType "none"
  match apiKey with
  | none => (w0.setApiValidationStatus apiType "error", none)
  | some key =>
    if keyBlank (some key) then (w0.setApiValidationStatus apiType "error", none)
    else
      match probeRequest apiType key with
      | none => (w0.setApiValidationStatus apiType "error", none)
      | some req => (w0.issue req, some req)

/-- The part of `validateApiKey` that runs when the pending probe has settled
with `r`: the state is set from `isValid`. A call with nothing pending has
already ended. -/
def validateApiKeyResume (apiType : String) (pending : Option Request) (r : NetResult)
    (w : World) : World :=
  match pending with
  | none => w
  | some _ => w.setApiValidationStatus apiType (if probeValid apiType r then "success" else "error")

/-- Two calls `validateApiKey(apiType, key1)` and then `validateApiKey(apiType, key2)`
whose probes settle in the other order: the second probe with `r2` first, the
first probe with `r1` last. -/
def validateTwiceOutOfOrder (apiType : String) (key1 key2 : Option String) (r1 r2 : NetResult)
    (w : World) : World :=
  let g1 := validateApiKeyStart apiType key1 w
  let g2 := validateApiKeyStart apiType key2 g1.1
  validateApiKeyResume apiType g1.2 r1 (validateApiKeyResume apiType g2.2 r2 g2.1)

/-! ## The model registry -/

/-- A call `Alert.alert(title, message)`. -/
structure Alert where
  title : String
  message : String
  deriving DecidableEq, Repr

namespace World

/-- `setAvailableModels(f)` with a functional updater. -/
def setAvailableModels (f : List ModelConfig → List ModelConfig) (w : World) : World :=
  { w with state := { w.state with availableModels := f w.state.availableModels } }

/-- `setChatHistory(f)` with a functional updater. -/
def setChatHistory (f : List ChatArchive → List ChatArchive) (w : World) : World :=
  { w with state := { w.state with chatHistory := f w.state.chatHistory } }

/-- The four setters at the end of `addNewModel`: the three inputs are cleared
and the form is closed. -/
def resetNewModelForm (w : World) : World :=
  { w with state := { w.state with
      newModelName := "", newModelValue := "", newModelShortName := "",
      isAddingNewModel := false } }

/-- `setIsHistoryModalVisible(v)`. -/
def setIsHistoryModalVisible (v : Bool) (w : World) : World :=
  { w with state := { w.state with isHistoryModalVisible := v } }

end World

/-- The handler `addNewModel`: it alerts and returns when the state of the
selected provider is not `success`, alerts and returns when one of the three
inputs is blank, and otherwise appends the descriptor
`{ name, value, api: selectedApi, shortName }` and resets the form. -/
def addNewModel (snap : AppState) (w : World) : World × Option Alert :=
  if getKey (getApiValidationKey snap.selectedApi) snap.apiValidationStatus != some "success" then
    (w, some ⟨"Error", "Please ensure that a valid API key is available for this provider."⟩)
  else if jsTrim snap.newModelName == "" || jsTrim snap.newModelValue == "" ||
      jsTrim snap.newModelShortName == "" then
    (w, some ⟨"Error", "Please fill in all fields to add a new model."⟩)
  else
    ((w.setAvailableModels (fun prevModels => prevModels ++
        [{ name := snap.newModelName, value := snap.newModelValue, api := snap.selectedApi,
           shortName := snap.newModelShortName }])).resetNewModelForm, none)

/-- The handler `deleteModel(modelValue)`. -/
def deleteModel (modelValue : String) (w : World) : World :=
  w.setAvailableModels (fun prevModels => prevModels.filter (fun model => model.value != modelValue))

/-- The handler `toggleQuickAccess(modelValue)`; `!model.quickAccess` is `true`
on a descriptor without the field. -/
def toggleQuickAccess (modelValue : String) (w : World) : World :=
  w.setAvailableModels (fun prevModels => prevModels.map (fun model =>
    if model.value == modelValue then
      { model with quickAccess := some (match model.quickAccess with
          | some b => !b
          | none => true) }
    else model))

/-- The `onChangeText` handler of the short-name input of the model `modelValue`. -/
def editShortName (modelValue text : String) (w : World) : World :=
  w.setAvailableModels (fun prevModels => prevModels.map (fun m =>
    if m.value == modelValue then { m with shortName := text } else m))

/-- The state of the provider of a model is `success`:
`apiValidationStatus[getApiValidationKey(model.api)] === 'success'`. -/
def providerValidated (s : AppState) (model : ModelConfig) : Bool :=
  getKey (getApiValidationKey model.api) s.apiValidationStatus == some "success"

/-- The comparator of the quick-access `sort`; `localeCompare` is the collation
of the host. -/
def quickAccessCompare (localeCompare : String → String → Int) (a b : ModelConfig) : Int :=
  if a.shortName = "T" then 1
  else if b.shortName = "T" then -1
  else if a.shortName = "M" then 1
  else if b.shortName = "M" then -1
  else localeCompare a.shortName b.shortName

/-- Insertion of the element `x`, which precedes the elements of the list in the
array: `x` moves behind a later element `y` exactly when the comparator sorts
`x` after `y` and does not sort `y` after `x`; otherwise `x` stays in front. -/
def sortInsert {α : Type} (compareFn : α → α → Int) (x : α) : List α → List α
  | [] => [x]
  | y :: rest =>
    if 0 < compareFn x y ∧ compareFn y x ≤ 0 then y :: sortInsert compareFn x rest
    else x :: y :: rest

/-- The array method `sort(compareFn)`, as the stable insertion sort: two
elements change their order only when the comparator sorts the earlier one after
the later one and not the later one after the earlier one, so elements that the
comparator sorts after each other, as it does two models with the same pinned
label, keep the order they have in the array. -/
def jsSort {α : Type} (compareFn : α → α → Int) : List α → List α
  | [] => []
  | x :: rest => sortInsert compareFn x (jsSort compareFn rest)

/-- The models rendered in the quick-access selector: those with a truthy
`quickAccess` whose provider is validated, sorted with the comparator. -/
def quickAccessOffered (localeCompare : String → String → Int) (s : AppState) :
    List ModelConfig :=
  jsSort (quickAccessCompare localeCompare)
    (s.availableModels.filter (fun model =>
      (model.quickAccess == some true) && providerValidated s model))

/-- The models rendered in the settings list of the selected provider. -/
def settingsOffered (s : AppState) : List ModelConfig :=
  s.availableModels.filter (fun model =>
    (model.api == s.selectedApi) && providerValidated s model)

/-- The rank of a short name in the quick-access order: `T` last, `M` before it,
every other name in front. -/
def rank (shortName : String) : Nat :=
  if shortName = "T" then 2 else if shortName = "M" then 1 else 0

/-! ## `JSON.stringify` -/

/-- A hexadecimal digit, lower case. -/
def hexDigit (n : Nat) : Char :=
  if n < 10 then Char.ofNat (48 + n) else Char.ofNat (87 + n)

/-- The escape of one character inside a JSON string: the quote and the
backslash, the short escapes of backspace, form feed, line feed, carriage
return and tab, `\u00xx` for the other control characters. -/
def jsonEscapeChar (c : Char) : String :=
  let n := c.toNat
  if n = 34 then "\\\""
  else if n = 92 then "\\\\"
  else if n = 8 then "\\b"
  else if n = 12 then "\\f"
  else if n = 10 then "\\n"
  else if n = 13 then "\\r"
  else if n = 9 then "\\t"
  else if n < 32 then "\\u00" ++ String.mk [hexDigit (n / 16), hexDigit (n % 16)]
  else String.mk [c]

/-- A string as `JSON.stringify` writes it. -/
def jsonQuote (s : String) : String :=
  "\"" ++ String.join (s.data.map jsonEscapeChar) ++ "\""

namespace JsVal

mutual
/-- The text `JSON.stringify` writes for a value; `none` for `undefined`, which
is left out of an object and written `null` in an array. A number that is not
finite is written `null`. The fields of an object are kept in enumeration order. -/
def jsonText : JsVal → Option String
  | undefined => none
  | null => some "null"
  | bool true => some "true"
  | bool false => some "false"
  | num _ shown =>
    some (if shown = "NaN" ∨ shown = "Infinity" ∨ shown = "-Infinity" then "null" else shown)
  | str s => some (jsonQuote s)
  | arr items => some ("[" ++ ",".intercalate (jsonItems items) ++ "]")
  | obj fields => some ("\x7b" ++ ",".intercalate (jsonMembers fields) ++ "\x7d")
/-- The texts of the elements of an array. -/
def jsonItems : List JsVal → List String
  | [] => []
  | x :: rest =>
    (match jsonText x with
     | some t => t
     | none => "null") :: jsonItems rest
/-- The texts of the members of an object. -/
def jsonMembers : List (String × JsVal) → List String
  | [] => []
  | (k, v) :: rest =>
    match jsonText v with
    | some t => (jsonQuote k ++ ":" ++ t) :: jsonMembers rest
    | none => jsonMembers rest
end

end JsVal

/-- The text `JSON.stringify` writes for a message object: `text` is left out
when it is `undefined`, `isHighlighted` when the message has no such field. -/
def messageJson (m : Message) : String :=
  "\x7b" ++ ",".intercalate (
    (match m.text.jsonText with
     | some t => ["\"text\":" ++ t]
     | none => []) ++
    ["\"isUser\":" ++ (if m.isUser then "true" else "false")] ++
    ["\"timestamp\":" ++ jsonQuote m.timestamp] ++
    (match m.isHighlighted with
     | some b => ["\"isHighlighted\":" ++ (if b then "true" else "false")]
     | none => [])) ++ "\x7d"

/-- The text `JSON.stringify(messages)` of an array of messages. -/
def messagesJson (messages : List Message) : String :=
  "[" ++ ",".intercalate (messages.map messageJson) ++ "]"

/-! ## The archive: `saveCurrentChat`, `viewChatHistory`, `deleteChatHistory` -/

/-- The array method `findIndex`; `none` stands for `-1`. -/
def findIndex {α : Type} (p : α → Bool) : List α → Option Nat
  | [] => none
  | x :: rest => if p x then some 0 else (findIndex p rest).map (fun i => i + 1)

/-- The updater passed to `setChatHistory` in `saveCurrentChat`: the first
archive whose messages have the same JSON text as the current ones takes the
current messages and the new name; without such an archive a new entry is
added at the end. -/
def archiveUpdate (messages : List Message) (chatName : String) (currentChatId : Nat)
    (prevHistory : List ChatArchive) : List ChatArchive :=
  match findIndex (fun history => messagesJson history.messages == messagesJson messages)
      prevHistory with
  | some existingChatIndex =>
    match prevHistory[existingChatIndex]? with
    | some existing =>
      prevHistory.set existingChatIndex { existing with messages := messages, name := chatName }
    | none => prevHistory
  | none => prevHistory ++ [{ id := currentChatId, messages := messages, name := chatName }]

/-- The template `${key}` of a key that is `null` or a string. -/
def keyText : Option String → String
  | none => "null"
  | some k => k

/-- The request of a title in `saveCurrentChat`. -/
def titleRequest (s : AppState) : Request :=
  { method := "POST",
    url := "https://openrouter.ai/api/v1/chat/completions",
    headers := [("Authorization", "Bearer " ++ keyText s.openRouterApiKey)],
    body := .obj [
      ("messages", .arr [.obj [("role", .str "user"),
        ("content", .str
          ("Using DeepSeek V3, generate a short and meaningful title for the following conversation:\n\n" ++
            "\n".intercalate (s.messages.map (fun m =>
              (if m.isUser then "User: " else "AI: ") ++ m.text.toStr))))]]),
      ("model", .str "deepseek/deepseek-chat")] }

/-- The expression `response.data.choices[0].message.content.trim()`: a content
that is not a string has no `trim` to call. -/
def titleFromResponse (data : JsVal) : Except JsError String :=
  match chatResponseContent data with
  | .error e => .error e
  | .ok (.str s) => .ok (jsTrim s)
  | .ok _ => .error .typeError

/-- The value of `chatName` after the `try`/`catch` of `saveCurrentChat`, before
the time is added: the title of the response, or `Chat from` and the time at
which the `catch` block ran. -/
def generatedTitle (r : NetResult) (fallbackTime : String) : String :=
  match axiosSettle r with
  | .error _ => "Chat from " ++ fallbackTime
  | .ok (_, data) =>
    match titleFromResponse data with
    | .error _ => "Chat from " ++ fallbackTime
    | .ok title => title

/-- The handler `saveCurrentChat` run to completion. `fallbackTime` and
`currentDateTime` are the two readings of `new Date().toLocaleString()`,
`currentChatId` is `Date.now()`. Without messages nothing happens. Otherwise the
title is requested, the name is the title (or the fallback) followed by the
time in brackets, the archive list is updated and the conversation is emptied. -/
def saveCurrentChat (net : Request → NetResult) (fallbackTime currentDateTime : String)
    (currentChatId : Nat) (snap : AppState) (w : World) : Step :=
  if snap.messages.length > 0 then
    let chatName := generatedTitle (net (titleRequest snap)) fallbackTime ++
      " (" ++ currentDateTime ++ ")"
    ⟨(((w.issue (titleRequest snap)).setChatHistory
        (archiveUpdate snap.messages chatName currentChatId)).setMessages (fun _ => [])), none⟩
  else ⟨w, none⟩

/-- The updater passed to `setChatHistory` in `viewChatHistory`: the first
archive with the id of `history` is replaced by `history`; without such an
archive `history` is added at the end. -/
def viewUpdate (history : ChatArchive) (prevHistory : List ChatArchive) : List ChatArchive :=
  match findIndex (fun prev => prev.id == history.id) prevHistory with
  | some existingChatIndex => prevHistory.set existingChatIndex history
  | none => prevHistory ++ [history]

/-- The handler `viewChatHistory(history)`. -/
def viewChatHistory (history : ChatArchive) (w : World) : World :=
  (((w.setChatHistory (viewUpdate history)).setMessages (fun _ => history.messages)
    ).setIsHistoryModalVisible false)

/-- The handler `deleteChatHistory(id)`. -/
def deleteChatHistory (id : Nat) (w : World) : World :=
  w.setChatHistory (fun prevHistory => prevHistory.filter (fun history => history.id != id))

/-! ## Alerts, the clipboard and the highlight of a message -/

/-- The updater `prevMessages.map((message, i) => i === index ? { ...message,
isHighlighted: v } : message)` of `copyToClipboard`. -/
def setHighlight (index : Nat) (v : Bool) : List Message → List Message
  | [] => []
  | message :: rest =>
    match index with
    | 0 => { message with isHighlighted := some v } :: rest
    | i + 1 => message :: setHighlight i v rest

/-- The part of `copyToClipboard(text, index)` that runs at once: when
`Clipboard.setString` succeeds the message at `index` is highlighted, when it
throws the user is alerted. -/
def copyToClipboard (clipboardOk : Bool) (index : Nat) (w : World) : World × Option Alert :=
  if clipboardOk then (w.setMessages (setHighlight index true), none)
  else (w, some ⟨"Error", "Text could not be copied"⟩)

/-- The callback that `copyToClipboard` schedules with `setTimeout` for one
second later: the highlight of the message at `index` is reset. -/
def copyToClipboardTimeout (index : Nat) (w : World) : World :=
  w.setMessages (setHighlight index false)

/-! ## `handleFileUpload` -/

/-- An asset returned by the image picker. -/
structure PickerAsset where
  uri : String
  base64 : Option String
  type : Option String

/-- The result of `ImagePicker.launchImageLibraryAsync`. -/
structure PickerResult where
  canceled : Bool
  assets : List PickerAsset

/-- The characters after the last `/`: `uri.split(\'/\').pop()`. -/
def lastSegment (cs : List Char) : List Char :=
  cs.foldl (fun acc c => if c.toNat = 47 then [] else acc ++ [c]) []

/-- The `length` of a string, in UTF-16 code units. -/
def jsLength (s : String) : Nat :=
  (s.data.map (fun c => if c.toNat < 65536 then 1 else 2)).sum

/-- The object `fileData` that `handleFileUpload` builds from an asset. -/
def fileData (asset : PickerAsset) : UploadedFile :=
  { uri := asset.uri,
    name := String.mk (lastSegment asset.uri.data),
    base64 := asset.base64,
    type := asset.type }

/-- The handler `handleFileUpload`; `picked` is what the picker returned, `none`
when it threw. A file that is not an image and is longer than 500 KB is refused
with an alert; the read of `base64.length` throws on a file without base64,
which is caught with an alert. -/
def handleFileUpload (picked : Option PickerResult) (w : World) : World × Option Alert :=
  match picked with
  | none => (w, some ⟨"Error", "Could not upload the file. Please try again."⟩)
  | some result =>
    if result.canceled then (w, none)
    else
      match result.assets with
      | [] => (w, none)
      | asset :: _ =>
        if asset.type != some "image" then
          match asset.base64 with
          | none => (w, some ⟨"Error", "Could not upload the file. Please try again."⟩)
          | some b =>
            if jsLength b > 500 * 1024 then
              (w, some ⟨"Error", "File must be smaller than 500 KB"⟩)
            else (w.setUploadedFile (some (fileData asset)), none)
        else (w.setUploadedFile (some (fileData asset)), none)

/-- The state `s` with the attachment `f`. -/
def withUploadedFile (s : AppState) (f : Option UploadedFile) : AppState :=
  { s with uploadedFile := f }

/-! ## `handleTranscription` -/

/-- The `FormData` of `handleTranscription` for a provider, as an object whose
fields are the appended entries in order: the file first, then the fixed
parameters of the provider. -/
def transcriptionForm (provider base64Audio : String) : JsVal :=
  .obj ([("file", JsVal.obj [("uri", .str ("data:audio/mp3;base64," ++ base64Audio)),
      ("type", .str "audio/mp3"), ("name", .str "recording.mp3")])] ++
    (if provider = "openai" then
      [("model", .str "whisper-1"), ("response_format", .str "json"), ("language", .str "de")]
    else
      [("response_format", .str "json"), ("detect_language", .str "true")]))

/-- The request posted by `handleTranscription` for a provider. -/
def transcriptionRequest (provider base64Audio key : String) : Request :=
  { method := "POST",
    url := if provider = "openai" then "https://api.openai.com/v1/audio/transcriptions"
      else "https://api.lemonfox.ai/v1/audio/transcriptions",
    headers := [("Authorization", "Bearer " ++ key), ("Content-Type", "multipart/form-data")],
    body := transcriptionForm provider base64Audio }

/-- The updater `(prevInputText) => prevInputText ? prevInputText + \' \' + text
: text` of `handleTranscription`. -/
def appendToDraft (text : String) (prevInputText : String) : String :=
  if prevInputText != "" then prevInputText ++ " " ++ text else text

/-- The part of a branch of `handleTranscription` from `axios.post` on: the
request is issued; a rejected promise throws; a truthy `response.data?.text` is
added to the draft. The draft of the model is a string: a text that is not a
string is added in its string form, which is what the template of the source
does for a draft that is not empty, whereas for an empty draft the source stores
the value as it is. -/
def postAndTranscribe (net : Request → NetResult) (req : Request) (w : World) : Step :=
  match axiosSettle (net req) with
  | .error e => ⟨w.issue req, some e⟩
  | .ok (_, data) =>
    if (data.getPropOpt "text").truthy then
      ⟨{ w.issue req with state := { (w.issue req).state with
          inputText := appendToDraft (data.getPropOpt "text").toStr (w.issue req).state.inputText } },
        none⟩
    else ⟨w.issue req, none⟩

/-- The body of the `try` block of `handleTranscription`; the second component
is the alert of the last `else`. -/
def handleTranscriptionTry (net : Request → NetResult) (snap : AppState) (base64Audio : String)
    (w : World) : Step × Option Alert :=
  match snap.selectedWhisperProvider with
  | none => (⟨w, some (.error "Please select a Whisper provider in settings first.")⟩, none)
  | some provider =>
    if provider = "" then
      (⟨w, some (.error "Please select a Whisper provider in settings first.")⟩, none)
    else if provider = "openai" then
      match snap.openAiApiKey with
      | none => (⟨w, some (.error "No valid OpenAI API key available.")⟩, none)
      | some key =>
        if keyBlank (some key) then
          (⟨w, some (.error "No valid OpenAI API key available.")⟩, none)
        else (postAndTranscribe net (transcriptionRequest "openai" base64Audio key) w, none)
    else if provider = "lemonfox" then
      match snap.lemonfoxApiKey with
      | none => (⟨w, some (.error "No valid LemonFox API key available.")⟩, none)
      | some key =>
        if keyBlank (some key) then
          (⟨w, some (.error "No valid LemonFox API key available.")⟩, none)
        else (postAndTranscribe net (transcriptionRequest "lemonfox" base64Audio key) w, none)
    else (⟨w, none⟩, some ⟨"Error", "The selected API does not support transcription."⟩)

/-- The handler `handleTranscription(base64Audio)` run to completion: the world
it leaves and the alert it showed, if any. An error thrown in the `try` block is
caught and answered with an alert. -/
def handleTranscription (net : Request → NetResult) (snap : AppState) (base64Audio : String)
    (w : World) : World × Option Alert :=
  match handleTranscriptionTry net snap base64Audio w with
  | (⟨w1, some _⟩, _) => (w1, some ⟨"Error", "The audio recording could not be transcribed"⟩)
  | (⟨w1, none⟩, alert) => (w1, alert)

/-! ## The key store: `setSecretStorage`, `getSecretStorage`, `saveApiKeys`, `loadApiKeys`

`AsyncStorage` is a map from names to texts; a write or a read of a name can be
rejected by the device. -/

/-- `AsyncStorage.setItem(key, text)`: rejected for the names in `rejects`,
otherwise the text is stored under the name. -/
def asyncStorageSetItem (rejects : String → Bool) (key text : String)
    (store : List (String × String)) : Except JsError (List (String × String)) :=
  if rejects key then .error (.error "AsyncStorage write failed") else .ok (setKey key text store)

/-- The helper `setSecretStorage(key, value)`: the value is written as its JSON
text; an error of the write is caught and logged. The second component is the
error thrown to the caller. -/
def setSecretStorage (rejects : String → Bool) (key : String) (value : JsVal)
    (store : List (String × String)) : List (String × String) × Option JsError :=
  match asyncStorageSetItem rejects key
      (match value.jsonText with
       | some t => t
       | none => "undefined") store with
  | .ok store1 => (store1, none)
  | .error _ => (store, none)

/-- The helper `getSecretStorage(key)`: the parsed text stored under the name,
`null` when there is none or it is empty, and `null` when the read is rejected
or `JSON.parse` throws. `jsonParse` is the `JSON.parse` of the host. -/
def getSecretStorage (jsonParse : String → Except JsError JsVal) (readRejects : String → Bool)
    (key : String) (store : List (String × String)) : JsVal :=
  if readRejects key then .null
  else
    match getKey key store with
    | none => .null
    | some text =>
      if text != "" then
        match jsonParse text with
        | .ok v => v
        | .error _ => .null
      else .null

/-- The application with its key store and the alerts shown so far. -/
structure Host where
  world : World
  storage : List (String × String)
  alerts : List Alert

/-- A key is truthy: a string that is not empty. -/
def keyTruthy : Option String → Bool
  | none => false
  | some k => k != ""

/-- One statement `if (key) { await setSecretStorage(name, { key }); }` of the
`try` block of `saveApiKeys`, skipped when an earlier statement has thrown. -/
def saveKeyStep (rejects : String → Bool) (name : String) (key : Option String)
    (r : List (String × String) × Option JsError) : List (String × String) × Option JsError :=
  match r.2 with
  | some _ => r
  | none =>
    match key with
    | none => r
    | some k =>
      if k != "" then setSecretStorage rejects name (.obj [("key", .str k)]) r.1 else r

/-- The handler `saveApiKeys` run to completion: the keys of google, openrouter
(from its input field, which is also copied to `openRouterApiKey`), cerebras
and openai are written when they are truthy; then the settings dialog is
closed; an error thrown by a write is answered with an alert instead. -/
def saveApiKeys (rejects : String → Bool) (snap : AppState) (h : Host) : Host :=
  let r1 := saveKeyStep rejects "google-api-key" snap.googleApiKey (h.storage, none)
  let r2 := saveKeyStep rejects "openrouter-api-key" snap.openRouterApiKeyInput r1
  let w2 : World :=
    if r1.2.isNone && r2.2.isNone && keyTruthy snap.openRouterApiKeyInput then
      { h.world with state := { h.world.state with
          openRouterApiKey := snap.openRouterApiKeyInput } }
    else h.world
  let r3 := saveKeyStep rejects "cerebras-api-key" snap.cerebrasApiKey r2
  let r4 := saveKeyStep rejects "openai-api-key" snap.openAiApiKey r3
  match r4.2 with
  | none =>
    { world := { w2 with state := { w2.state with isSettingsModalVisible := false } },
      storage := r4.1, alerts := h.alerts }
  | some _ =>
    { world := w2, storage := r4.1,
      alerts := h.alerts ++ [⟨"Error", "The API keys could not be saved."⟩] }

/-- The value passed to a key setter from `stored.key`: a string, or `null` when
the stored object has no string under `key`. -/
def storedKey (stored : JsVal) : Option String :=
  match stored.getPropOpt "key" with
  | .str k => some k
  | _ => none

/-- The effect `loadApiKeys` that runs at startup: each of the four stored
entries that is truthy sets the key of its provider (the openrouter entry sets
both `openRouterApiKey` and its input field). -/
def loadApiKeys (jsonParse : String → Except JsError JsVal) (readRejects : String → Bool)
    (h : Host) : Host :=
  let storedGoogleKey := getSecretStorage jsonParse readRejects "google-api-key" h.storage
  let storedOpenRouterKey := getSecretStorage jsonParse readRejects "openrouter-api-key" h.storage
  let storedCerebrasKey := getSecretStorage jsonParse readRejects "cerebras-api-key" h.storage
  let storedOpenAiKey := getSecretStorage jsonParse readRejects "openai-api-key" h.storage
  let s0 := h.world.state
  let s1 := if storedGoogleKey.truthy then { s0 with googleApiKey := storedKey storedGoogleKey }
    else s0
  let s2 := if storedOpenRouterKey.truthy then
      { s1 with openRouterApiKey := storedKey storedOpenRouterKey,
                openRouterApiKeyInput := storedKey storedOpenRouterKey }
    else s1
  let s3 := if storedCerebrasKey.truthy then
      { s2 with cerebrasApiKey := storedKey storedCerebrasKey }
    else s2
  let s4 := if storedOpenAiKey.truthy then { s3 with openAiApiKey := storedKey storedOpenAiKey }
    else s3
  { h with world := { h.world with state := s4 } }

/-- The restore of the archive `e` followed by one copy-feedback cycle on the
message at `index`: `viewChatHistory(e)`, then `copyToClipboard` with a working
clipboard, then the callback that resets the highlight. -/
def restoreAndCopy (e : ChatArchive) (index : Nat) (w : World) : World :=
  copyToClipboardTimeout index (copyToClipboard true index (viewChatHistory e w)).1

/-! ## The google parts in the words of the specification -/

/-- The attachment parts as the specification words them: for an image with
base64 content an `inlineData` part with that base64 and the mime type of the
attachment, then the caption; otherwise, for an attachment with text content,
one text part with that content. `mimeType` stands for the mime type of the
attachment, which the object built by `handleFileUpload` does not record. -/
def claimedAttachmentParts (mimeType : String) : Option UploadedFile → List JsVal
  | none => []
  | some f =>
    if (match f.base64 with | some b => b != "" | none => false) && f.type == some "image" then
      [ .obj [("inlineData",
          .obj [("mimeType", .str mimeType),
                ("data", match f.base64 with | some b => .str b | none => .undefined)])],
        textPart (.str
          "Please describe what you see in this image and provide relevant insights.") ]
    else
      match f.content with
      | some c => if c != "" then [textPart (.str c)] else []
      | none => []

/-- The parts sequence as the specification words it: the system prompt, the
prior messages, the new text when it is not blank, then
`claimedAttachmentParts`. -/
def claimedGoogleParts (mimeType : String) (s : AppState) (text : String) : List JsVal :=
  [textPart (.str s.systemPrompt)] ++ historyParts s.messages ++
    (if jsTrim text != "" then [textPart (.str text)] else []) ++
    claimedAttachmentParts mimeType s.uploadedFile

/-- The `parts` array of the first entry of `contents` in the body of a google
request. -/
def requestParts (req : Request) : JsVal :=
  ((req.body.getPropOpt "contents").getIndex0Opt).getPropOpt "parts"

/-! ## Example inputs -/

/-- A reply of a chat-completion endpoint that carries the text `Hello!`. -/
def exampleChatReply : JsVal :=
  .obj [("choices", .arr [.obj [("message",
    .obj [("role", .str "assistant"), ("content", .str "Hello!")])]])]

/-- A reply of the google endpoint that carries the text `A cat.` in two parts. -/
def exampleGoogleReply : JsVal :=
  .obj [("candidates", .arr [.obj [("content",
    .obj [("parts", .arr [.obj [("text", .str "A ")], .obj [("text", .str "cat.")]])])]])]

/-- A network that answers every request with status 200 and `exampleChatReply`. -/
def exampleChatNet : Request → NetResult := fun _ => .response 200 exampleChatReply

/-- A network that answers every request with status 200 and `exampleGoogleReply`. -/
def exampleGoogleNet : Request → NetResult := fun _ => .response 200 exampleGoogleReply

/-- A conversation of two messages. -/
def examplePrior : List Message :=
  [ { text := .str "Hi", isUser := true, timestamp := "10:14" },
    { text := .str "Hello, how can I help?", isUser := false, timestamp := "10:14" } ]

/-- The initial state with a cerebras key, the cerebras model selected and a
conversation of two messages. -/
def exampleCerebrasState : AppState :=
  { initialState with
    selectedModel := "llama-3.3-70b", cerebrasApiKey := some "csk-1", messages := examplePrior }

/-- The initial state (a google model is selected) with a google key, a
conversation of two messages and an attached image. -/
def exampleGoogleState : AppState :=
  { initialState with
    googleApiKey := some "AIza-1", messages := examplePrior,
    uploadedFile := some
      { uri := "file:///tmp/cat.jpg", name := "cat.jpg", base64 := some "QUJD",
        type := some "image" } }

/-- The initial state with the cerebras model selected and a cerebras key made
of white space only. -/
def exampleBlankKeyState : AppState :=
  { initialState with selectedModel := "llama-3.3-70b", cerebrasApiKey := some "  \t" }

/-- A network that answers every request with status 401. -/
def exampleUnauthorizedNet : Request → NetResult := fun _ => .response 401 .null

/-- The world after `validateApiKey('cerebras', 'csk-1')` ran in the cerebras
example against a provider that answers 401. -/
def exampleRejectedWorld : World :=
  (validateApiKey exampleUnauthorizedNet "cerebras" (some "csk-1")
    ⟨exampleCerebrasState, []⟩).world

/-- A successful chat-completion response without `choices`. -/
def exampleNoChoicesNet : Request → NetResult := fun _ => .response 200 (.obj [])

/-- A successful chat-completion response whose message has no `content`. -/
def exampleNoContentNet : Request → NetResult := fun _ =>
  .response 200 (.obj [("choices", .arr [.obj [("message", .obj [("role", .str "assistant")])]])])

/-- A network that answers every request with the success status 204 and no body. -/
def exampleNoContentStatusNet : Request → NetResult := fun _ => .response 204 (.str "")

/-- The initial state with openai validated and selected, and the new-model
form filled with the value of the model that is already registered. -/
def exampleDuplicateFormState : AppState :=
  { initialState with
    selectedApi := "openai",
    apiValidationStatus := setKey "openai" "success" initialState.apiValidationStatus,
    newModelName := "GPT-4 again", newModelValue := "gpt-4", newModelShortName := "G",
    isAddingNewModel := true }

/-- The initial state with google and openai validated. -/
def exampleValidatedState : AppState :=
  { initialState with
    apiValidationStatus :=
      setKey "openai" "success" (setKey "google" "success" initialState.apiValidationStatus) }

/-- The comparison of two lists of characters by their code points. -/
def compareCodePoints : List Char → List Char → Int
  | [], [] => 0
  | [], _ :: _ => -1
  | _ :: _, [] => 1
  | a :: as, b :: bs =>
    if a.toNat < b.toNat then -1
    else if b.toNat < a.toNat then 1
    else compareCodePoints as bs

/-- A collation that orders strings by their code points. -/
def exampleCollation (a b : String) : Int :=
  compareCodePoints a.data b.data

/-- The order of the quick-access selector in the words of the specification:
`a` stands before `b` when its rank is smaller, or when both have rank 0 and
the short name of `a` does not sort after that of `b`. -/
def quickAccessBefore (localeCompare : String → String → Int) (a b : ModelConfig) : Prop :=
  rank a.shortName < rank b.shortName ∨
    (rank a.shortName = 0 ∧ rank b.shortName = 0 ∧ localeCompare a.shortName b.shortName ≤ 0)

/-- Models with the short names `B`, `M`, `A`, `T`, in this order. -/
def exampleQuickAccessModels : List ModelConfig :=
  [ { name := "Model B", value := "b", api := "openai", shortName := "B" },
    { name := "Model M", value := "m", api := "openai", shortName := "M" },
    { name := "Model A", value := "a", api := "openai", shortName := "A" },
    { name := "Model T", value := "t", api := "openai", shortName := "T" } ]

/-- An archive list with one entry, which holds the conversation `examplePrior`. -/
def exampleArchive : List ChatArchive :=
  [ { id := 1000, messages := examplePrior, name := "First chat (1.1.2025, 10:20:00)" } ]

/-- The cerebras example with the archive list `exampleArchive`. -/
def exampleArchivedState : AppState :=
  { exampleCerebrasState with chatHistory := exampleArchive }

/-- A network that answers every request with status 200 and a title. -/
def exampleTitleNet : Request → NetResult := fun _ =>
  .response 200 (.obj [("choices", .arr [.obj [("message",
    .obj [("role", .str "assistant"), ("content", .str " Greeting ")])]])])

/-- A network on which every request gets no response. -/
def exampleDownNet : Request → NetResult := fun _ => .noResponse

/-- A network that answers every request with status 200 and a transcription. -/
def exampleTranscriptNet : Request → NetResult := fun _ =>
  .response 200 (.obj [("text", .str "guten Morgen")])

/-- The key that the branch of `handleTranscription` for a provider reads. -/
def whisperKey (s : AppState) (provider : String) : Option String :=
  if provider = "openai" then s.openAiApiKey else s.lemonfoxApiKey

/-- The initial state with lemonfox selected for transcription, a lemonfox key
and the draft `Notiz:`. -/
def exampleLemonfoxState : AppState :=
  { initialState with
    selectedWhisperProvider := some "lemonfox", lemonfoxApiKey := some "lf-1",
    inputText := "Notiz:" }

/-- The initial state with openai selected for transcription and an openai key,
after the validation of that key has ended with `error`. -/
def exampleOpenAiRejectedState : AppState :=
  { initialState with
    selectedWhisperProvider := some "openai", openAiApiKey := some "sk-1",
    apiValidationStatus := setKey "openai" "error" initialState.apiValidationStatus }

/-- The initial state with a key for each of the five providers entered and the
settings dialog open. -/
def exampleAllKeysState : AppState :=
  { initialState with
    googleApiKey := some "AIza-1", openRouterApiKeyInput := some "or-1",
    cerebrasApiKey := some "csk-1", lemonfoxApiKey := some "lf-1", openAiApiKey := some "sk-1",
    isSettingsModalVisible := true }

/-- The application in `exampleAllKeysState` with an empty key store. -/
def exampleAllKeysHost : Host :=
  { world := ⟨exampleAllKeysState, []⟩, storage := [], alerts := [] }

/-- The initial state with a google key and a selection that names no
registered model. -/
def exampleStaleState : AppState :=
  { initialState with selectedModel := "deleted-model", googleApiKey := some "AIza-1" }

/-- Two models that both carry the short name `T`. -/
def exampleTiedModels : ModelConfig × ModelConfig :=
  ({ name := "Thinking", value := "t1", api := "google", shortName := "T" },
   { name := "Turbo", value := "t2", api := "openai", shortName := "T" })

/-- A video picked from the library. -/
def exampleVideoAsset : PickerAsset :=
  { uri := "file:///tmp/media/clip.mp4", base64 := some "AAAA", type := some "video" }

/-- The application in its initial state with the archive list `exampleArchive`. -/
def exampleArchiveWorld : World :=
  ⟨{ initialState with chatHistory := exampleArchive }, []⟩

/-- The one entry of `exampleArchive`. -/
def exampleArchiveEntry : ChatArchive :=
  { id := 1000, messages := examplePrior, name := "First chat (1.1.2025, 10:20:00)" }

/-- The application with two archives: the conversation `examplePrior`, and the
same conversation after a copy-feedback cycle on its first message. -/
def exampleHighlightedArchiveWorld : World :=
  ⟨{ initialState with chatHistory :=
      [ exampleArchiveEntry,
        { id := 2000, messages := setHighlight 0 false examplePrior,
          name := "Second chat (1.1.2025, 10:30:00)" } ] }, []⟩

/-- The initial state (a google model is selected) with a google key, no prior
message and an attached PNG image. -/
def examplePngState : AppState :=
  { initialState with
    googleApiKey := some "AIza-1",
    uploadedFile := some
      { uri := "file:///tmp/chart.png", name := "chart.png", base64 := some "iVBORw0KGgo=",
        type := some "image" } }

/-- The initial state (a google model is selected) with a google key, no prior
message and an attached file that carries the text content `abc`. -/
def exampleTextFileState : AppState :=
  { initialState with
    googleApiKey := some "AIza-1",
    uploadedFile := some
      { uri := "file:///tmp/notes.txt", name := "notes.txt", base64 := none,
        type := none, content := some "abc" } }

/-! ## Lemmas on the building blocks -/

theorem jsTrim_empty : jsTrim "" = "" := by decide

theorem extend_nil (w : World) : w.extend [] [] = w := by
  simp [World.extend]

theorem keyMissingOrBlank_eq_keyBlank (k : Option String) :
    keyMissingOrBlank k = keyBlank k := by
  cases k with
  | none => rfl
  | some k =>
    by_cases h : k = ""
    · subst h; simp [keyMissingOrBlank, keyBlank, jsTrim_empty]
    · simp [keyMissingOrBlank, keyBlank, h]

theorem sendMessageTry_blank_key (net : Request → NetResult) (timestamp : String)
    (snap : AppState) (text : String) (cfg : ModelConfig)
    (hcfg : selectedModelConfig snap = some cfg) (hapi : hasSendBranch cfg.api)
    (hkey : keyBlank (sendKey snap cfg.api) = true) :
    ∃ e, ∀ w, sendMessageTry net timestamp snap text w = ⟨w.extend [] [], some e⟩ := by
  rcases hapi with h | h | h | h
  all_goals
    simp only [sendKey, h] at hkey
    simp only [sendMessageTry, hcfg, h, keyMissingOrBlank_eq_keyBlank, extend_nil]
    simp only [reduceCtorEq, String.reduceEq, if_true, if_false] at hkey ⊢
    split
    · exact ⟨_, fun _ => rfl⟩
    · rename_i key hk
      rw [hk] at hkey
      simp only [hkey, if_true]
      exact ⟨_, fun _ => rfl⟩

theorem sendMessageTry_with_key (net : Request → NetResult) (timestamp : String)
    (snap : AppState) (text : String) (w : World) (cfg : ModelConfig) (key : String)
    (hcfg : selectedModelConfig snap = some cfg) (hapi : hasSendBranch cfg.api)
    (hkey : sendKey snap cfg.api = some key) (hnb : keyBlank (some key) = false) :
    sendMessageTry net timestamp snap text w =
      postAndAppend net timestamp (sendRequest snap text cfg.api key) (parseReply cfg.api) w := by
  rcases hapi with h | h | h | h
  all_goals
    simp only [sendKey, h] at hkey
    simp only [reduceCtorEq, String.reduceEq, if_true, if_false] at hkey
    simp only [sendMessageTry, hcfg, h, keyMissingOrBlank_eq_keyBlank, sendRequest]
    simp only [hkey, hnb, reduceCtorEq, String.reduceEq, if_true, if_false]
    congr 1

theorem postAndAppend_requests (net : Request → NetResult) (timestamp : String) (req : Request)
    (parse : JsVal → Except JsError JsVal) (w : World) :
    (postAndAppend net timestamp req parse w).world.requests = w.requests ++ [req] := by
  unfold postAndAppend
  split
  · rfl
  · split <;> rfl

theorem postAndAppend_frame (net : Request → NetResult) (timestamp : String) (req : Request)
    (parse : JsVal → Except JsError JsVal) (w : World) :
    ∃ l, (postAndAppend net timestamp req parse w).world = w.extend l [req] := by
  unfold postAndAppend
  split
  · exact ⟨[], by simp [World.issue, World.extend]⟩
  · split
    · exact ⟨[], by simp [World.issue, World.extend]⟩
    · exact ⟨[_], rfl⟩

theorem sendMessageTry_frame (net : Request → NetResult) (timestamp : String)
    (snap : AppState) (text : String) (w : World) :
    ∃ l rs, (sendMessageTry net timestamp snap text w).world = w.extend l rs := by
  have hp : ∀ req parse, ∃ l rs,
      (postAndAppend net timestamp req parse w).world = w.extend l rs := by
    intro req parse
    obtain ⟨l, hl⟩ := postAndAppend_frame net timestamp req parse w
    exact ⟨l, [req], hl⟩
  unfold sendMessageTry
  repeat' split
  all_goals first
    | exact ⟨[], [], (extend_nil w).symm⟩
    | exact hp _ _

theorem sendGuard_iff (snap : AppState) (text : String) :
    sendGuard snap text = true ↔
      (jsTrim text = "" ∧
        (snap.uploadedFile = none ∨ (selectedModelConfig snap).map (fun m => m.api) ≠ some "google")) := by
  unfold sendGuard
  cases hf : snap.uploadedFile <;> cases hc : selectedModelConfig snap <;> simp

/-- The world after a send that passed the guard: the user message and at most
what the `try` block appended, the input cleared, the attachment cleared and the
loading flag lowered. -/
theorem sendMessage_after_guard (net : Request → NetResult) (timestamp : String)
    (snap : AppState) (text : String) (w : World) (hguard : sendGuard snap text = false) :
    ∃ l rs, (sendMessage net timestamp snap text w).world.state.messages =
        w.state.messages ++ userMessage snap text timestamp :: l ∧
      (sendMessage net timestamp snap text w).world.requests = w.requests ++ rs ∧
      (sendMessage net timestamp snap text w).world.state.uploadedFile = none ∧
      (sendMessage net timestamp snap text w).world.state.isLoading = false := by
  simp only [sendMessage, hguard, Bool.false_eq_true, if_false]
  generalize hw1 : (((w.setMessages
      (fun prevMessages => prevMessages ++ [userMessage snap text timestamp])
      ).setInputText "").setIsLoading true) = w1
  have hm1 : w1.state.messages = w.state.messages ++ [userMessage snap text timestamp] := by
    rw [← hw1]; rfl
  have hr1 : w1.requests = w.requests := by rw [← hw1]; rfl
  obtain ⟨l, rs, h⟩ := sendMessageTry_frame net timestamp snap text w1
  generalize sendMessageTry net timestamp snap text w1 = body at h
  obtain ⟨bw, bt⟩ := body
  simp only at h
  subst h
  cases bt with
  | none =>
    exact ⟨l, rs, by
      simp [World.extend, World.setMessages, World.setIsLoading, World.setUploadedFile, hm1, hr1]⟩
  | some e =>
    exact ⟨l ++ [errorMessage timestamp], rs, by
      simp [World.extend, World.setMessages, World.setIsLoading, World.setUploadedFile, hm1, hr1]⟩

/-- C1: `sendMessage(text)` returns having appended no message, with `inputText`,
`isLoading` and `uploadedFile` as they were and no HTTP request issued, exactly
when `text.trim()` is empty and either there is no attachment or the model
resolved from `selectedModel` is not a google model; in every other case the
user message is appended to the conversation. -/
theorem sendMessage_noop_iff_guard (net : Request → NetResult) (timestamp : String)
    (snap : AppState) (text : String) (w : World) :
    (((sendMessage net timestamp snap text w).world.state.messages = w.state.messages ∧
        (sendMessage net timestamp snap text w).world.state.inputText = w.state.inputText ∧
        (sendMessage net timestamp snap text w).world.state.isLoading = w.state.isLoading ∧
        (sendMessage net timestamp snap text w).world.state.uploadedFile = w.state.uploadedFile ∧
        (sendMessage net timestamp snap text w).world.requests = w.requests) ↔
      (jsTrim text = "" ∧
        (snap.uploadedFile = none ∨
          (selectedModelConfig snap).map (fun m => m.api) ≠ some "google"))) ∧
    (¬ (jsTrim text = "" ∧
        (snap.uploadedFile = none ∨
          (selectedModelConfig snap).map (fun m => m.api) ≠ some "google")) →
      ∃ rest, (sendMessage net timestamp snap text w).world.state.messages =
        w.state.messages ++ userMessage snap text timestamp :: rest) := by
  rw [← sendGuard_iff]
  cases hg : sendGuard snap text with
  | true => simp [sendMessage, hg]
  | false =>
    obtain ⟨l, rs, hm, -, -, -⟩ := sendMessage_after_guard net timestamp snap text w hg
    refine ⟨⟨fun h => ?_, fun h => by simp at h⟩, fun _ => ⟨l, hm⟩⟩
    have := congrArg List.length (h.1.symm.trans hm)
    simp at this

/-- The world in which the `try` block of `sendMessage` starts. -/
theorem sendMessage_of_try (net : Request → NetResult) (timestamp : String)
    (snap : AppState) (text : String) (w : World) (hguard : sendGuard snap text = false)
    (l : List Message) (rs : List Request) (t : Option JsError)
    (htry : ∀ w1, sendMessageTry net timestamp snap text w1 = ⟨w1.extend l rs, t⟩) :
    (sendMessage net timestamp snap text w).world.state.messages =
        w.state.messages ++ [userMessage snap text timestamp] ++ l ++
          (match t with
           | none => []
           | some _ => [errorMessage timestamp]) ∧
      (sendMessage net timestamp snap text w).world.requests = w.requests ++ rs := by
  simp only [sendMessage, hguard, Bool.false_eq_true, if_false, htry]
  cases t <;>
    simp [World.extend, World.setMessages, World.setIsLoading, World.setUploadedFile,
      World.setInputText]

theorem postAndAppend_rejected (net : Request → NetResult) (timestamp : String) (req : Request)
    (parse : JsVal → Except JsError JsVal) (w : World) (e : JsError)
    (h : axiosSettle (net req) = .error e) :
    postAndAppend net timestamp req parse w = ⟨w.extend [] [req], some e⟩ := by
  simp [postAndAppend, h, World.extend, World.issue]

theorem postAndAppend_unreadable (net : Request → NetResult) (timestamp : String)
    (req : Request) (parse : JsVal → Except JsError JsVal) (w : World) (status : Nat)
    (data : JsVal) (e : JsError) (h : axiosSettle (net req) = .ok (status, data))
    (hp : parse data = .error e) :
    postAndAppend net timestamp req parse w = ⟨w.extend [] [req], some e⟩ := by
  simp [postAndAppend, h, hp, World.extend, World.issue]

theorem postAndAppend_read (net : Request → NetResult) (timestamp : String)
    (req : Request) (parse : JsVal → Except JsError JsVal) (w : World) (status : Nat)
    (data content : JsVal) (h : axiosSettle (net req) = .ok (status, data))
    (hp : parse data = .ok content) :
    postAndAppend net timestamp req parse w =
      ⟨w.extend [llmMessage content timestamp] [req], none⟩ := by
  simp [postAndAppend, h, hp, World.extend, World.issue, World.setMessages]

theorem axiosSettle_noResponse : axiosSettle .noResponse = .error .requestFailed := rfl

theorem axiosSettle_success (status : Nat) (data : JsVal) (h : 200 ≤ status ∧ status < 300) :
    axiosSettle (.response status data) = .ok (status, data) := by
  simp [axiosSettle, h]

theorem axiosSettle_failure (status : Nat) (data : JsVal) (h : ¬ (200 ≤ status ∧ status < 300)) :
    axiosSettle (.response status data) = .error .requestFailed := by
  simp only [axiosSettle, h, if_false]

theorem sendKey_of_not_blank (snap : AppState) (api : String)
    (h : keyBlank (sendKey snap api) = false) :
    ∃ key, sendKey snap api = some key ∧ keyBlank (some key) = false := by
  cases hk : sendKey snap api with
  | none => rw [hk] at h; simp [keyBlank] at h
  | some key => exact ⟨key, rfl, hk ▸ h⟩

theorem postAndAppend_uniform (net : Request → NetResult) (timestamp : String) (req : Request)
    (parse : JsVal → Except JsError JsVal) :
    ∃ l t, ∀ w, postAndAppend net timestamp req parse w = ⟨w.extend l [req], t⟩ := by
  cases h : axiosSettle (net req) with
  | error e => exact ⟨[], some e, fun w => postAndAppend_rejected net timestamp req parse w e h⟩
  | ok r =>
    obtain ⟨status, data⟩ := r
    cases hp : parse data with
    | error e =>
      exact ⟨[], some e, fun w =>
        postAndAppend_unreadable net timestamp req parse w status data e h hp⟩
    | ok content =>
      exact ⟨[llmMessage content timestamp], none, fun w =>
        postAndAppend_read net timestamp req parse w status data content h hp⟩

/-- With a usable key the send issues exactly the request of its branch. -/
theorem sendMessage_requests_with_key (net : Request → NetResult) (timestamp : String)
    (snap : AppState) (text : String) (w : World) (cfg : ModelConfig) (key : String)
    (hguard : sendGuard snap text = false)
    (hcfg : selectedModelConfig snap = some cfg) (hapi : hasSendBranch cfg.api)
    (hkey : sendKey snap cfg.api = some key) (hnb : keyBlank (some key) = false) :
    (sendMessage net timestamp snap text w).world.requests =
      w.requests ++ [sendRequest snap text cfg.api key] := by
  obtain ⟨l, t, h⟩ := postAndAppend_uniform net timestamp (sendRequest snap text cfg.api key)
    (parseReply cfg.api)
  exact (sendMessage_of_try net timestamp snap text w hguard l _ t (fun w1 => by
    rw [sendMessageTry_with_key net timestamp snap text w1 cfg key hcfg hapi hkey hnb, h])).2

/-- C2: for a flat-chat provider (cerebras, openrouter, openai) with a non-blank
key and an accepted text, `sendMessage` issues one request whose body has as
`messages` the prior messages mapped in order to `{role, content}` (`user` for a
user message, `assistant` otherwise), then the system entry with `systemPrompt`,
then the user entry with the text: `n + 2` entries for `n` prior messages. -/
theorem flat_chat_request_messages (net : Request → NetResult) (timestamp : String)
    (snap : AppState) (text : String) (w : World) (cfg : ModelConfig) (key : String)
    (hcfg : selectedModelConfig snap = some cfg)
    (hflat : cfg.api = "cerebras" ∨ cfg.api = "openrouter" ∨ cfg.api = "openai")
    (hkey : sendKey snap cfg.api = some key) (hnb : keyBlank (some key) = false)
    (haccept : sendGuard snap text = false) :
    ∃ req entries, (sendMessage net timestamp snap text w).world.requests = w.requests ++ [req] ∧
      req.body.getPropOpt "messages" = .arr entries ∧
      entries =
        snap.messages.map (fun m =>
          JsVal.obj [("role", .str (if m.isUser then "user" else "assistant")),
                     ("content", m.text)]) ++
        [ .obj [("role", .str "system"), ("content", .str snap.systemPrompt)],
          .obj [("role", .str "user"), ("content", .str text)] ] ∧
      entries.length = snap.messages.length + 2 := by
  refine ⟨sendRequest snap text cfg.api key, chatHistory snap text,
    sendMessage_requests_with_key net timestamp snap text w cfg key haccept hcfg
      (Or.inr hflat) hkey hnb, ?_, ?_, ?_⟩
  · rcases hflat with h | h | h <;>
      simp [sendRequest, h, cerebrasRequest, openRouterRequest, openAiRequest,
        JsVal.getPropOpt, JsVal.lookupField]
  · simp [chatHistory]
  · simp [chatHistory]

/-- C2, on a conversation of two messages: the cerebras request carries four
entries, the two prior ones, the system prompt and the new text. -/
theorem flat_chat_request_messages_witness :
    ∃ req, (sendMessage exampleChatNet "10:15" exampleCerebrasState "hello"
        ⟨exampleCerebrasState, []⟩).world.requests = [req] ∧
      req.body.getPropOpt "messages" = .arr [
        .obj [("role", .str "user"), ("content", .str "Hi")],
        .obj [("role", .str "assistant"), ("content", .str "Hello, how can I help?")],
        .obj [("role", .str "system"), ("content", .str initialState.systemPrompt)],
        .obj [("role", .str "user"), ("content", .str "hello")] ] := by
  obtain ⟨req, entries, hreq, hbody, hentries, -⟩ :=
    flat_chat_request_messages exampleChatNet "10:15" exampleCerebrasState "hello"
      ⟨exampleCerebrasState, []⟩
      { name := "Cerebras Llama 3.3", value := "llama-3.3-70b", api := "cerebras",
        shortName := "C", quickAccess := some true }
      "csk-1" rfl (Or.inl rfl) rfl (by decide) (by decide)
  refine ⟨req, hreq, ?_⟩
  rw [hbody, hentries]
  rfl

theorem attachmentParts_image (f : UploadedFile) (b : String) (hb : f.base64 = some b)
    (hne : b ≠ "") (ht : f.type = some "image") :
    attachmentParts (some f) =
      [ .obj [("inlineData", .obj [("mimeType", .str "image/jpeg"), ("data", .str b)])],
        .obj [("text", .str
          "Please describe what you see in this image and provide relevant insights.")] ] := by
  simp [attachmentParts, hb, hne, ht, textPart]

theorem attachmentParts_other (f : UploadedFile)
    (h : ¬ ∃ b, f.base64 = some b ∧ b ≠ "" ∧ f.type = some "image") :
    attachmentParts (some f) =
      (match f.content with
       | some c =>
         if c != "" then
           [textPart (.str ("Hochgeladene Datei: " ++ f.name ++ "\n\n" ++ c))]
         else []
       | none => []) := by
  have hc : ((match f.base64 with | some b => b != "" | none => false) &&
      f.type == some "image") = false := by
    cases hb : f.base64 with
    | none => simp
    | some b =>
      by_cases hne : b = ""
      · simp [hne]
      · by_cases ht : f.type = some "image"
        · exact absurd ⟨b, hb, hne, ht⟩ h
        · simp [ht]
  simp only [attachmentParts, hc, Bool.false_eq_true, if_false]

/-- C3 (as amended): for the google provider with a non-blank key and an
accepted text, `sendMessage` issues one request whose `parts` are, in order: the
text part with `systemPrompt`; one text part per prior message (the text of a
user message, `Assistant: ` followed by the text of an assistant message); one
text part with the new text exactly when `text.trim()` is not empty; then, for an
image attachment with base64 content, the `inlineData` part with that base64 and
the constant `mimeType` `image/jpeg`, followed by the caption text part,
otherwise, for an attachment with text content, one text part whose text is
`Hochgeladene Datei: `, the file name, two line breaks and that content; and
nothing else. -/
theorem google_request_parts (net : Request → NetResult) (timestamp : String)
    (snap : AppState) (text : String) (w : World) (cfg : ModelConfig) (key : String)
    (hcfg : selectedModelConfig snap = some cfg) (hgoogle : cfg.api = "google")
    (hkey : snap.googleApiKey = some key) (hnb : keyBlank (some key) = false)
    (haccept : sendGuard snap text = false) :
    ∃ req att, (sendMessage net timestamp snap text w).world.requests = w.requests ++ [req] ∧
      ((req.body.getPropOpt "contents").getIndex0Opt).getPropOpt "parts" = .arr (
        [JsVal.obj [("text", .str snap.systemPrompt)]] ++
        snap.messages.map (fun m =>
          JsVal.obj [("text", if m.isUser then m.text
            else .str ("Assistant: " ++ m.text.toStr))]) ++
        (if jsTrim text = "" then [] else [JsVal.obj [("text", .str text)]]) ++
        att) ∧
      (snap.uploadedFile = none → att = []) ∧
      (∀ f b, snap.uploadedFile = some f → f.base64 = some b → b ≠ "" →
        f.type = some "image" →
        att = [ .obj [("inlineData", .obj [("mimeType", .str "image/jpeg"), ("data", .str b)])],
                .obj [("text", .str
                  "Please describe what you see in this image and provide relevant insights.")] ]) ∧
      (∀ f, snap.uploadedFile = some f →
        (¬ ∃ b, f.base64 = some b ∧ b ≠ "" ∧ f.type = some "image") →
        (∀ c, f.content = some c → c ≠ "" →
          att = [.obj [("text", .str ("Hochgeladene Datei: " ++ f.name ++ "\n\n" ++ c))]]) ∧
        ((f.content = none ∨ f.content = some "") → att = [])) := by
  have hsk : sendKey snap cfg.api = some key := by simp [sendKey, hgoogle, hkey]
  refine ⟨sendRequest snap text cfg.api key, attachmentParts snap.uploadedFile,
    sendMessage_requests_with_key net timestamp snap text w cfg key haccept hcfg
      (Or.inl hgoogle) hsk hnb, ?_, ?_, ?_, ?_⟩
  · simp only [sendRequest, hgoogle, if_true, googleRequest, JsVal.getPropOpt,
      JsVal.lookupField, JsVal.getIndex0Opt, googleParts, historyParts, textPart]
    have hm : (fun (message : Message) =>
          if message.isUser = true then JsVal.obj [("text", message.text)]
          else JsVal.obj [("text", JsVal.str ("Assistant: " ++ message.text.toStr))]) =
        (fun m => JsVal.obj [("text", if m.isUser = true then m.text
            else JsVal.str ("Assistant: " ++ m.text.toStr))]) := by
      funext m
      split <;> rfl
    have ht : (if (jsTrim text != "") = true then [JsVal.obj [("text", JsVal.str text)]]
        else []) = (if jsTrim text = "" then [] else [JsVal.obj [("text", JsVal.str text)]]) := by
      by_cases ht : jsTrim text = "" <;> simp [ht]
    rw [hm, ht]
  · intro h
    rw [h]
    rfl
  · intro f b hf hb hne ht
    rw [hf]
    exact attachmentParts_image f b hb hne ht
  · intro f hf himg
    rw [hf, attachmentParts_other f himg]
    refine ⟨fun c hc hne => ?_, fun hc => ?_⟩
    · simp [hc, hne, textPart]
    · rcases hc with hc | hc <;> simp [hc]

/-- C3 (as amended), on a conversation of two messages with an attached image:
the parts are the system prompt, the two prior messages, the new text, the image
data and the caption. -/
theorem google_request_parts_witness :
    ∃ req, (sendMessage exampleGoogleNet "10:15" exampleGoogleState "What is this?"
        ⟨exampleGoogleState, []⟩).world.requests = [req] ∧
      ((req.body.getPropOpt "contents").getIndex0Opt).getPropOpt "parts" = .arr [
        .obj [("text", .str initialState.systemPrompt)],
        .obj [("text", .str "Hi")],
        .obj [("text", .str "Assistant: Hello, how can I help?")],
        .obj [("text", .str "What is this?")],
        .obj [("inlineData", .obj [("mimeType", .str "image/jpeg"), ("data", .str "QUJD")])],
        .obj [("text", .str
          "Please describe what you see in this image and provide relevant insights.")] ] := by
  obtain ⟨req, att, hreq, hparts, -, himage, -⟩ :=
    google_request_parts exampleGoogleNet "10:15" exampleGoogleState "What is this?"
      ⟨exampleGoogleState, []⟩
      { name := "Gemini 2.0", value := "gemini-2.0-flash-exp", api := "google",
        shortName := "F", quickAccess := some true }
      "AIza-1" rfl rfl rfl (by decide) (by decide)
  refine ⟨req, hreq, ?_⟩
  rw [hparts, himage _ "QUJD" rfl rfl (by decide) rfl]
  rfl

/-- C3 as stated fails on two sends. With an attached PNG image the `inlineData`
part carries the mime type `image/jpeg`, so the parts are not the sequence of
the specification with the mime type `image/png` of the attachment. With an
attached file of text content `abc` the last part carries the text
`Hochgeladene Datei: notes.txt`, two line breaks and `abc`, so the parts are
not the sequence of the specification, whose last part carries `abc`, whatever
the mime type. -/
theorem google_request_parts_as_claimed_counterexample :
    (∃ req, (sendMessage exampleGoogleNet "10:15" examplePngState "What is this?"
          ⟨examplePngState, []⟩).world.requests = [req] ∧
        requestParts req = .arr [
          .obj [("text", .str initialState.systemPrompt)],
          .obj [("text", .str "What is this?")],
          .obj [("inlineData",
            .obj [("mimeType", .str "image/jpeg"), ("data", .str "iVBORw0KGgo=")])],
          .obj [("text", .str
            "Please describe what you see in this image and provide relevant insights.")] ] ∧
        requestParts req ≠
          .arr (claimedGoogleParts "image/png" examplePngState "What is this?")) ∧
    (∃ req, (sendMessage exampleGoogleNet "10:15" exampleTextFileState "Summarise this."
          ⟨exampleTextFileState, []⟩).world.requests = [req] ∧
        requestParts req = .arr [
          .obj [("text", .str initialState.systemPrompt)],
          .obj [("text", .str "Summarise this.")],
          .obj [("text", .str "Hochgeladene Datei: notes.txt\n\nabc")] ] ∧
        ∀ mimeType, requestParts req ≠
          .arr (claimedGoogleParts mimeType exampleTextFileState "Summarise this.")) := by
  refine ⟨⟨_, rfl, rfl, fun h => ?_⟩, ⟨_, rfl, rfl, fun mimeType h => ?_⟩⟩
  · have h2 := congrArg (fun (v : JsVal) => (match v with
      | JsVal.arr l =>
        l.map (fun (p : JsVal) => ((p.getPropOpt "inlineData").getPropOpt "mimeType").toStr)
      | _ => ([] : List String))) h
    exact absurd h2 (by decide)
  · have hc : claimedGoogleParts mimeType exampleTextFileState "Summarise this." =
        claimedGoogleParts "" exampleTextFileState "Summarise this." := rfl
    rw [hc] at h
    have h2 := congrArg (fun (v : JsVal) => (match v with
      | JsVal.arr l => (l.drop 2).map (fun (p : JsVal) => (p.getPropOpt "text").toStr)
      | _ => ([] : List String))) h
    exact absurd h2 (by decide)

theorem sendMessage_thrown (net : Request → NetResult) (timestamp : String)
    (snap : AppState) (text : String) (w : World) :
    (sendMessage net timestamp snap text w).thrown = none := by
  unfold sendMessage
  split <;> rfl

/-- C4: a send that passes the guard with a model of google, cerebras, openrouter
or openai throws nothing and ends with the prior messages, then the user message
(`isUser = true`, the text that was sent when it is not blank), then exactly one
message with `isUser = false`. The text of that message is the parsed reply when
the HTTP call succeeds and the reply can be read, and it is the fixed text
`Error: Could not get a response. Please try again.` when the key is blank, when
the call fails (no response or a status outside 2xx) or when reading the reply
throws. -/
theorem sendMessage_appends_one_reply (net : Request → NetResult) (timestamp : String)
    (snap : AppState) (text : String) (w : World) (cfg : ModelConfig)
    (hguard : sendGuard snap text = false)
    (hcfg : selectedModelConfig snap = some cfg) (hapi : hasSendBranch cfg.api) :
    (sendMessage net timestamp snap text w).thrown = none ∧
    ∃ u m, (sendMessage net timestamp snap text w).world.state.messages =
        w.state.messages ++ [u, m] ∧
      u = userMessage snap text timestamp ∧
      u.isUser = true ∧ u.timestamp = timestamp ∧ u.isHighlighted = none ∧
      (jsTrim text ≠ "" → u.text = .str text) ∧
      m.isUser = false ∧ m.timestamp = timestamp ∧ m.isHighlighted = none ∧
      (keyBlank (sendKey snap cfg.api) = true →
        m.text = .str "Error: Could not get a response. Please try again.") ∧
      (∀ key, sendKey snap cfg.api = some key → keyBlank (some key) = false →
        (net (sendRequest snap text cfg.api key) = .noResponse →
          m.text = .str "Error: Could not get a response. Please try again.") ∧
        (∀ status data, net (sendRequest snap text cfg.api key) = .response status data →
          (¬ (200 ≤ status ∧ status < 300) →
            m.text = .str "Error: Could not get a response. Please try again.") ∧
          (200 ≤ status ∧ status < 300 →
            (∀ e, parseReply cfg.api data = .error e →
              m.text = .str "Error: Could not get a response. Please try again.") ∧
            (∀ content, parseReply cfg.api data = .ok content → m.text = content)))) := by
  have hut : jsTrim text ≠ "" → (userMessage snap text timestamp).text = .str text := by
    intro h
    simp [userMessage, h]
  refine ⟨sendMessage_thrown net timestamp snap text w, ?_⟩
  cases hb : keyBlank (sendKey snap cfg.api) with
  | true =>
    obtain ⟨e, htry⟩ := sendMessageTry_blank_key net timestamp snap text cfg hcfg hapi hb
    refine ⟨userMessage snap text timestamp, errorMessage timestamp, ?_, rfl, rfl, rfl, rfl, hut,
      rfl, rfl, rfl, fun _ => rfl, fun key hk hnb => ?_⟩
    · simpa using (sendMessage_of_try net timestamp snap text w hguard [] [] (some e) htry).1
    · rw [hk, hnb] at hb
      exact absurd hb (by simp)
  | false =>
    obtain ⟨key, hk, hnb⟩ := sendKey_of_not_blank snap cfg.api hb
    have htry : ∀ w1, sendMessageTry net timestamp snap text w1 =
        postAndAppend net timestamp (sendRequest snap text cfg.api key) (parseReply cfg.api) w1 :=
      fun w1 => sendMessageTry_with_key net timestamp snap text w1 cfg key hcfg hapi hk hnb
    cases hn : net (sendRequest snap text cfg.api key) with
    | noResponse =>
      have hs : axiosSettle (net (sendRequest snap text cfg.api key)) = .error .requestFailed := by
        rw [hn]; rfl
      refine ⟨userMessage snap text timestamp, errorMessage timestamp, ?_, rfl, rfl, rfl, rfl, hut,
          rfl, rfl, rfl, fun _ => rfl, fun key2 hk2 _ => ?_⟩
      · simpa using (sendMessage_of_try net timestamp snap text w hguard [] _ (some _)
          (fun w1 => by rw [htry w1, postAndAppend_rejected _ _ _ _ _ _ hs])).1
      · obtain rfl : key = key2 := Option.some.inj (hk.symm.trans hk2)
        exact ⟨fun _ => rfl, fun status data h => by rw [hn] at h; cases h⟩
    | response status data =>
      by_cases h2 : 200 ≤ status ∧ status < 300
      · have hs : axiosSettle (net (sendRequest snap text cfg.api key)) = .ok (status, data) := by
          rw [hn]; exact axiosSettle_success status data h2
        cases hp : parseReply cfg.api data with
        | error e =>
          refine ⟨userMessage snap text timestamp, errorMessage timestamp, ?_, rfl, rfl, rfl, rfl, hut,
          rfl, rfl, rfl, fun _ => rfl, fun key2 hk2 _ => ?_⟩
          · simpa using (sendMessage_of_try net timestamp snap text w hguard [] _ (some _)
              (fun w1 => by rw [htry w1, postAndAppend_unreadable _ _ _ _ _ _ _ _ hs hp])).1
          · obtain rfl : key = key2 := Option.some.inj (hk.symm.trans hk2)
            refine ⟨fun _ => rfl, fun status2 data2 h => ?_⟩
            rw [hn] at h
            cases h
            exact ⟨fun _ => rfl, fun _ => ⟨fun _ _ => rfl, fun content hc => by
              rw [hp] at hc; cases hc⟩⟩
        | ok content =>
          refine ⟨userMessage snap text timestamp, llmMessage content timestamp, ?_, rfl, rfl, rfl, rfl,
            hut, rfl, rfl, rfl, fun h => ?_, fun key2 hk2 _ => ?_⟩
          · simpa using (sendMessage_of_try net timestamp snap text w hguard _ _ none
              (fun w1 => by rw [htry w1, postAndAppend_read _ _ _ _ _ _ _ _ hs hp])).1
          · exact absurd h (by simp)
          · obtain rfl : key = key2 := Option.some.inj (hk.symm.trans hk2)
            refine ⟨fun h => ?_, fun status2 data2 h => ?_⟩
            · rw [hn] at h
              cases h
            · rw [hn] at h
              cases h
              refine ⟨fun hne => absurd h2 hne, fun _ => ⟨fun e he => ?_, fun content2 hc => ?_⟩⟩
              · rw [hp] at he
                cases he
              · rw [hp] at hc
                cases hc
                rfl
      · have hs : axiosSettle (net (sendRequest snap text cfg.api key)) =
            .error .requestFailed := by
          rw [hn]; exact axiosSettle_failure status data h2
        refine ⟨userMessage snap text timestamp, errorMessage timestamp, ?_, rfl, rfl, rfl, rfl, hut,
          rfl, rfl, rfl, fun _ => rfl, fun key2 hk2 _ => ?_⟩
        · simpa using (sendMessage_of_try net timestamp snap text w hguard [] _ (some _)
            (fun w1 => by rw [htry w1, postAndAppend_rejected _ _ _ _ _ _ hs])).1
        · obtain rfl : key = key2 := Option.some.inj (hk.symm.trans hk2)
          refine ⟨fun _ => rfl, fun status2 data2 h => ?_⟩
          rw [hn] at h
          cases h
          exact ⟨fun _ => rfl, fun h => absurd h h2⟩

/-- C4, on three sends in conversations of two messages: the cerebras reply
`Hello!` is appended after the user message; the google reply `A cat.` is
appended after the user message; and with no response from the provider the
fixed error text is appended after the user message. -/
theorem sendMessage_appends_one_reply_witness :
    (sendMessage exampleChatNet "10:15" exampleCerebrasState "hello"
        ⟨exampleCerebrasState, []⟩).world.state.messages =
      [ { text := .str "Hi", isUser := true, timestamp := "10:14" },
        { text := .str "Hello, how can I help?", isUser := false, timestamp := "10:14" },
        { text := .str "hello", isUser := true, timestamp := "10:15" },
        { text := .str "Hello!", isUser := false, timestamp := "10:15" } ] ∧
    (sendMessage exampleGoogleNet "10:15" exampleGoogleState "What is this?"
        ⟨exampleGoogleState, []⟩).world.state.messages =
      [ { text := .str "Hi", isUser := true, timestamp := "10:14" },
        { text := .str "Hello, how can I help?", isUser := false, timestamp := "10:14" },
        { text := .str "What is this?", isUser := true, timestamp := "10:15" },
        { text := .str "A cat.", isUser := false, timestamp := "10:15" } ] ∧
    (sendMessage exampleDownNet "10:15" exampleCerebrasState "hello"
        ⟨exampleCerebrasState, []⟩).world.state.messages =
      [ { text := .str "Hi", isUser := true, timestamp := "10:14" },
        { text := .str "Hello, how can I help?", isUser := false, timestamp := "10:14" },
        { text := .str "hello", isUser := true, timestamp := "10:15" },
        { text := .str "Error: Could not get a response. Please try again.",
          isUser := false, timestamp := "10:15" } ] := by
  refine ⟨?_, ?_, ?_⟩
  · obtain ⟨-, u, ⟨mtext, muser, mtime, mhigh⟩, hm, hu, -, -, -, -, h1, h2, h3, -, hreply⟩ :=
      sendMessage_appends_one_reply exampleChatNet "10:15" exampleCerebrasState "hello"
        ⟨exampleCerebrasState, []⟩
        { name := "Cerebras Llama 3.3", value := "llama-3.3-70b", api := "cerebras",
          shortName := "C", quickAccess := some true }
        (by decide) rfl (Or.inr (Or.inl rfl))
    have h4 := (((hreply "csk-1" rfl (by decide)).2 200 exampleChatReply rfl).2 (by decide)).2
      (.str "Hello!") rfl
    simp only at h1 h2 h3 h4
    rw [hm, hu, h1, h2, h3, h4]
    rfl
  · obtain ⟨-, u, ⟨mtext, muser, mtime, mhigh⟩, hm, hu, -, -, -, -, h1, h2, h3, -, hreply⟩ :=
      sendMessage_appends_one_reply exampleGoogleNet "10:15" exampleGoogleState "What is this?"
        ⟨exampleGoogleState, []⟩
        { name := "Gemini 2.0", value := "gemini-2.0-flash-exp", api := "google",
          shortName := "F", quickAccess := some true }
        (by decide) rfl (Or.inl rfl)
    have h4 := (((hreply "AIza-1" rfl (by decide)).2 200 exampleGoogleReply rfl).2 (by decide)).2
      (.str "A cat.") rfl
    simp only at h1 h2 h3 h4
    rw [hm, hu, h1, h2, h3, h4]
    rfl
  · obtain ⟨-, u, ⟨mtext, muser, mtime, mhigh⟩, hm, hu, -, -, -, -, h1, h2, h3, -, hreply⟩ :=
      sendMessage_appends_one_reply exampleDownNet "10:15" exampleCerebrasState "hello"
        ⟨exampleCerebrasState, []⟩
        { name := "Cerebras Llama 3.3", value := "llama-3.3-70b", api := "cerebras",
          shortName := "C", quickAccess := some true }
        (by decide) rfl (Or.inr (Or.inl rfl))
    have h4 := (hreply "csk-1" rfl (by decide)).1 rfl
    simp only at h1 h2 h3 h4
    rw [hm, hu, h1, h2, h3, h4]
    rfl

/-- C5: after every send that passes the guard, whatever the provider and
whether the call succeeds or fails, `uploadedFile` is `null` and `isLoading` is
`false`. -/
theorem sendMessage_clears_attachment (net : Request → NetResult) (timestamp : String)
    (snap : AppState) (text : String) (w : World) (hguard : sendGuard snap text = false) :
    (sendMessage net timestamp snap text w).world.state.uploadedFile = none ∧
      (sendMessage net timestamp snap text w).world.state.isLoading = false := by
  obtain ⟨l, rs, -, -, hf, hl⟩ := sendMessage_after_guard net timestamp snap text w hguard
  exact ⟨hf, hl⟩

/-- C5, on the google example with an attached image and a network that gives
no response: the attachment is cleared and the loading flag lowered. -/
theorem sendMessage_clears_attachment_witness :
    exampleGoogleState.uploadedFile ≠ none ∧
      (sendMessage (fun _ => .noResponse) "10:15" exampleGoogleState ""
        ⟨exampleGoogleState, []⟩).world.state.uploadedFile = none ∧
      (sendMessage (fun _ => .noResponse) "10:15" exampleGoogleState ""
        ⟨exampleGoogleState, []⟩).world.state.isLoading = false :=
  ⟨by simp [exampleGoogleState],
    sendMessage_clears_attachment (fun _ => .noResponse) "10:15" exampleGoogleState ""
      ⟨exampleGoogleState, []⟩ (by decide)⟩

/-- C6: for each of the providers google, cerebras, openrouter and openai, when
the key read by the branch of that provider is absent, empty or made of white
space only, `sendMessage` issues no HTTP request. -/
theorem sendMessage_blank_key_no_request (net : Request → NetResult) (timestamp : String)
    (snap : AppState) (text : String) (w : World) (cfg : ModelConfig)
    (hcfg : selectedModelConfig snap = some cfg) (hapi : hasSendBranch cfg.api)
    (hkey : keyBlank (sendKey snap cfg.api) = true) :
    (sendMessage net timestamp snap text w).world.requests = w.requests := by
  cases hg : sendGuard snap text with
  | true => simp [sendMessage, hg]
  | false =>
    obtain ⟨e, htry⟩ := sendMessageTry_blank_key net timestamp snap text cfg hcfg hapi hkey
    simpa using (sendMessage_of_try net timestamp snap text w hg [] [] (some e) htry).2

/-- C6, on a cerebras key of white space: no request is issued. -/
theorem sendMessage_blank_key_no_request_witness :
    (sendMessage exampleChatNet "10:15" exampleBlankKeyState "hello"
        ⟨exampleBlankKeyState, []⟩).world.requests = [] :=
  sendMessage_blank_key_no_request exampleChatNet "10:15" exampleBlankKeyState "hello"
    ⟨exampleBlankKeyState, []⟩
    { name := "Cerebras Llama 3.3", value := "llama-3.3-70b", api := "cerebras",
      shortName := "C", quickAccess := some true }
    rfl (Or.inr (Or.inl rfl)) (by decide)

theorem getKey_setKey_same (k v : String) (m : List (String × String)) :
    getKey k (setKey k v m) = some v := by
  induction m with
  | nil => simp [setKey, getKey]
  | cons p rest ih =>
    obtain ⟨k2, v2⟩ := p
    by_cases h : k2 = k <;> simp [setKey, getKey, h, ih]

theorem getKey_setKey_other (k v other : String) (m : List (String × String))
    (h : other ≠ k) : getKey other (setKey k v m) = getKey other m := by
  induction m with
  | nil => simp [setKey, getKey, Ne.symm h]
  | cons p rest ih =>
    obtain ⟨k2, v2⟩ := p
    by_cases h2 : k2 = k
    · subst h2
      simp [setKey, getKey, Ne.symm h]
    · by_cases h3 : k2 = other
      · subst h3
        simp [setKey, getKey, h]
      · simp [setKey, getKey, h2, h3, ih]

/-- What `validateApiKey` leaves: the state with the entry of `apiType` set to
the final value, and the probe, if one was made, added to the requests. -/
theorem validateApiKey_frame (net : Request → NetResult) (apiType : String)
    (apiKey : Option String) (w : World) :
    ∃ v rs, (validateApiKey net apiType apiKey w).world =
      ⟨((w.setApiValidationStatus apiType "none").setApiValidationStatus apiType v).state,
        w.requests ++ rs⟩ := by
  have hstay : ∃ v rs, (⟨(w.setApiValidationStatus apiType "none").setApiValidationStatus
        apiType "error", none⟩ : Step).world =
      ⟨((w.setApiValidationStatus apiType "none").setApiValidationStatus apiType v).state,
        w.requests ++ rs⟩ :=
    ⟨"error", [], by simp [World.setApiValidationStatus]⟩
  cases apiKey with
  | none => exact hstay
  | some key =>
    simp only [validateApiKey]
    split
    · exact hstay
    · split
      · exact hstay
      · exact ⟨_, [_], rfl⟩

theorem validateApiKey_thrown (net : Request → NetResult) (apiType : String)
    (apiKey : Option String) (w : World) :
    (validateApiKey net apiType apiKey w).thrown = none := by
  unfold validateApiKey
  repeat' split
  all_goals rfl

theorem validateApiKey_probed (net : Request → NetResult) (apiType key : String) (w : World)
    (req : Request) (hreq : probeRequest apiType key = some req)
    (hnb : keyBlank (some key) = false) :
    (validateApiKey net apiType (some key) w).world =
      ((w.setApiValidationStatus apiType "none").issue req).setApiValidationStatus apiType
        (if probeValid apiType (net req) then "success" else "error") := by
  simp [validateApiKey, hnb, hreq]

theorem probeRequest_known (apiType key : String)
    (hprov : apiType = "google" ∨ apiType = "openRouter" ∨ apiType = "cerebras" ∨
      apiType = "lemonfox" ∨ apiType = "openai") :
    ∃ req, probeRequest apiType key = some req := by
  rcases hprov with h | h | h | h | h <;> subst h <;> exact ⟨_, rfl⟩

/-- The send after a validation reads the same model, key and guard: the
validation changes `apiValidationStatus` and the request log only. -/
theorem sendMessage_after_validateApiKey (netProbe net : Request → NetResult)
    (timestamp text apiType : String) (apiKey : Option String) (w : World)
    (cfg : ModelConfig) (key : String)
    (hcfg : selectedModelConfig w.state = some cfg) (hapi : hasSendBranch cfg.api)
    (hkey : sendKey w.state cfg.api = some key) (hnb : keyBlank (some key) = false)
    (hguard : sendGuard w.state text = false) :
    (sendMessage net timestamp (validateApiKey netProbe apiType apiKey w).world.state text
        (validateApiKey netProbe apiType apiKey w).world).world.requests =
      (validateApiKey netProbe apiType apiKey w).world.requests ++
        [sendRequest w.state text cfg.api key] := by
  obtain ⟨v, rs, h⟩ := validateApiKey_frame netProbe apiType apiKey w
  rw [h]
  exact sendMessage_requests_with_key net timestamp _ text _ cfg key hguard hcfg hapi hkey hnb

/-- C7 (as amended): `sendMessage` does not consult `apiValidationStatus`. For a
provider with a send branch whose key is not blank, after a validation of that
key that ended with the state `error`, a `sendMessage` of an accepted text
through a model of that provider still issues its one request to the chat
endpoint. -/
theorem sendMessage_ignores_validation (netProbe net : Request → NetResult)
    (timestamp text : String) (w : World) (cfg : ModelConfig) (key : String)
    (hcfg : selectedModelConfig w.state = some cfg) (hapi : hasSendBranch cfg.api)
    (hkey : sendKey w.state cfg.api = some key) (hnb : keyBlank (some key) = false)
    (hguard : sendGuard w.state text = false)
    (_hstatus : getKey (getApiValidationKey cfg.api)
      (validateApiKey netProbe (getApiValidationKey cfg.api) (some key) w
        ).world.state.apiValidationStatus = some "error") :
    (sendMessage net timestamp
        (validateApiKey netProbe (getApiValidationKey cfg.api) (some key) w).world.state text
        (validateApiKey netProbe (getApiValidationKey cfg.api) (some key) w).world
      ).world.requests =
      (validateApiKey netProbe (getApiValidationKey cfg.api) (some key) w).world.requests ++
        [sendRequest w.state text cfg.api key] :=
  sendMessage_after_validateApiKey netProbe net timestamp text _ _ w cfg key hcfg hapi hkey hnb
    hguard

/-- C7 (as amended), on the cerebras example validated against a provider that
answers 401: the state is `error` and the send issues the chat request. -/
theorem sendMessage_ignores_validation_witness :
    getKey "cerebras" (validateApiKey exampleUnauthorizedNet "cerebras" (some "csk-1")
        ⟨exampleCerebrasState, []⟩).world.state.apiValidationStatus = some "error" ∧
      (sendMessage exampleChatNet "10:15"
          (validateApiKey exampleUnauthorizedNet "cerebras" (some "csk-1")
            ⟨exampleCerebrasState, []⟩).world.state "hello"
          (validateApiKey exampleUnauthorizedNet "cerebras" (some "csk-1")
            ⟨exampleCerebrasState, []⟩).world).world.requests =
        (validateApiKey exampleUnauthorizedNet "cerebras" (some "csk-1")
            ⟨exampleCerebrasState, []⟩).world.requests ++
          [cerebrasRequest exampleCerebrasState "hello" "csk-1"] :=
  ⟨by decide,
    sendMessage_ignores_validation exampleUnauthorizedNet exampleChatNet "10:15" "hello"
      ⟨exampleCerebrasState, []⟩
      { name := "Cerebras Llama 3.3", value := "llama-3.3-70b", api := "cerebras",
        shortName := "C", quickAccess := some true }
      "csk-1" rfl (Or.inr (Or.inl rfl)) rfl (by decide) (by decide) (by decide)⟩

/-- C7 fails as stated: in the cerebras example the key `csk-1` is not blank, its
probe was answered 401 and the validation state of cerebras is `error`, yet
`sendMessage` posts to the chat endpoint. -/
theorem sendMessage_after_failed_validation_counterexample :
    exampleRejectedWorld.state.cerebrasApiKey = some "csk-1" ∧
      getKey "cerebras" exampleRejectedWorld.state.apiValidationStatus = some "error" ∧
      (sendMessage exampleChatNet "10:15" exampleRejectedWorld.state "hello"
          exampleRejectedWorld).world.requests.map (fun r => (r.method, r.url)) =
        [("GET", "https://api.cerebras.ai/v1/models"),
         ("POST", "https://api.cerebras.ai/v1/chat/completions")] := by
  decide

/-- C8 fails on the flat-chat branches: a successful cerebras response without
`choices` makes the read of `response.data.choices[0]` throw, so the error
message is appended; a response whose message has no `content` appends an
assistant message whose text is `undefined`, not the empty string. -/
theorem flat_chat_missing_content_not_tolerated :
    (sendMessage exampleNoChoicesNet "10:15" exampleCerebrasState "hello"
        ⟨exampleCerebrasState, []⟩).world.state.messages =
      examplePrior ++ [userMessage exampleCerebrasState "hello" "10:15",
        errorMessage "10:15"] ∧
    (sendMessage exampleNoContentNet "10:15" exampleCerebrasState "hello"
        ⟨exampleCerebrasState, []⟩).world.state.messages =
      examplePrior ++ [userMessage exampleCerebrasState "hello" "10:15",
        llmMessage .undefined "10:15"] := by
  constructor <;> rfl

/-- C9: for every provider type and every key that is `null`, empty or made of
white space only, `validateApiKey` ends with the state of that provider equal to
`error`, issues no HTTP request, and leaves the state of every other provider
as it was. -/
theorem validateApiKey_blank_key (net : Request → NetResult) (apiType : String)
    (apiKey : Option String) (w : World) (hblank : keyBlank apiKey = true) :
    getKey apiType (validateApiKey net apiType apiKey w).world.state.apiValidationStatus =
        some "error" ∧
      (validateApiKey net apiType apiKey w).world.requests = w.requests ∧
      ∀ other, other ≠ apiType →
        getKey other (validateApiKey net apiType apiKey w).world.state.apiValidationStatus =
          getKey other w.state.apiValidationStatus := by
  have h : validateApiKey net apiType apiKey w =
      ⟨(w.setApiValidationStatus apiType "none").setApiValidationStatus apiType "error",
        none⟩ := by
    cases apiKey with
    | none => rfl
    | some key => simp [validateApiKey, hblank]
  rw [h]
  refine ⟨getKey_setKey_same _ _ _, rfl, fun other hne => ?_⟩
  simp only [World.setApiValidationStatus]
  rw [getKey_setKey_other _ _ _ _ hne, getKey_setKey_other _ _ _ _ hne]

/-- C9, on the initial state and a lemonfox key of white space: lemonfox ends in
`error`, nothing is requested and the state of openai stays `none`. -/
theorem validateApiKey_blank_key_witness :
    getKey "lemonfox" (validateApiKey exampleChatNet "lemonfox" (some " \n ")
        ⟨initialState, []⟩).world.state.apiValidationStatus = some "error" ∧
      (validateApiKey exampleChatNet "lemonfox" (some " \n ")
        ⟨initialState, []⟩).world.requests = [] ∧
      getKey "openai" (validateApiKey exampleChatNet "lemonfox" (some " \n ")
        ⟨initialState, []⟩).world.state.apiValidationStatus = some "none" := by
  obtain ⟨h1, h2, h3⟩ := validateApiKey_blank_key exampleChatNet "lemonfox" (some " \n ")
    ⟨initialState, []⟩ (by decide)
  exact ⟨h1, h2, (h3 "openai" (by decide)).trans (by decide)⟩

theorem probeValid_noResponse (apiType : String) :
    probeValid apiType .noResponse = false := by
  by_cases ho : apiType = "openRouter" <;> simp [probeValid, ho, fetchSettle, axiosSettle]

theorem probeValid_fetch (status : Nat) (data : JsVal) :
    probeValid "openRouter" (.response status data) = decide (200 ≤ status ∧ status ≤ 299) := by
  simp [probeValid, fetchSettle, responseOk]

theorem probeValid_axios (apiType : String) (ho : apiType ≠ "openRouter") (status : Nat)
    (data : JsVal) :
    probeValid apiType (.response status data) = decide (status = 200) := by
  by_cases h : 200 ≤ status ∧ status < 300
  · simp only [probeValid, ho, axiosSettle, h, and_self, if_true, if_false]
    by_cases h200 : status = 200 <;> simp [h200]
  · have hne : status ≠ 200 := fun h200 => h (by omega)
    simp [probeValid, ho, axiosSettle, h, hne]

/-- C10 (as amended): for each of the five providers and every key that is not
blank, `validateApiKey` issues the probe of the provider, throws nothing, and
ends with the state `success` when the probe is answered with status 200, and
also, for openRouter, whose probe reads `response.ok`, with any status from 200
to 299; it ends with `error` when there is no response, when the status is
outside 200 to 299, and, for the four other providers, whenever the status is
not 200. -/
theorem validateApiKey_probe_result (net : Request → NetResult) (apiType key : String)
    (w : World)
    (hprov : apiType = "google" ∨ apiType = "openRouter" ∨ apiType = "cerebras" ∨
      apiType = "lemonfox" ∨ apiType = "openai")
    (hnb : keyBlank (some key) = false) :
    (validateApiKey net apiType (some key) w).thrown = none ∧
    ∃ req, probeRequest apiType key = some req ∧
      (validateApiKey net apiType (some key) w).world.requests = w.requests ++ [req] ∧
      (net req = .noResponse →
        getKey apiType (validateApiKey net apiType (some key) w).world.state.apiValidationStatus =
          some "error") ∧
      (∀ status data, net req = .response status data →
        (status = 200 →
          getKey apiType
            (validateApiKey net apiType (some key) w).world.state.apiValidationStatus =
            some "success") ∧
        (apiType = "openRouter" → 200 ≤ status ∧ status ≤ 299 →
          getKey apiType
            (validateApiKey net apiType (some key) w).world.state.apiValidationStatus =
            some "success") ∧
        (¬ (200 ≤ status ∧ status ≤ 299) →
          getKey apiType
            (validateApiKey net apiType (some key) w).world.state.apiValidationStatus =
            some "error") ∧
        (apiType ≠ "openRouter" → status ≠ 200 →
          getKey apiType
            (validateApiKey net apiType (some key) w).world.state.apiValidationStatus =
            some "error")) := by
  refine ⟨validateApiKey_thrown net apiType (some key) w, ?_⟩
  obtain ⟨req, hreq⟩ := probeRequest_known apiType key hprov
  have hw := validateApiKey_probed net apiType key w req hreq hnb
  have hstatus : getKey apiType
      (validateApiKey net apiType (some key) w).world.state.apiValidationStatus =
      some (if probeValid apiType (net req) then "success" else "error") := by
    rw [hw]
    exact getKey_setKey_same _ _ _
  refine ⟨req, hreq, by rw [hw]; rfl, fun hn => ?_, fun status data hn => ⟨?_, ?_, ?_, ?_⟩⟩
  · rw [hstatus, hn, probeValid_noResponse]
    rfl
  · intro h200
    rw [hstatus, hn]
    by_cases ho : apiType = "openRouter"
    · rw [ho, probeValid_fetch]
      simp [h200]
    · rw [probeValid_axios apiType ho]
      simp [h200]
  · intro ho h2
    rw [hstatus, hn, ho, probeValid_fetch]
    simp [h2]
  · intro h2
    rw [hstatus, hn]
    by_cases ho : apiType = "openRouter"
    · rw [ho, probeValid_fetch]
      simp only [h2, decide_False, Bool.false_eq_true, if_false]
    · have hne : status ≠ 200 := fun h200 => h2 (by omega)
      rw [probeValid_axios apiType ho]
      simp [hne]
  · intro ho hne
    rw [hstatus, hn, probeValid_axios apiType ho]
    simp [hne]

/-- C10 (as amended), on the initial state: a google key whose probe is
answered 200 ends in `success`, and one request was made. -/
theorem validateApiKey_probe_result_witness :
    getKey "google" (validateApiKey exampleChatNet "google" (some "AIza-1")
        ⟨initialState, []⟩).world.state.apiValidationStatus = some "success" ∧
      (validateApiKey exampleChatNet "google" (some "AIza-1")
        ⟨initialState, []⟩).world.requests.length = 1 := by
  obtain ⟨-, req, -, hreqs, -, hresp⟩ :=
    validateApiKey_probe_result exampleChatNet "google" "AIza-1" ⟨initialState, []⟩
      (Or.inl rfl) (by decide)
  exact ⟨(hresp 200 exampleChatReply rfl).1 rfl, by rw [hreqs]; rfl⟩

/-- C10 fails as stated: the google probe answered with the success status 204
leaves the state of google at `error`, not `success`. -/
theorem validateApiKey_success_status_counterexample :
    (200 ≤ 204 ∧ 204 < 300) ∧
      keyBlank (some "AIza-1") = false ∧
      getKey "google" (validateApiKey exampleNoContentStatusNet "google" (some "AIza-1")
        ⟨initialState, []⟩).world.state.apiValidationStatus = some "error" ∧
      getKey "google" (validateApiKey exampleNoContentStatusNet "google" (some "AIza-1")
        ⟨initialState, []⟩).world.state.apiValidationStatus ≠ some "success" := by
  decide

/-- C1, on the initial state and a text of white space: nothing is appended and
nothing is requested. -/
theorem sendMessage_noop_iff_guard_witness :
    (sendMessage exampleChatNet "10:15" initialState "  " ⟨initialState, []⟩).world.state.messages
        = [] ∧
      (sendMessage exampleChatNet "10:15" initialState "  " ⟨initialState, []⟩).world.requests
        = [] := by
  have h := ((sendMessage_noop_iff_guard exampleChatNet "10:15" initialState "  "
    ⟨initialState, []⟩).1).2 ⟨by decide, Or.inl rfl⟩
  exact ⟨h.1, h.2.2.2.2⟩

/-! ## Validation calls that overlap -/

/-- The run to completion is the first step followed at once by the second. -/
theorem validateApiKey_eq_start_resume (net : Request → NetResult) (apiType : String)
    (apiKey : Option String) (w : World) :
    (validateApiKey net apiType apiKey w).world =
      validateApiKeyResume apiType (validateApiKeyStart apiType apiKey w).2
        (match (validateApiKeyStart apiType apiKey w).2 with
         | some req => net req
         | none => .noResponse)
        (validateApiKeyStart apiType apiKey w).1 := by
  cases apiKey with
  | none => rfl
  | some key =>
    simp only [validateApiKey, validateApiKeyStart]
    split
    · rfl
    · split <;> rfl

theorem validateApiKeyStart_pending (apiType key : String) (w : World) (req : Request)
    (hreq : probeRequest apiType key = some req) (hnb : keyBlank (some key) = false) :
    validateApiKeyStart apiType (some key) w =
      ((w.setApiValidationStatus apiType "none").issue req, some req) := by
  simp [validateApiKeyStart, hnb, hreq]

theorem validateApiKeyResume_status (apiType : String) (req : Request) (r : NetResult)
    (w : World) :
    getKey apiType (validateApiKeyResume apiType (some req) r w).state.apiValidationStatus =
      some (if probeValid apiType r then "success" else "error") := by
  simp only [validateApiKeyResume, World.setApiValidationStatus]
  exact getKey_setKey_same _ _ _

/-- C11 (as amended): `validateApiKey` keeps no generation counter. When two calls
for the same provider are issued in the order g1, g2, g1 with a key that is not
blank, and the probe of g2 settles before the probe of g1, the state recorded
after both have completed is the result of g1, the call whose response arrived
last: it is what g1 alone would have recorded. -/
theorem validateTwiceOutOfOrder_last_arrival_wins (apiType key1 : String)
    (key2 : Option String) (r1 r2 : NetResult) (w : World)
    (hprov : apiType = "google" ∨ apiType = "openRouter" ∨ apiType = "cerebras" ∨
      apiType = "lemonfox" ∨ apiType = "openai")
    (hnb : keyBlank (some key1) = false) :
    getKey apiType
        (validateTwiceOutOfOrder apiType (some key1) key2 r1 r2 w).state.apiValidationStatus =
      some (if probeValid apiType r1 then "success" else "error") ∧
    getKey apiType
        (validateTwiceOutOfOrder apiType (some key1) key2 r1 r2 w).state.apiValidationStatus =
      getKey apiType
        (validateApiKey (fun _ => r1) apiType (some key1) w).world.state.apiValidationStatus := by
  obtain ⟨req, hreq⟩ := probeRequest_known apiType key1 hprov
  have h1 : getKey apiType
      (validateTwiceOutOfOrder apiType (some key1) key2 r1 r2 w).state.apiValidationStatus =
      some (if probeValid apiType r1 then "success" else "error") := by
    simp only [validateTwiceOutOfOrder, validateApiKeyStart_pending apiType key1 w req hreq hnb]
    exact validateApiKeyResume_status apiType req r1 _
  refine ⟨h1, ?_⟩
  rw [h1, validateApiKey_probed (fun _ => r1) apiType key1 w req hreq hnb]
  exact (getKey_setKey_same _ _ _).symm

/-- C11 (as amended), on the initial state: the google key `old-key` is probed
first and answered 401 last, the key `AIza-1` is probed second and answered 200
first; the state recorded at the end is `error`. -/
theorem validateTwiceOutOfOrder_last_arrival_wins_witness :
    getKey "google"
        (validateTwiceOutOfOrder "google" (some "old-key") (some "AIza-1")
          (.response 401 .null) (.response 200 .null) ⟨initialState, []⟩
        ).state.apiValidationStatus = some "error" := by
  have h := (validateTwiceOutOfOrder_last_arrival_wins "google" "old-key" (some "AIza-1")
    (.response 401 .null) (.response 200 .null) ⟨initialState, []⟩ (Or.inl rfl) (by decide)).1
  rw [h]
  decide

/-- C11 fails as stated: with the google key `old-key` probed first and answered
401 last, and the key `AIza-1` probed second and answered 200 first, the result
of the later call g2 is `success`, but the state recorded after both calls have
completed is `error`, written by the stale call g1. -/
theorem validateTwiceOutOfOrder_stale_overwrites_counterexample :
    getKey "google"
        (validateApiKey (fun _ => .response 200 .null) "google" (some "AIza-1")
          ⟨initialState, []⟩).world.state.apiValidationStatus = some "success" ∧
      getKey "google"
        (validateTwiceOutOfOrder "google" (some "old-key") (some "AIza-1")
          (.response 401 .null) (.response 200 .null) ⟨initialState, []⟩
        ).state.apiValidationStatus = some "error" ∧
      (validateTwiceOutOfOrder "google" (some "old-key") (some "AIza-1")
          (.response 401 .null) (.response 200 .null) ⟨initialState, []⟩
        ).requests.map (fun r => r.url) =
        [ "https://generativelanguage.googleapis.com/v1beta/models?key=old-key",
          "https://generativelanguage.googleapis.com/v1beta/models?key=AIza-1" ] := by
  decide


/-! ## The model registry -/

theorem sortInsert_perm {α : Type} (compareFn : α → α → Int) (x : α) (l : List α) :
    (sortInsert compareFn x l).Perm (x :: l) := by
  induction l with
  | nil => exact List.Perm.refl _
  | cons y rest ih =>
    by_cases h : 0 < compareFn x y ∧ compareFn y x ≤ 0
    · simp only [sortInsert, if_pos h]
      exact (List.Perm.cons y ih).trans (List.Perm.swap x y rest)
    · simp only [sortInsert, if_neg h]
      exact List.Perm.refl _

theorem jsSort_perm {α : Type} (compareFn : α → α → Int) (l : List α) :
    (jsSort compareFn l).Perm l := by
  induction l with
  | nil => exact List.Perm.refl _
  | cons x rest ih =>
    exact (sortInsert_perm compareFn x (jsSort compareFn rest)).trans (List.Perm.cons x ih)

theorem mem_jsSort {α : Type} (compareFn : α → α → Int) (l : List α) (x : α) :
    x ∈ jsSort compareFn l ↔ x ∈ l :=
  (jsSort_perm compareFn l).mem_iff

/-- C12: for every registry and every validation-status map, a model offered in
the quick-access selector or in the settings list of the selected provider
belongs to a provider whose validation state, looked up through
`getApiValidationKey`, is `success`; a model whose provider has any other state,
or none, is offered in neither list. -/
theorem offered_models_validated (localeCompare : String → String → Int) (s : AppState)
    (model : ModelConfig) :
    (model ∈ quickAccessOffered localeCompare s →
      getKey (getApiValidationKey model.api) s.apiValidationStatus = some "success") ∧
    (model ∈ settingsOffered s →
      getKey (getApiValidationKey model.api) s.apiValidationStatus = some "success") ∧
    (getKey (getApiValidationKey model.api) s.apiValidationStatus ≠ some "success" →
      model ∉ quickAccessOffered localeCompare s ∧ model ∉ settingsOffered s) := by
  have hq : model ∈ quickAccessOffered localeCompare s →
      getKey (getApiValidationKey model.api) s.apiValidationStatus = some "success" := by
    intro h
    rw [quickAccessOffered, mem_jsSort, List.mem_filter] at h
    have h2 := h.2
    simp only [providerValidated, Bool.and_eq_true, beq_iff_eq] at h2
    exact h2.2
  have hs : model ∈ settingsOffered s →
      getKey (getApiValidationKey model.api) s.apiValidationStatus = some "success" := by
    intro h
    rw [settingsOffered, List.mem_filter] at h
    have h2 := h.2
    simp only [providerValidated, Bool.and_eq_true, beq_iff_eq] at h2
    exact h2.2
  exact ⟨hq, hs, fun hne => ⟨fun h => hne (hq h), fun h => hne (hs h)⟩⟩

/-- C12, with google and openai validated: the google model `Gemini 2.0` is
offered in the quick-access selector and its provider is validated, and the
cerebras model is not offered. -/
theorem offered_models_validated_witness :
    (quickAccessOffered exampleCollation exampleValidatedState).map (fun m => m.shortName) =
        ["F", "M", "T"] ∧
      getKey (getApiValidationKey "google") exampleValidatedState.apiValidationStatus =
        some "success" ∧
      ¬ (∃ m ∈ quickAccessOffered exampleCollation exampleValidatedState, m.api = "cerebras") := by
  refine ⟨by decide, ?_, ?_⟩
  · exact (offered_models_validated exampleCollation exampleValidatedState
      { name := "Gemini 2.0", value := "gemini-2.0-flash-exp", api := "google",
        shortName := "F", quickAccess := some true }).1 (by
          simp [quickAccessOffered, mem_jsSort, exampleValidatedState, initialState,
            providerValidated, getApiValidationKey, setKey, getKey])
  · rintro ⟨m, hm, hapi⟩
    have h := (offered_models_validated exampleCollation exampleValidatedState m).1 hm
    rw [hapi] at h
    exact absurd h (by decide)

/-- C13: `addNewModel` leaves `availableModels` as it was whenever the state of
the selected provider is not `success` or one of `newModelName`,
`newModelValue`, `newModelShortName` is blank after trimming; otherwise the new
registry is the old one followed by exactly one descriptor
`{ name, value, api: selectedApi, shortName }` with the entered values. -/
theorem addNewModel_registry (snap : AppState) (w : World) :
    ((getKey (getApiValidationKey snap.selectedApi) snap.apiValidationStatus ≠ some "success" ∨
        jsTrim snap.newModelName = "" ∨ jsTrim snap.newModelValue = "" ∨
        jsTrim snap.newModelShortName = "") →
      (addNewModel snap w).1.state.availableModels = w.state.availableModels) ∧
    (¬ (getKey (getApiValidationKey snap.selectedApi) snap.apiValidationStatus ≠ some "success" ∨
        jsTrim snap.newModelName = "" ∨ jsTrim snap.newModelValue = "" ∨
        jsTrim snap.newModelShortName = "") →
      (addNewModel snap w).1.state.availableModels =
        w.state.availableModels ++
          [{ name := snap.newModelName, value := snap.newModelValue, api := snap.selectedApi,
             shortName := snap.newModelShortName }]) := by
  constructor
  · intro h
    unfold addNewModel
    split
    · rfl
    · split
      · rfl
      · rename_i hv hb
        simp only [bne_iff_ne, ne_eq, Bool.or_eq_true, beq_iff_eq, not_or] at hv hb
        rcases h with h | h | h | h
        · exact absurd h hv
        · exact absurd h hb.1.1
        · exact absurd h hb.1.2
        · exact absurd h hb.2
  · intro h
    simp only [not_or, ne_eq, not_not] at h
    simp [addNewModel, h.1, h.2.1, h.2.2.1, h.2.2.2, World.setAvailableModels,
      World.resetNewModelForm]

/-- C13, on the form of `exampleDuplicateFormState`: the registry of six models
gets a seventh, the descriptor entered in the form. -/
theorem addNewModel_registry_witness :
    (addNewModel exampleDuplicateFormState ⟨exampleDuplicateFormState, []⟩
      ).1.state.availableModels =
      initialState.availableModels ++
        [{ name := "GPT-4 again", value := "gpt-4", api := "openai", shortName := "G" }] :=
  (addNewModel_registry exampleDuplicateFormState ⟨exampleDuplicateFormState, []⟩).2 (by decide)


theorem addNewModel_accepted (snap : AppState) (w : World) (h : (addNewModel snap w).2 = none) :
    (addNewModel snap w).1.state.availableModels =
      w.state.availableModels ++
        [{ name := snap.newModelName, value := snap.newModelValue, api := snap.selectedApi,
           shortName := snap.newModelShortName }] := by
  unfold addNewModel at h ⊢
  split
  · rename_i hv
    simp [hv] at h
  · split
    · rename_i hv hb
      simp [hv, hb] at h
    · rfl

theorem map_value_toggle (modelValue : String) (l : List ModelConfig) :
    (l.map (fun model =>
      if model.value == modelValue then
        { model with quickAccess := some (match model.quickAccess with
            | some b => !b
            | none => true) }
      else model)).map (fun m => m.value) = l.map (fun m => m.value) := by
  induction l with
  | nil => rfl
  | cons m rest ih =>
    simp only [List.map_cons, ih]
    split <;> rfl

theorem map_value_editShortName (modelValue text : String) (l : List ModelConfig) :
    (l.map (fun m =>
      if m.value == modelValue then { m with shortName := text } else m)).map
        (fun m => m.value) = l.map (fun m => m.value) := by
  induction l with
  | nil => rfl
  | cons m rest ih =>
    simp only [List.map_cons, ih]
    split <;> rfl

/-- C14 (as amended): `addNewModel` makes no test for an existing value. With
pairwise distinct values in the registry, `deleteModel`, `toggleQuickAccess` and
an edit of a short name keep the values pairwise distinct, and an `addNewModel`
that is accepted (validated provider, no blank field) appends its descriptor
whether or not the value is already registered, so the values stay pairwise
distinct exactly when `newModelValue` was not yet in the registry. -/
theorem registry_values_distinct (snap : AppState) (w : World)
    (hd : (w.state.availableModels.map (fun m => m.value)).Nodup) :
    (∀ modelValue,
      ((deleteModel modelValue w).state.availableModels.map (fun m => m.value)).Nodup) ∧
    (∀ modelValue,
      ((toggleQuickAccess modelValue w).state.availableModels.map (fun m => m.value)).Nodup) ∧
    (∀ modelValue text,
      ((editShortName modelValue text w).state.availableModels.map (fun m => m.value)).Nodup) ∧
    ((addNewModel snap w).2 = none →
      (addNewModel snap w).1.state.availableModels =
        w.state.availableModels ++
          [{ name := snap.newModelName, value := snap.newModelValue, api := snap.selectedApi,
             shortName := snap.newModelShortName }] ∧
      (((addNewModel snap w).1.state.availableModels.map (fun m => m.value)).Nodup ↔
        snap.newModelValue ∉ w.state.availableModels.map (fun m => m.value))) := by
  refine ⟨fun modelValue => ?_, fun modelValue => ?_, fun modelValue text => ?_, fun h => ?_⟩
  · simp only [deleteModel, World.setAvailableModels]
    exact (List.filter_sublist _).map _ |>.nodup hd
  · simp only [toggleQuickAccess, World.setAvailableModels]
    rw [map_value_toggle]
    exact hd
  · simp only [editShortName, World.setAvailableModels]
    rw [map_value_editShortName]
    exact hd
  · have ha := addNewModel_accepted snap w h
    refine ⟨ha, ?_⟩
    rw [ha, List.map_append, List.nodup_append]
    simp only [List.map_cons, List.map_nil, List.nodup_cons, List.not_mem_nil, not_false_eq_true,
      List.nodup_nil, and_self, true_and]
    constructor
    · intro h2 hmem
      exact h2.2 hmem (List.mem_singleton_self _)
    · intro h2
      refine ⟨hd, fun x hx hx2 => ?_⟩
      rw [List.mem_singleton] at hx2
      exact h2 (hx2 ▸ hx)

/-- C14 (as amended), on the initial registry: the six values are pairwise
distinct, and the accepted add of the registered value `gpt-4` leaves seven
values that are not. -/
theorem registry_values_distinct_witness :
    (initialState.availableModels.map (fun m => m.value)).Nodup ∧
      ¬ ((addNewModel exampleDuplicateFormState ⟨exampleDuplicateFormState, []⟩
        ).1.state.availableModels.map (fun m => m.value)).Nodup := by
  have hd : (initialState.availableModels.map (fun m => m.value)).Nodup := by decide
  refine ⟨hd, fun hn => ?_⟩
  have h := (registry_values_distinct exampleDuplicateFormState
    ⟨exampleDuplicateFormState, []⟩ hd).2.2.2 (by decide)
  exact absurd (h.2.1 hn) (by decide)

/-- C14 fails as stated: in the initial registry, whose values are pairwise
distinct, with openai validated, `addNewModel` with the registered value `gpt-4`
is accepted without an alert and the registry holds `gpt-4` twice. -/
theorem addNewModel_duplicate_counterexample :
    (initialState.availableModels.map (fun m => m.value)).Nodup ∧
      (addNewModel exampleDuplicateFormState ⟨exampleDuplicateFormState, []⟩).2 = none ∧
      (addNewModel exampleDuplicateFormState ⟨exampleDuplicateFormState, []⟩
        ).1.state.availableModels.map (fun m => m.value) =
        [ "gpt-4", "deepseek/deepseek-chat", "gemini-2.0-flash-exp",
          "gemini-2.0-flash-thinking-exp-1219", "meta-llama/llama-3.3-70b-instruct",
          "llama-3.3-70b", "gpt-4" ] := by
  decide


/-! ## The quick-access order -/

theorem quickAccessCompare_before (localeCompare : String → String → Int) (a b : ModelConfig)
    (hne : a.shortName ≠ b.shortName)
    (hanti : 0 < localeCompare a.shortName b.shortName →
      localeCompare b.shortName a.shortName ≤ 0) :
    (quickAccessCompare localeCompare a b ≤ 0 → quickAccessBefore localeCompare a b) ∧
    (¬ quickAccessCompare localeCompare a b ≤ 0 → quickAccessBefore localeCompare b a) := by
  unfold quickAccessCompare quickAccessBefore rank
  by_cases haT : a.shortName = "T"
  · have hbT : b.shortName ≠ "T" := fun h => hne (haT.trans h.symm)
    simp only [haT, hbT, if_true, if_false]
    refine ⟨fun h => absurd h (by decide), fun _ => Or.inl ?_⟩
    split <;> decide
  · by_cases hbT : b.shortName = "T"
    · simp only [haT, hbT, if_true, if_false]
      refine ⟨fun _ => Or.inl ?_, fun h => absurd (by decide) h⟩
      split <;> decide
    · by_cases haM : a.shortName = "M"
      · have hbM : b.shortName ≠ "M" := fun h => hne (haM.trans h.symm)
        simp only [haT, hbT, haM, hbM, if_true, if_false]
        exact ⟨fun h => absurd h (by decide), fun _ => Or.inl (by decide)⟩
      · by_cases hbM : b.shortName = "M"
        · simp only [haT, hbT, haM, hbM, if_true, if_false]
          exact ⟨fun _ => Or.inl (by decide), fun h => absurd (by decide) h⟩
        · simp only [haT, hbT, haM, hbM, if_false]
          exact ⟨fun h => Or.inr ⟨trivial, trivial, h⟩,
            fun h => Or.inr ⟨trivial, trivial, hanti (not_le.mp h)⟩⟩

theorem quickAccessBefore_trans (localeCompare : String → String → Int) (a b c : ModelConfig)
    (htrans : localeCompare a.shortName b.shortName ≤ 0 →
      localeCompare b.shortName c.shortName ≤ 0 → localeCompare a.shortName c.shortName ≤ 0)
    (hab : quickAccessBefore localeCompare a b) (hbc : quickAccessBefore localeCompare b c) :
    quickAccessBefore localeCompare a c := by
  unfold quickAccessBefore at *
  rcases hab with hab | ⟨ha, hb, hab⟩
  · rcases hbc with hbc | ⟨hb, hc, -⟩
    · exact Or.inl (lt_trans hab hbc)
    · omega
  · rcases hbc with hbc | ⟨-, hc, hbc⟩
    · exact Or.inl (by omega)
    · exact Or.inr ⟨ha, hc, htrans hab hbc⟩

theorem sortInsert_sorted (localeCompare : String → String → Int) (l0 : List ModelConfig)
    (hanti : ∀ a ∈ l0, ∀ b ∈ l0, 0 < localeCompare a.shortName b.shortName →
      localeCompare b.shortName a.shortName ≤ 0)
    (htrans : ∀ a ∈ l0, ∀ b ∈ l0, ∀ c ∈ l0, localeCompare a.shortName b.shortName ≤ 0 →
      localeCompare b.shortName c.shortName ≤ 0 → localeCompare a.shortName c.shortName ≤ 0)
    (x : ModelConfig) (hx : x ∈ l0) (l : List ModelConfig) (hl : ∀ y ∈ l, y ∈ l0)
    (hne : ∀ y ∈ l, x.shortName ≠ y.shortName)
    (hs : l.Pairwise (quickAccessBefore localeCompare)) :
    (sortInsert (quickAccessCompare localeCompare) x l).Pairwise
      (quickAccessBefore localeCompare) := by
  induction l with
  | nil => simp [sortInsert]
  | cons y rest ih =>
    have hy : y ∈ l0 := hl y (List.mem_cons_self _ _)
    have hrest : ∀ z ∈ rest, z ∈ l0 := fun z hz => hl z (List.mem_cons_of_mem _ hz)
    have hxy := quickAccessCompare_before localeCompare x y (hne y (List.mem_cons_self _ _))
      (hanti x hx y hy)
    have hyx := quickAccessCompare_before localeCompare y x
      (Ne.symm (hne y (List.mem_cons_self _ _))) (hanti y hy x hx)
    rw [List.pairwise_cons] at hs
    by_cases hc : 0 < quickAccessCompare localeCompare x y ∧
        quickAccessCompare localeCompare y x ≤ 0
    · simp only [sortInsert, if_pos hc]
      refine List.pairwise_cons.mpr ⟨fun z hz => ?_, ih hrest
        (fun z hz => hne z (List.mem_cons_of_mem _ hz)) hs.2⟩
      rcases List.mem_cons.mp ((sortInsert_perm _ x rest).mem_iff.mp hz) with rfl | hz
      · exact hyx.1 hc.2
      · exact hs.1 z hz
    · simp only [sortInsert, if_neg hc]
      have hb : quickAccessBefore localeCompare x y := by
        by_cases h1 : quickAccessCompare localeCompare x y ≤ 0
        · exact hxy.1 h1
        · exact hyx.2 (fun h2 => hc ⟨not_le.mp h1, h2⟩)
      refine List.pairwise_cons.mpr ⟨fun z hz => ?_, List.pairwise_cons.mpr hs⟩
      rcases List.mem_cons.mp hz with rfl | hz
      · exact hb
      · exact quickAccessBefore_trans localeCompare x y z
          (htrans x hx y hy z (hrest z hz)) hb (hs.1 z hz)

theorem jsSort_sorted (localeCompare : String → String → Int) (l0 : List ModelConfig)
    (hanti : ∀ a ∈ l0, ∀ b ∈ l0, 0 < localeCompare a.shortName b.shortName →
      localeCompare b.shortName a.shortName ≤ 0)
    (htrans : ∀ a ∈ l0, ∀ b ∈ l0, ∀ c ∈ l0, localeCompare a.shortName b.shortName ≤ 0 →
      localeCompare b.shortName c.shortName ≤ 0 → localeCompare a.shortName c.shortName ≤ 0)
    (l : List ModelConfig) (hl : ∀ y ∈ l, y ∈ l0)
    (hdist : l.Pairwise (fun a b => a.shortName ≠ b.shortName)) :
    (jsSort (quickAccessCompare localeCompare) l).Pairwise (quickAccessBefore localeCompare) := by
  induction l with
  | nil => simp [jsSort]
  | cons x rest ih =>
    rw [List.pairwise_cons] at hdist
    have hrest : ∀ z ∈ rest, z ∈ l0 := fun z hz => hl z (List.mem_cons_of_mem _ hz)
    exact sortInsert_sorted localeCompare l0 hanti htrans x (hl x (List.mem_cons_self _ _)) _
      (fun y hy => hrest y ((mem_jsSort _ rest y).mp hy))
      (fun y hy => hdist.1 y ((mem_jsSort _ rest y).mp hy))
      (ih hrest hdist.2)


/-- C15: for every list of quick-access models whose short names are pairwise
distinct, and a collation `localeCompare` that is a total preorder on these
names, the sort with the quick-access comparator yields a permutation of the
list ordered by rank ascending (2 for `T`, 1 for `M`, 0 otherwise) and, within
rank 0, by short name ascending; when the collation tells the names apart, it is
the only permutation ordered so. -/
theorem quickAccess_sort_order (localeCompare : String → String → Int) (l : List ModelConfig)
    (hdist : l.Pairwise (fun a b => a.shortName ≠ b.shortName))
    (hanti : ∀ a ∈ l, ∀ b ∈ l, 0 < localeCompare a.shortName b.shortName →
      localeCompare b.shortName a.shortName ≤ 0)
    (htrans : ∀ a ∈ l, ∀ b ∈ l, ∀ c ∈ l, localeCompare a.shortName b.shortName ≤ 0 →
      localeCompare b.shortName c.shortName ≤ 0 → localeCompare a.shortName c.shortName ≤ 0) :
    (jsSort (quickAccessCompare localeCompare) l).Perm l ∧
    (jsSort (quickAccessCompare localeCompare) l).Pairwise (fun a b =>
      rank a.shortName < rank b.shortName ∨
        (rank a.shortName = 0 ∧ rank b.shortName = 0 ∧
          localeCompare a.shortName b.shortName ≤ 0)) ∧
    ((∀ a ∈ l, ∀ b ∈ l, localeCompare a.shortName b.shortName ≤ 0 →
        localeCompare b.shortName a.shortName ≤ 0 → a.shortName = b.shortName) →
      ∀ l2 : List ModelConfig, l2.Perm l →
        l2.Pairwise (quickAccessBefore localeCompare) →
        l2 = jsSort (quickAccessCompare localeCompare) l) := by
  have hp := jsSort_perm (quickAccessCompare localeCompare) l
  have hs := jsSort_sorted localeCompare l hanti htrans l (fun _ h => h) hdist
  refine ⟨hp, hs, fun hsep l2 hp2 hs2 => ?_⟩
  refine List.Perm.eq_of_sorted (fun a b ha hb hab hba => ?_) hs2 hs (hp2.trans hp.symm)
  have ha2 : a ∈ l := hp2.mem_iff.mp ha
  have hb2 : b ∈ l := hp.mem_iff.mp hb
  have hname : a.shortName = b.shortName := by
    unfold quickAccessBefore at hab hba
    rcases hab with hab | ⟨ha0, hb0, hab⟩
    · rcases hba with hba | ⟨hb0, ha0, -⟩ <;> omega
    · rcases hba with hba | ⟨-, -, hba⟩
      · omega
      · exact hsep a ha2 b hb2 hab hba
  by_contra hne
  exact List.Pairwise.forall (fun x y h => Ne.symm h) hdist ha2 hb2 hne hname

/-- C15, on models with the short names `B`, `M`, `A`, `T`: they come out in the
order `A`, `B`, `M`, `T`. -/
theorem quickAccess_sort_order_witness :
    (jsSort (quickAccessCompare exampleCollation) exampleQuickAccessModels).map
        (fun m => m.shortName) = ["A", "B", "M", "T"] ∧
      (jsSort (quickAccessCompare exampleCollation) exampleQuickAccessModels).Perm
        exampleQuickAccessModels :=
  ⟨by decide,
    (quickAccess_sort_order exampleCollation exampleQuickAccessModels (by decide) (by decide)
      (by decide)).1⟩


/-! ## The archive -/

theorem findIndex_none {α : Type} (p : α → Bool) (l : List α) (h : ∀ x ∈ l, p x = false) :
    findIndex p l = none := by
  induction l with
  | nil => rfl
  | cons y rest ih =>
    simp [findIndex, h y (List.mem_cons_self _ _),
      ih (fun x hx => h x (List.mem_cons_of_mem _ hx))]

theorem findIndex_first {α : Type} (p : α → Bool) (pre : List α) (e : α) (post : List α)
    (hpre : ∀ x ∈ pre, p x = false) (he : p e = true) :
    findIndex p (pre ++ e :: post) = some pre.length := by
  induction pre with
  | nil => simp [findIndex, he]
  | cons y rest ih =>
    simp [findIndex, hpre y (List.mem_cons_self _ _),
      ih (fun x hx => hpre x (List.mem_cons_of_mem _ hx))]

theorem getElem?_first {α : Type} (pre : List α) (e : α) (post : List α) :
    (pre ++ e :: post)[pre.length]? = some e := by
  induction pre with
  | nil => simp
  | cons y rest ih => simpa using ih

theorem set_first {α : Type} (pre : List α) (e x : α) (post : List α) :
    (pre ++ e :: post).set pre.length x = pre ++ x :: post := by
  induction pre with
  | nil => rfl
  | cons y rest ih => simp

/-- A list with an element that satisfies `p` splits at the first such element. -/
theorem exists_first {α : Type} (p : α → Bool) (l : List α) (h : ∃ x ∈ l, p x = true) :
    ∃ pre e post, l = pre ++ e :: post ∧ (∀ x ∈ pre, p x = false) ∧ p e = true := by
  induction l with
  | nil =>
    obtain ⟨x, hx, -⟩ := h
    cases hx
  | cons y rest ih =>
    by_cases hy : p y = true
    · exact ⟨[], y, rest, rfl, fun x hx => absurd hx (List.not_mem_nil x), hy⟩
    · have hrest : ∃ x ∈ rest, p x = true := by
        obtain ⟨x, hx, hpx⟩ := h
        rcases List.mem_cons.mp hx with rfl | hx
        · exact absurd hpx hy
        · exact ⟨x, hx, hpx⟩
      obtain ⟨pre, e, post, hl, hpre, he⟩ := ih hrest
      refine ⟨y :: pre, e, post, by rw [hl]; rfl, fun x hx => ?_, he⟩
      rcases List.mem_cons.mp hx with rfl | hx
      · simpa using hy
      · exact hpre x hx

/-- The archive update when `e` is the first archive with the JSON text of the
current messages: `e` takes the messages and the name, in place. -/
theorem archiveUpdate_match (messages : List Message) (chatName : String) (currentChatId : Nat)
    (pre : List ChatArchive) (e : ChatArchive) (post : List ChatArchive)
    (hpre : ∀ x ∈ pre, messagesJson x.messages ≠ messagesJson messages)
    (he : messagesJson e.messages = messagesJson messages) :
    archiveUpdate messages chatName currentChatId (pre ++ e :: post) =
      pre ++ { id := e.id, messages := messages, name := chatName } :: post := by
  have hf : findIndex (fun history => messagesJson history.messages == messagesJson messages)
      (pre ++ e :: post) = some pre.length :=
    findIndex_first _ pre e post (fun x hx => by simpa using hpre x hx) (by simpa using he)
  simp only [archiveUpdate, hf, getElem?_first, set_first]

/-- The archive update when no archive has the JSON text of the current
messages: a new entry is added at the end. -/
theorem archiveUpdate_fresh (messages : List Message) (chatName : String) (currentChatId : Nat)
    (prevHistory : List ChatArchive)
    (h : ∀ x ∈ prevHistory, messagesJson x.messages ≠ messagesJson messages) :
    archiveUpdate messages chatName currentChatId prevHistory =
      prevHistory ++ [{ id := currentChatId, messages := messages, name := chatName }] := by
  have hf : findIndex (fun history => messagesJson history.messages == messagesJson messages)
      prevHistory = none :=
    findIndex_none _ prevHistory (fun x hx => by simpa using h x hx)
  simp only [archiveUpdate, hf]

/-- The archives either split at the first one with the JSON text of the
messages, or none has it. -/
theorem archive_cases (messages : List Message) (prevHistory : List ChatArchive) :
    (∃ pre e post, prevHistory = pre ++ e :: post ∧
        (∀ x ∈ pre, messagesJson x.messages ≠ messagesJson messages) ∧
        messagesJson e.messages = messagesJson messages) ∨
      (∀ x ∈ prevHistory, messagesJson x.messages ≠ messagesJson messages) := by
  by_cases h : ∃ x ∈ prevHistory,
      (fun history : ChatArchive =>
        messagesJson history.messages == messagesJson messages) x = true
  · obtain ⟨pre, e, post, hl, hpre, he⟩ := exists_first _ prevHistory h
    exact Or.inl ⟨pre, e, post, hl, fun x hx => by simpa using hpre x hx, by simpa using he⟩
  · refine Or.inr (fun x hx hj => h ⟨x, hx, ?_⟩)
    simpa using hj

theorem saveCurrentChat_nonempty (net : Request → NetResult)
    (fallbackTime currentDateTime : String) (currentChatId : Nat) (snap : AppState) (w : World)
    (hm : snap.messages ≠ []) :
    saveCurrentChat net fallbackTime currentDateTime currentChatId snap w =
      ⟨(((w.issue (titleRequest snap)).setChatHistory
          (archiveUpdate snap.messages
            (generatedTitle (net (titleRequest snap)) fallbackTime ++
              " (" ++ currentDateTime ++ ")") currentChatId)).setMessages (fun _ => [])), none⟩ := by
  have hlen : snap.messages.length > 0 := List.length_pos.mpr hm
  simp only [saveCurrentChat, hlen, if_true]


/-- C16: with an empty message sequence `saveCurrentChat` does nothing: the
archive list is unchanged, the conversation is unchanged (it stays empty) and
no title request is issued. -/
theorem saveCurrentChat_empty (net : Request → NetResult)
    (fallbackTime currentDateTime : String) (currentChatId : Nat) (snap : AppState) (w : World)
    (hm : snap.messages = []) :
    (saveCurrentChat net fallbackTime currentDateTime currentChatId snap w).world.state.chatHistory
        = w.state.chatHistory ∧
      (saveCurrentChat net fallbackTime currentDateTime currentChatId snap w).world.state.messages
        = w.state.messages ∧
      (saveCurrentChat net fallbackTime currentDateTime currentChatId snap w).world.requests
        = w.requests ∧
      (saveCurrentChat net fallbackTime currentDateTime currentChatId snap w).world = w := by
  simp [saveCurrentChat, hm]

/-- C16, on the initial state, whose conversation is empty: no archive is
created and nothing is requested. -/
theorem saveCurrentChat_empty_witness :
    (saveCurrentChat exampleTitleNet "1.1.2025, 10:30:00" "1.1.2025, 10:30:00" 3000 initialState
        ⟨initialState, []⟩).world.state.chatHistory = [] ∧
      (saveCurrentChat exampleTitleNet "1.1.2025, 10:30:00" "1.1.2025, 10:30:00" 3000 initialState
        ⟨initialState, []⟩).world.requests = [] := by
  obtain ⟨h1, -, h3, -⟩ := saveCurrentChat_empty exampleTitleNet "1.1.2025, 10:30:00"
    "1.1.2025, 10:30:00" 3000 initialState ⟨initialState, []⟩ rfl
  exact ⟨h1, h3⟩

/-- C17 (as amended): archiving `m` under the name `n1` and then the same `m`
under `n2` adds at most one entry, and the second call adds none. When no
archive of `h` has the JSON text of `m`, the result is `h` followed by exactly
one entry, with the messages `m`, the id of the first call and the name `n2`.
When `h` already has such an archive, both calls overwrite the first one in
place: the list keeps its length, and that entry holds `m` and bears `n2`. -/
theorem archive_twice (m : List Message) (n1 n2 : String) (id1 id2 : Nat)
    (h : List ChatArchive) :
    ((∀ x ∈ h, messagesJson x.messages ≠ messagesJson m) →
      archiveUpdate m n2 id2 (archiveUpdate m n1 id1 h) =
        h ++ [{ id := id1, messages := m, name := n2 }]) ∧
    (∀ pre e post, h = pre ++ e :: post →
      (∀ x ∈ pre, messagesJson x.messages ≠ messagesJson m) →
      messagesJson e.messages = messagesJson m →
      archiveUpdate m n2 id2 (archiveUpdate m n1 id1 h) =
        pre ++ { id := e.id, messages := m, name := n2 } :: post) := by
  constructor
  · intro hno
    rw [archiveUpdate_fresh m n1 id1 h hno]
    exact archiveUpdate_match m n2 id2 h _ [] hno rfl
  · intro pre e post hsplit hpre he
    rw [hsplit, archiveUpdate_match m n1 id1 pre e post hpre he]
    exact archiveUpdate_match m n2 id2 pre _ post hpre rfl

/-- C17 (as amended), on an empty archive list and on `exampleArchive`: from the
empty list the two calls leave one entry named `n2`; from `exampleArchive`, which
holds the conversation already, they leave its one entry, renamed `n2`. -/
theorem archive_twice_witness :
    archiveUpdate examplePrior "n2" 3000 (archiveUpdate examplePrior "n1" 2000 []) =
        [{ id := 2000, messages := examplePrior, name := "n2" }] ∧
      archiveUpdate examplePrior "n2" 3000 (archiveUpdate examplePrior "n1" 2000 exampleArchive) =
        [{ id := 1000, messages := examplePrior, name := "n2" }] :=
  ⟨(archive_twice examplePrior "n1" "n2" 2000 3000 []).1 (fun x hx => absurd hx (List.not_mem_nil x)),
    (archive_twice examplePrior "n1" "n2" 2000 3000 exampleArchive).2 [] _ [] rfl
      (fun x hx => absurd hx (List.not_mem_nil x)) rfl⟩

/-- C17 fails as stated: `exampleArchive` has one entry, which holds the
conversation `examplePrior`; archiving `examplePrior` under `n1` and then under
`n2 ≠ n1` leaves one entry, so the list has no entry more than it had. -/
theorem archive_twice_no_new_entry_counterexample :
    examplePrior ≠ [] ∧ "n1" ≠ "n2" ∧
      (archiveUpdate examplePrior "n2" 3000
        (archiveUpdate examplePrior "n1" 2000 exampleArchive)).length = exampleArchive.length ∧
      (archiveUpdate examplePrior "n2" 3000
        (archiveUpdate examplePrior "n1" 2000 exampleArchive)).length ≠
        exampleArchive.length + 1 ∧
      ((archiveUpdate examplePrior "n2" 3000
        (archiveUpdate examplePrior "n1" 2000 exampleArchive)).filter
          (fun e => messagesJson e.messages == messagesJson examplePrior)).length =
        (exampleArchive.filter
          (fun e => messagesJson e.messages == messagesJson examplePrior)).length := by
  refine ⟨by simp [examplePrior], by decide, by decide, by decide, by decide⟩


/-- C18: for a non-empty message sequence `m`, `saveCurrentChat` updates the
archive list `h` as follows. If some archive has messages with the JSON text of
`m`, the list keeps its length, the first such archive keeps its place and its
id and takes the new name and the messages `m`, and every other entry stays as
it was; if no archive matches, the result is `h` followed by exactly one new
entry `{ id: Date.now(), messages: m, name }`. In both cases the current
conversation becomes empty. -/
theorem saveCurrentChat_archive (net : Request → NetResult)
    (fallbackTime currentDateTime : String) (currentChatId : Nat) (snap : AppState) (w : World)
    (hm : snap.messages ≠ []) :
    ∃ chatName, chatName =
        generatedTitle (net (titleRequest snap)) fallbackTime ++ " (" ++ currentDateTime ++ ")" ∧
      (saveCurrentChat net fallbackTime currentDateTime currentChatId snap w).world.state.messages
        = [] ∧
      (∀ pre e post, w.state.chatHistory = pre ++ e :: post →
        (∀ x ∈ pre, messagesJson x.messages ≠ messagesJson snap.messages) →
        messagesJson e.messages = messagesJson snap.messages →
        (saveCurrentChat net fallbackTime currentDateTime currentChatId snap w
          ).world.state.chatHistory =
          pre ++ { id := e.id, messages := snap.messages, name := chatName } :: post) ∧
      ((∀ x ∈ w.state.chatHistory, messagesJson x.messages ≠ messagesJson snap.messages) →
        (saveCurrentChat net fallbackTime currentDateTime currentChatId snap w
          ).world.state.chatHistory =
          w.state.chatHistory ++
            [{ id := currentChatId, messages := snap.messages, name := chatName }]) := by
  refine ⟨_, rfl, ?_, ?_, ?_⟩
  · rw [saveCurrentChat_nonempty net fallbackTime currentDateTime currentChatId snap w hm]
    rfl
  · intro pre e post hsplit hpre he
    rw [saveCurrentChat_nonempty net fallbackTime currentDateTime currentChatId snap w hm]
    simp only [World.setMessages, World.setChatHistory, World.issue]
    rw [hsplit]
    exact archiveUpdate_match _ _ _ pre e post hpre he
  · intro hno
    rw [saveCurrentChat_nonempty net fallbackTime currentDateTime currentChatId snap w hm]
    simp only [World.setMessages, World.setChatHistory, World.issue]
    exact archiveUpdate_fresh _ _ _ _ hno

/-- C18, on the cerebras example without archives and a title response
` Greeting `: the archive list gets one entry named by the trimmed title and
the time, and the conversation is emptied. -/
theorem saveCurrentChat_archive_witness :
    (saveCurrentChat exampleTitleNet "1.1.2025, 10:30:00" "1.1.2025, 10:30:01" 3000
        exampleCerebrasState ⟨exampleCerebrasState, []⟩).world.state.chatHistory =
        [{ id := 3000, messages := examplePrior, name := "Greeting (1.1.2025, 10:30:01)" }] ∧
      (saveCurrentChat exampleTitleNet "1.1.2025, 10:30:00" "1.1.2025, 10:30:01" 3000
        exampleCerebrasState ⟨exampleCerebrasState, []⟩).world.state.messages = [] := by
  obtain ⟨chatName, hname, hmsg, -, hfresh⟩ :=
    saveCurrentChat_archive exampleTitleNet "1.1.2025, 10:30:00" "1.1.2025, 10:30:01" 3000
      exampleCerebrasState ⟨exampleCerebrasState, []⟩ (by simp [exampleCerebrasState, examplePrior])
  refine ⟨?_, hmsg⟩
  rw [hfresh (fun x hx => absurd hx (List.not_mem_nil x)), hname]
  have : generatedTitle (exampleTitleNet (titleRequest exampleCerebrasState))
      "1.1.2025, 10:30:00" ++ " (" ++ "1.1.2025, 10:30:01" ++ ")" =
      "Greeting (1.1.2025, 10:30:01)" := by decide
  rw [this]
  rfl

theorem archiveUpdate_holds (messages : List Message) (chatName : String) (currentChatId : Nat)
    (prevHistory : List ChatArchive) :
    ∃ e ∈ archiveUpdate messages chatName currentChatId prevHistory,
      e.messages = messages ∧ e.name = chatName := by
  rcases archive_cases messages prevHistory with ⟨pre, e, post, hsplit, hpre, he⟩ | hno
  · rw [hsplit, archiveUpdate_match messages chatName currentChatId pre e post hpre he]
    exact ⟨_, List.mem_append_right _ (List.mem_cons_self _ _), rfl, rfl⟩
  · rw [archiveUpdate_fresh messages chatName currentChatId prevHistory hno]
    exact ⟨_, List.mem_append_right _ (List.mem_singleton_self _), rfl, rfl⟩

/-- C19: for every archive list and every non-empty message sequence `m`,
`saveCurrentChat` empties the conversation and leaves an archive that holds
`m`, and `viewChatHistory` of an archive that holds `m` makes the current
conversation equal to `m` again. -/
theorem archive_then_restore (net : Request → NetResult)
    (fallbackTime currentDateTime : String) (currentChatId : Nat) (snap : AppState) (w : World)
    (hm : snap.messages ≠ []) :
    (saveCurrentChat net fallbackTime currentDateTime currentChatId snap w).world.state.messages
        = [] ∧
      (∃ e ∈ (saveCurrentChat net fallbackTime currentDateTime currentChatId snap w
          ).world.state.chatHistory, e.messages = snap.messages) ∧
      (∀ e ∈ (saveCurrentChat net fallbackTime currentDateTime currentChatId snap w
          ).world.state.chatHistory, e.messages = snap.messages →
        (viewChatHistory e
          (saveCurrentChat net fallbackTime currentDateTime currentChatId snap w).world
          ).state.messages = snap.messages) := by
  rw [saveCurrentChat_nonempty net fallbackTime currentDateTime currentChatId snap w hm]
  refine ⟨rfl, ?_, fun e _ he => he⟩
  obtain ⟨e, hmem, hmsg, -⟩ := archiveUpdate_holds snap.messages
    (generatedTitle (net (titleRequest snap)) fallbackTime ++ " (" ++ currentDateTime ++ ")")
    currentChatId w.state.chatHistory
  exact ⟨e, hmem, hmsg⟩

/-- C19, on the cerebras example with the archive `exampleArchive`, which holds
the conversation: after the save the conversation is empty, and the restore of
the entry brings back the two messages. -/
theorem archive_then_restore_witness :
    (saveCurrentChat exampleTitleNet "1.1.2025, 10:30:00" "1.1.2025, 10:30:01" 3000
        exampleArchivedState ⟨exampleArchivedState, []⟩).world.state.messages = [] ∧
      (viewChatHistory
          { id := 1000, messages := examplePrior, name := "Greeting (1.1.2025, 10:30:01)" }
          (saveCurrentChat exampleTitleNet "1.1.2025, 10:30:00" "1.1.2025, 10:30:01" 3000
            exampleArchivedState ⟨exampleArchivedState, []⟩).world).state.messages =
        examplePrior := by
  obtain ⟨hempty, -, hrestore⟩ :=
    archive_then_restore exampleTitleNet "1.1.2025, 10:30:00" "1.1.2025, 10:30:01" 3000
      exampleArchivedState ⟨exampleArchivedState, []⟩
      (by simp [exampleArchivedState, exampleCerebrasState, examplePrior])
  have hlist : (saveCurrentChat exampleTitleNet "1.1.2025, 10:30:00" "1.1.2025, 10:30:01" 3000
      exampleArchivedState ⟨exampleArchivedState, []⟩).world.state.chatHistory =
      [{ id := 1000, messages := examplePrior, name := "Greeting (1.1.2025, 10:30:01)" }] := by
    have hname : generatedTitle (exampleTitleNet (titleRequest exampleArchivedState))
        "1.1.2025, 10:30:00" ++ " (" ++ "1.1.2025, 10:30:01" ++ ")" =
        "Greeting (1.1.2025, 10:30:01)" := by decide
    rw [saveCurrentChat_nonempty _ _ _ _ _ _
      (by simp [exampleArchivedState, exampleCerebrasState, examplePrior])]
    simp only [World.setMessages, World.setChatHistory, World.issue, hname]
    exact archiveUpdate_match examplePrior _ 3000 [] _ []
      (fun x hx => absurd hx (List.not_mem_nil x)) rfl
  exact ⟨hempty, hrestore _ (by rw [hlist]; exact List.mem_singleton_self _) rfl⟩


/-- The update of `viewChatHistory` when `e` is the first archive with the id of
`history`: `history` takes its place. -/
theorem viewUpdate_match (history : ChatArchive) (pre : List ChatArchive) (e : ChatArchive)
    (post : List ChatArchive) (hpre : ∀ x ∈ pre, x.id ≠ history.id) (he : e.id = history.id) :
    viewUpdate history (pre ++ e :: post) = pre ++ history :: post := by
  have hf : findIndex (fun prev => prev.id == history.id) (pre ++ e :: post) =
      some pre.length :=
    findIndex_first _ pre e post (fun x hx => by simpa using hpre x hx) (by simpa using he)
  simp only [viewUpdate, hf, set_first]

/-- C20: for every archive list `h` and every entry `e` of `h`,
`viewChatHistory(e)` sets the current conversation to `e.messages` and leaves
`e` in the archive list; when the ids in `h` are pairwise distinct the archive
list is left equal to `h`. -/
theorem viewChatHistory_restores (e : ChatArchive) (w : World)
    (he : e ∈ w.state.chatHistory) :
    (viewChatHistory e w).state.messages = e.messages ∧
      e ∈ (viewChatHistory e w).state.chatHistory ∧
      ((w.state.chatHistory.map (fun a => a.id)).Nodup →
        (viewChatHistory e w).state.chatHistory = w.state.chatHistory) := by
  obtain ⟨pre, e2, post, hsplit, hpre, he2⟩ :=
    exists_first (fun prev : ChatArchive => prev.id == e.id) w.state.chatHistory
      ⟨e, he, by simp⟩
  have hid : e2.id = e.id := by simpa using he2
  have hview : (viewChatHistory e w).state.chatHistory = pre ++ e :: post := by
    simp only [viewChatHistory, World.setIsHistoryModalVisible, World.setMessages,
      World.setChatHistory]
    rw [hsplit]
    exact viewUpdate_match e pre e2 post (fun x hx => by simpa using hpre x hx) hid
  refine ⟨rfl, ?_, fun hnodup => ?_⟩
  · rw [hview]
    exact List.mem_append_right _ (List.mem_cons_self _ _)
  · have he2mem : e2 ∈ w.state.chatHistory := by
      rw [hsplit]
      exact List.mem_append_right _ (List.mem_cons_self _ _)
    have heq : e2 = e := List.inj_on_of_nodup_map hnodup he2mem he hid
    rw [hview, hsplit, heq]

/-- C20, on the archive list `exampleArchive` and an empty conversation: the
restore of its entry brings back the two messages and leaves the list as it was. -/
theorem viewChatHistory_restores_witness :
    (viewChatHistory
        { id := 1000, messages := examplePrior, name := "First chat (1.1.2025, 10:20:00)" }
        ⟨{ initialState with chatHistory := exampleArchive }, []⟩).state.messages =
        examplePrior ∧
      (viewChatHistory
        { id := 1000, messages := examplePrior, name := "First chat (1.1.2025, 10:20:00)" }
        ⟨{ initialState with chatHistory := exampleArchive }, []⟩).state.chatHistory =
        exampleArchive := by
  obtain ⟨h1, -, h3⟩ := viewChatHistory_restores
    { id := 1000, messages := examplePrior, name := "First chat (1.1.2025, 10:20:00)" }
    ⟨{ initialState with chatHistory := exampleArchive }, []⟩
    (List.mem_singleton_self _)
  exact ⟨h1, h3 (by decide)⟩


/-! ## The name of an archive -/

/-- C21: for every non-empty conversation `saveCurrentChat` stores an archive
that holds it, whether the title request succeeds or fails, and throws nothing.
When the request succeeds and the response carries a string, the name is the
trimmed title followed by ` (`, the local time and `)`. When there is no
response, the status is outside 2xx, or the read of
`response.data.choices[0].message.content.trim()` throws, the name is the
fallback `Chat from` with the time, followed by the time in brackets. -/
theorem saveCurrentChat_name (net : Request → NetResult)
    (fallbackTime currentDateTime : String) (currentChatId : Nat) (snap : AppState) (w : World)
    (hm : snap.messages ≠ []) :
    (saveCurrentChat net fallbackTime currentDateTime currentChatId snap w).thrown = none ∧
    ∃ e ∈ (saveCurrentChat net fallbackTime currentDateTime currentChatId snap w
        ).world.state.chatHistory,
      e.messages = snap.messages ∧
      (∀ status data title, net (titleRequest snap) = .response status data →
        200 ≤ status ∧ status < 300 → chatResponseContent data = .ok (.str title) →
        e.name = jsTrim title ++ " (" ++ currentDateTime ++ ")") ∧
      (net (titleRequest snap) = .noResponse →
        e.name = "Chat from " ++ fallbackTime ++ " (" ++ currentDateTime ++ ")") ∧
      (∀ status data, net (titleRequest snap) = .response status data →
        (¬ (200 ≤ status ∧ status < 300) ∨ (∃ err, titleFromResponse data = .error err)) →
        e.name = "Chat from " ++ fallbackTime ++ " (" ++ currentDateTime ++ ")") := by
  refine ⟨by rw [saveCurrentChat_nonempty net fallbackTime currentDateTime currentChatId snap w hm],
    ?_⟩
  rw [saveCurrentChat_nonempty net fallbackTime currentDateTime currentChatId snap w hm]
  obtain ⟨e, hmem, hmsg, hname⟩ := archiveUpdate_holds snap.messages
    (generatedTitle (net (titleRequest snap)) fallbackTime ++ " (" ++ currentDateTime ++ ")")
    currentChatId w.state.chatHistory
  refine ⟨e, hmem, hmsg, ?_, ?_, ?_⟩
  · intro status data title hn h2 hc
    rw [hname, hn]
    simp [generatedTitle, axiosSettle, h2, titleFromResponse, hc]
  · intro hn
    rw [hname, hn]
    simp [generatedTitle, axiosSettle]
  · intro status data hn hfail
    rw [hname, hn]
    rcases hfail with h2 | ⟨err, herr⟩
    · simp [generatedTitle, axiosSettle, h2]
    · by_cases h2 : 200 ≤ status ∧ status < 300
      · simp [generatedTitle, axiosSettle, h2, herr]
      · simp [generatedTitle, axiosSettle, h2]

/-- C21, on the cerebras example: with the title response ` Greeting ` the
archive is named `Greeting` and the time; without a response it is named by the
fallback; in both cases an archive is stored. -/
theorem saveCurrentChat_name_witness :
    (∃ e ∈ (saveCurrentChat exampleTitleNet "1.1.2025, 10:30:00" "1.1.2025, 10:30:01" 3000
        exampleCerebrasState ⟨exampleCerebrasState, []⟩).world.state.chatHistory,
      e.messages = examplePrior ∧ e.name = "Greeting (1.1.2025, 10:30:01)") ∧
    (∃ e ∈ (saveCurrentChat exampleDownNet "1.1.2025, 10:30:00" "1.1.2025, 10:30:01" 3000
        exampleCerebrasState ⟨exampleCerebrasState, []⟩).world.state.chatHistory,
      e.messages = examplePrior ∧
        e.name = "Chat from 1.1.2025, 10:30:00 (1.1.2025, 10:30:01)") := by
  have hne : exampleCerebrasState.messages ≠ [] := by simp [exampleCerebrasState, examplePrior]
  constructor
  · obtain ⟨-, e, hmem, hmsg, hok, -, -⟩ :=
      saveCurrentChat_name exampleTitleNet "1.1.2025, 10:30:00" "1.1.2025, 10:30:01" 3000
        exampleCerebrasState ⟨exampleCerebrasState, []⟩ hne
    refine ⟨e, hmem, hmsg, ?_⟩
    rw [hok 200 _ " Greeting " rfl (by decide) rfl]
    decide
  · obtain ⟨-, e, hmem, hmsg, -, hdown, -⟩ :=
      saveCurrentChat_name exampleDownNet "1.1.2025, 10:30:00" "1.1.2025, 10:30:01" 3000
        exampleCerebrasState ⟨exampleCerebrasState, []⟩ hne
    refine ⟨e, hmem, hmsg, ?_⟩
    rw [hdown rfl]
    decide


/-! ## Transcription -/

theorem handleTranscriptionTry_with_key (net : Request → NetResult) (snap : AppState)
    (base64Audio : String) (w : World) (provider key : String)
    (hprov : provider = "openai" ∨ provider = "lemonfox")
    (hsel : snap.selectedWhisperProvider = some provider)
    (hkey : whisperKey snap provider = some key) (hnb : keyBlank (some key) = false) :
    handleTranscriptionTry net snap base64Audio w =
      (postAndTranscribe net (transcriptionRequest provider base64Audio key) w, none) := by
  rcases hprov with h | h
  all_goals
    subst h
    simp only [whisperKey, reduceCtorEq, String.reduceEq, if_true, if_false] at hkey
    simp only [handleTranscriptionTry, hsel, hkey, hnb, reduceCtorEq, String.reduceEq, if_true,
      if_false, Bool.false_eq_true]

theorem handleTranscriptionTry_blank_key (net : Request → NetResult) (snap : AppState)
    (base64Audio : String) (w : World) (provider : String)
    (hprov : provider = "openai" ∨ provider = "lemonfox")
    (hsel : snap.selectedWhisperProvider = some provider)
    (hkey : keyBlank (whisperKey snap provider) = true) :
    ∃ e, handleTranscriptionTry net snap base64Audio w = (⟨w, some e⟩, none) := by
  rcases hprov with h | h
  all_goals
    subst h
    simp only [whisperKey, reduceCtorEq, String.reduceEq, if_true, if_false] at hkey
    simp only [handleTranscriptionTry, hsel, reduceCtorEq, String.reduceEq, if_true, if_false]
    split
    · exact ⟨_, rfl⟩
    · rename_i key hk
      rw [hk] at hkey
      simp only [hkey, if_true]
      exact ⟨_, rfl⟩

theorem postAndTranscribe_requests (net : Request → NetResult) (req : Request) (w : World) :
    (postAndTranscribe net req w).world.requests = w.requests ++ [req] := by
  unfold postAndTranscribe
  split
  · rfl
  · split <;> rfl

theorem handleTranscription_world (net : Request → NetResult) (snap : AppState)
    (base64Audio : String) (w : World) (step : Step) (alert : Option Alert)
    (h : handleTranscriptionTry net snap base64Audio w = (step, alert)) :
    (handleTranscription net snap base64Audio w).1 = step.world := by
  obtain ⟨w1, t⟩ := step
  cases t <;> simp [handleTranscription, h]

/-- C22: when the transcription succeeds and returns the non-empty text `t`,
the new draft is the existing draft `d` followed by one space and `t` when `d`
is not empty, and `t` when `d` is empty; the draft is extended, not replaced. -/
theorem handleTranscription_appends_to_draft (net : Request → NetResult) (snap : AppState)
    (base64Audio : String) (w : World) (provider key t : String) (status : Nat) (data : JsVal)
    (hprov : provider = "openai" ∨ provider = "lemonfox")
    (hsel : snap.selectedWhisperProvider = some provider)
    (hkey : whisperKey snap provider = some key) (hnb : keyBlank (some key) = false)
    (hnet : net (transcriptionRequest provider base64Audio key) = .response status data)
    (hok : 200 ≤ status ∧ status < 300)
    (htext : data.getPropOpt "text" = .str t) (ht : t ≠ "") :
    (w.state.inputText ≠ "" →
      (handleTranscription net snap base64Audio w).1.state.inputText =
        w.state.inputText ++ " " ++ t) ∧
    (w.state.inputText = "" →
      (handleTranscription net snap base64Audio w).1.state.inputText = t) := by
  have hw := handleTranscription_world net snap base64Audio w _ _
    (handleTranscriptionTry_with_key net snap base64Audio w provider key hprov hsel hkey hnb)
  have hpost : (postAndTranscribe net (transcriptionRequest provider base64Audio key) w
      ).world.state.inputText = appendToDraft t w.state.inputText := by
    simp [postAndTranscribe, hnet, axiosSettle, hok, htext, JsVal.truthy, ht, JsVal.toStr,
      World.issue]
  rw [hw, hpost]
  constructor
  · intro hd
    simp [appendToDraft, hd]
  · intro hd
    simp [appendToDraft, hd]

/-- C22, on the lemonfox example with the draft `Notiz:`: the transcription
`guten Morgen` is added after one space. -/
theorem handleTranscription_appends_to_draft_witness :
    (handleTranscription exampleTranscriptNet exampleLemonfoxState "QUJD"
        ⟨exampleLemonfoxState, []⟩).1.state.inputText = "Notiz: guten Morgen" := by
  have h := (handleTranscription_appends_to_draft exampleTranscriptNet exampleLemonfoxState "QUJD"
    ⟨exampleLemonfoxState, []⟩ "lemonfox" "lf-1" "guten Morgen" 200
    (.obj [("text", .str "guten Morgen")]) (Or.inr rfl) rfl rfl (by decide) rfl (by decide) rfl
    (by decide)).1 (by decide)
  rw [h]
  decide


theorem handleTranscription_requests_with_key (net : Request → NetResult) (snap : AppState)
    (base64Audio : String) (w : World) (provider key : String)
    (hprov : provider = "openai" ∨ provider = "lemonfox")
    (hsel : snap.selectedWhisperProvider = some provider)
    (hkey : whisperKey snap provider = some key) (hnb : keyBlank (some key) = false) :
    (handleTranscription net snap base64Audio w).1.requests =
      w.requests ++ [transcriptionRequest provider base64Audio key] := by
  rw [handleTranscription_world net snap base64Audio w _ _
    (handleTranscriptionTry_with_key net snap base64Audio w provider key hprov hsel hkey hnb)]
  exact postAndTranscribe_requests net _ w

/-- C23 (as amended): `handleTranscription` does not consult
`apiValidationStatus`. It issues no HTTP request and leaves the world, the
draft included, as it was whenever no transcription provider is selected or the
key of the selected provider is absent or blank; with a key that is not blank it
posts its one request also when the validation state of the provider is not
`success`. -/
theorem handleTranscription_gate (net : Request → NetResult) (snap : AppState)
    (base64Audio : String) (w : World) :
    ((snap.selectedWhisperProvider = none ∨ snap.selectedWhisperProvider = some "") →
      (handleTranscription net snap base64Audio w).1 = w) ∧
    (∀ provider, snap.selectedWhisperProvider = some provider →
      provider = "openai" ∨ provider = "lemonfox" →
      keyBlank (whisperKey snap provider) = true →
      (handleTranscription net snap base64Audio w).1 = w) ∧
    (∀ provider key, snap.selectedWhisperProvider = some provider →
      provider = "openai" ∨ provider = "lemonfox" →
      whisperKey snap provider = some key → keyBlank (some key) = false →
      getKey provider snap.apiValidationStatus ≠ some "success" →
      (handleTranscription net snap base64Audio w).1.requests =
        w.requests ++ [transcriptionRequest provider base64Audio key]) := by
  refine ⟨fun h => ?_, fun provider hsel hprov hkey => ?_,
    fun provider key hsel hprov hkey hnb _ =>
      handleTranscription_requests_with_key net snap base64Audio w provider key hprov hsel
        hkey hnb⟩
  · rcases h with h | h <;>
      exact handleTranscription_world net snap base64Audio w
        ⟨w, some (.error "Please select a Whisper provider in settings first.")⟩ none
        (by simp [handleTranscriptionTry, h])
  · obtain ⟨e, he⟩ := handleTranscriptionTry_blank_key net snap base64Audio w provider hprov
      hsel hkey
    exact handleTranscription_world net snap base64Audio w ⟨w, some e⟩ none he

/-- C23 (as amended), on the initial state, where no provider is selected, and
on the openai example whose validation state is `error`: the first run leaves
the world as it was, the second posts to the transcription endpoint. -/
theorem handleTranscription_gate_witness :
    (handleTranscription exampleTranscriptNet initialState "QUJD" ⟨initialState, []⟩).1.requests
        = [] ∧
      (handleTranscription exampleTranscriptNet exampleOpenAiRejectedState "QUJD"
        ⟨exampleOpenAiRejectedState, []⟩).1.requests =
        [transcriptionRequest "openai" "QUJD" "sk-1"] := by
  obtain ⟨hnone, -, hkey⟩ := handleTranscription_gate exampleTranscriptNet initialState "QUJD"
    ⟨initialState, []⟩
  obtain ⟨-, -, hkey2⟩ := handleTranscription_gate exampleTranscriptNet
    exampleOpenAiRejectedState "QUJD" ⟨exampleOpenAiRejectedState, []⟩
  refine ⟨by rw [hnone (Or.inl rfl)], ?_⟩
  exact hkey2 "openai" "sk-1" rfl (Or.inl rfl) rfl (by decide) (by decide)

/-- C23 fails as stated: with openai selected for transcription, the key `sk-1`
and the validation state `error` for openai, `handleTranscription` posts to the
transcription endpoint and extends the draft. -/
theorem handleTranscription_unvalidated_counterexample :
    getKey "openai" exampleOpenAiRejectedState.apiValidationStatus = some "error" ∧
      (handleTranscription exampleTranscriptNet exampleOpenAiRejectedState "QUJD"
        ⟨exampleOpenAiRejectedState, []⟩).1.requests.map (fun r => (r.method, r.url)) =
        [("POST", "https://api.openai.com/v1/audio/transcriptions")] ∧
      (handleTranscription exampleTranscriptNet exampleOpenAiRejectedState "QUJD"
        ⟨exampleOpenAiRejectedState, []⟩).1.state.inputText = "guten Morgen" := by
  decide

/-- C24 (as amended): for a transcription provider with a usable key, the
payload posted to the `/v1/audio/transcriptions` endpoint of the provider holds,
for openai, the fields `file`, `model` (`whisper-1`), `response_format` (`json`)
and `language` (`de`), and for lemonfox the fields `file`, `response_format`
(`json`) and `detect_language` (`true`), without a `model` field. -/
theorem transcription_payload (net : Request → NetResult) (snap : AppState)
    (base64Audio : String) (w : World) (provider key : String)
    (hprov : provider = "openai" ∨ provider = "lemonfox")
    (hsel : snap.selectedWhisperProvider = some provider)
    (hkey : whisperKey snap provider = some key) (hnb : keyBlank (some key) = false) :
    ∃ req file, (handleTranscription net snap base64Audio w).1.requests = w.requests ++ [req] ∧
      file = JsVal.obj [("uri", .str ("data:audio/mp3;base64," ++ base64Audio)),
        ("type", .str "audio/mp3"), ("name", .str "recording.mp3")] ∧
      (provider = "openai" →
        req.url = "https://api.openai.com/v1/audio/transcriptions" ∧
        req.body = .obj [("file", file), ("model", .str "whisper-1"),
          ("response_format", .str "json"), ("language", .str "de")]) ∧
      (provider = "lemonfox" →
        req.url = "https://api.lemonfox.ai/v1/audio/transcriptions" ∧
        req.body = .obj [("file", file), ("response_format", .str "json"),
          ("detect_language", .str "true")] ∧
        req.body.getPropOpt "model" = .undefined) := by
  refine ⟨transcriptionRequest provider base64Audio key, _,
    handleTranscription_requests_with_key net snap base64Audio w provider key hprov hsel hkey hnb,
    rfl, ?_, ?_⟩
  · intro h
    subst h
    exact ⟨rfl, rfl⟩
  · intro h
    subst h
    exact ⟨rfl, rfl, rfl⟩

/-- C24 (as amended), on the lemonfox example: the payload has the three
fields `file`, `response_format` and `detect_language`. -/
theorem transcription_payload_witness :
    ∃ req, (handleTranscription exampleTranscriptNet exampleLemonfoxState "QUJD"
        ⟨exampleLemonfoxState, []⟩).1.requests = [req] ∧
      req.body = .obj [
        ("file", .obj [("uri", .str "data:audio/mp3;base64,QUJD"), ("type", .str "audio/mp3"),
          ("name", .str "recording.mp3")]),
        ("response_format", .str "json"), ("detect_language", .str "true")] := by
  obtain ⟨req, file, hreq, hfile, -, hlemon⟩ :=
    transcription_payload exampleTranscriptNet exampleLemonfoxState "QUJD"
      ⟨exampleLemonfoxState, []⟩ "lemonfox" "lf-1" (Or.inr rfl) rfl rfl (by decide)
  refine ⟨req, hreq, ?_⟩
  rw [(hlemon rfl).2.1, hfile]
  rfl

/-- C24 fails as stated: the payload that `handleTranscription` posts for
lemonfox, with the usable key `lf-1`, has no `model` field. -/
theorem transcription_lemonfox_no_model_counterexample :
    keyBlank (some "lf-1") = false ∧
      (handleTranscription exampleTranscriptNet exampleLemonfoxState "QUJD"
        ⟨exampleLemonfoxState, []⟩).1.requests.map
          (fun r => (r.url, (r.body.getPropOpt "model").truthy,
            (r.body.getPropOpt "response_format").truthy,
            (r.body.getPropOpt "detect_language").truthy)) =
        [("https://api.lemonfox.ai/v1/audio/transcriptions", false, true, true)] := by
  decide


/-! ## The key store -/

/-- C25 fails on the code: with a key store that rejects every write,
`setSecretStorage` throws nothing to its caller, and `saveApiKeys`, started with
five keys entered and the settings dialog open, shows no alert, closes the
dialog and leaves the store empty. -/
theorem saveApiKeys_swallows_write_failure :
    (setSecretStorage (fun _ => true) "google-api-key" (.obj [("key", .str "AIza-1")]) []).2
        = none ∧
      (saveApiKeys (fun _ => true) exampleAllKeysState exampleAllKeysHost).alerts = [] ∧
      exampleAllKeysHost.world.state.isSettingsModalVisible = true ∧
      (saveApiKeys (fun _ => true) exampleAllKeysState exampleAllKeysHost
        ).world.state.isSettingsModalVisible = false ∧
      (saveApiKeys (fun _ => true) exampleAllKeysState exampleAllKeysHost).storage = [] := by
  decide

/-- C26 fails on the code for lemonfox: `saveApiKeys`, started with a key for
each of the five providers, writes the four entries of google, openrouter,
cerebras and openai and none for lemonfox, and `loadApiKeys` never sets
`lemonfoxApiKey`, whatever the store holds. -/
theorem saveApiKeys_skips_lemonfox :
    exampleAllKeysState.lemonfoxApiKey = some "lf-1" ∧
      (saveApiKeys (fun _ => false) exampleAllKeysState exampleAllKeysHost).storage =
        [ ("google-api-key", "\x7b\"key\":\"AIza-1\"\x7d"),
          ("openrouter-api-key", "\x7b\"key\":\"or-1\"\x7d"),
          ("cerebras-api-key", "\x7b\"key\":\"csk-1\"\x7d"),
          ("openai-api-key", "\x7b\"key\":\"sk-1\"\x7d") ] ∧
      (∀ (jsonParse : String → Except JsError JsVal) (readRejects : String → Bool) (h : Host),
        (loadApiKeys jsonParse readRejects h).world.state.lemonfoxApiKey =
          h.world.state.lemonfoxApiKey) := by
  refine ⟨rfl, by decide, fun jsonParse readRejects h => ?_⟩
  simp only [loadApiKeys]
  repeat' split
  all_goals rfl

/-! ## A selection without a model -/

theorem sendGuard_stale (snap : AppState) (text : String) (hstale : selectedModelConfig snap = none) :
    sendGuard snap text = (jsTrim text == "") := by
  simp [sendGuard, hstale]

/-- C27 (as amended): when `selectedModel` matches no descriptor of
`availableModels`, `sendMessage` issues no HTTP request; a blank text is dropped
with nothing appended; every text that is not blank appends the user message and
then the fixed error message, because the read of `selectedModelConfig.api`
throws inside the `try` block. -/
theorem sendMessage_stale_selection (net : Request → NetResult) (timestamp : String)
    (snap : AppState) (text : String) (w : World) (hstale : selectedModelConfig snap = none) :
    (sendMessage net timestamp snap text w).world.requests = w.requests ∧
    (jsTrim text = "" → (sendMessage net timestamp snap text w).world = w) ∧
    (jsTrim text ≠ "" →
      (sendMessage net timestamp snap text w).world.state.messages =
        w.state.messages ++ [userMessage snap text timestamp, errorMessage timestamp]) := by
  have htry : ∀ w1, sendMessageTry net timestamp snap text w1 =
      ⟨w1.extend [] [], some .typeError⟩ := by
    intro w1
    simp [sendMessageTry, hstale, extend_nil]
  by_cases ht : jsTrim text = ""
  · have hg : sendGuard snap text = true := by simp [sendGuard_stale snap text hstale, ht]
    have hw : (sendMessage net timestamp snap text w).world = w := by simp [sendMessage, hg]
    exact ⟨by rw [hw], fun _ => hw, fun h => absurd ht h⟩
  · have hg : sendGuard snap text = false := by simp [sendGuard_stale snap text hstale, ht]
    obtain ⟨hm, hr⟩ := sendMessage_of_try net timestamp snap text w hg [] [] (some .typeError) htry
    exact ⟨by simpa using hr, fun h => absurd h ht, fun _ => by simpa using hm⟩

/-- C27 (as amended), on a selection that names no registered model and the
text `hi`: nothing is requested and the conversation gets the user message and
the error message. -/
theorem sendMessage_stale_selection_witness :
    (sendMessage exampleGoogleNet "10:15" exampleStaleState "hi" ⟨exampleStaleState, []⟩
        ).world.requests = [] ∧
      (sendMessage exampleGoogleNet "10:15" exampleStaleState "hi" ⟨exampleStaleState, []⟩
        ).world.state.messages =
        [userMessage exampleStaleState "hi" "10:15", errorMessage "10:15"] := by
  obtain ⟨hr, -, hm⟩ := sendMessage_stale_selection exampleGoogleNet "10:15" exampleStaleState "hi"
    ⟨exampleStaleState, []⟩ rfl
  exact ⟨hr, hm (by decide)⟩

/-- C27 fails as stated: with a selection that names no registered model, the
send of the text `hi` is not dropped; two messages are appended to the empty
conversation, the user message and the error message. -/
theorem sendMessage_stale_not_dropped_counterexample :
    (selectedModelConfig exampleStaleState).isNone = true ∧
      ((sendMessage exampleGoogleNet "10:15" exampleStaleState "hi" ⟨exampleStaleState, []⟩
        ).world.state.messages.map (fun m => (m.text.toStr, m.isUser))) =
        [("hi", true), ("Error: Could not get a response. Please try again.", false)] := by
  decide


/-! ## Ties of the quick-access comparator -/

/-- C28: for two models that both have the short name `T`, or both `M`, the
quick-access comparator returns 1 for `(a, b)` and also 1 for `(b, a)`, never 0:
it is not antisymmetric, so it does not determine the relative order of models
that share a pinned label. -/
theorem quickAccessCompare_ties (localeCompare : String → String → Int) (a b : ModelConfig)
    (htie : (a.shortName = "T" ∧ b.shortName = "T") ∨ (a.shortName = "M" ∧ b.shortName = "M")) :
    quickAccessCompare localeCompare a b = 1 ∧ quickAccessCompare localeCompare b a = 1 ∧
      quickAccessCompare localeCompare a b ≠ 0 ∧
      ¬ (0 < quickAccessCompare localeCompare a b → quickAccessCompare localeCompare b a < 0) := by
  have h1 : quickAccessCompare localeCompare a b = 1 ∧
      quickAccessCompare localeCompare b a = 1 := by
    rcases htie with ⟨ha, hb⟩ | ⟨ha, hb⟩ <;> simp [quickAccessCompare, ha, hb]
  refine ⟨h1.1, h1.2, ?_, ?_⟩
  · rw [h1.1]
    decide
  · rw [h1.1, h1.2]
    decide

/-- C28, on two models with the short name `T`: each sorts after the other. -/
theorem quickAccessCompare_ties_witness :
    quickAccessCompare exampleCollation exampleTiedModels.1 exampleTiedModels.2 = 1 ∧
      quickAccessCompare exampleCollation exampleTiedModels.2 exampleTiedModels.1 = 1 := by
  obtain ⟨h1, h2, -, -⟩ := quickAccessCompare_ties exampleCollation exampleTiedModels.1
    exampleTiedModels.2 (Or.inl ⟨rfl, rfl⟩)
  exact ⟨h1, h2⟩

/-! ## An attachment that is not an image -/

theorem attachmentParts_fileData (asset : PickerAsset) (htype : asset.type ≠ some "image") :
    attachmentParts (some (fileData asset)) = [] := by
  rw [attachmentParts_other (fileData asset) (fun ⟨b, _, _, ht⟩ => htype ht)]
  rfl

/-- C29: an attachment produced by `handleFileUpload` has the fields `uri`,
`name`, `base64` and `type` and no `content`; when its type is not `image`, the
parts that `sendMessage` builds for google, and the request it posts, are those
built with no attachment at all. -/
theorem non_image_attachment_contributes_nothing (asset : PickerAsset) (s : AppState)
    (text key : String) (htype : asset.type ≠ some "image") :
    (fileData asset).content = none ∧
      googleParts (withUploadedFile s (some (fileData asset))) text =
        googleParts (withUploadedFile s none) text ∧
      googleRequest (withUploadedFile s (some (fileData asset))) text key =
        googleRequest (withUploadedFile s none) text key ∧
      (∀ (w : World) (rest : List PickerAsset),
        (handleFileUpload (some ⟨false, asset :: rest⟩) w).2 = none →
        (handleFileUpload (some ⟨false, asset :: rest⟩) w).1.state.uploadedFile =
          some (fileData asset)) := by
  have hparts : googleParts (withUploadedFile s (some (fileData asset))) text =
      googleParts (withUploadedFile s none) text := by
    simp only [googleParts, withUploadedFile, attachmentParts_fileData asset htype]
    rfl
  refine ⟨rfl, hparts, ?_, fun w rest h => ?_⟩
  · simp only [googleRequest, hparts]
    rfl
  · have hne : (asset.type != some "image") = true := by simp [htype]
    simp only [handleFileUpload, hne, Bool.false_eq_true, if_false, if_true] at h ⊢
    cases hb : asset.base64 with
    | none =>
      rw [hb] at h
      cases h
    | some b =>
      rw [hb] at h
      simp only at h ⊢
      by_cases hlen : jsLength b > 500 * 1024
      · rw [if_pos hlen] at h
        cases h
      · rw [if_neg hlen]
        rfl

/-- C29, on a picked video: the upload stores it, and the google parts for the
text `Look` are the system prompt and the text, as without an attachment. -/
theorem non_image_attachment_contributes_nothing_witness :
    (handleFileUpload (some ⟨false, [exampleVideoAsset]⟩) ⟨initialState, []⟩
        ).1.state.uploadedFile = some (fileData exampleVideoAsset) ∧
      googleParts (withUploadedFile initialState (some (fileData exampleVideoAsset))) "Look" =
        [ .obj [("text", .str initialState.systemPrompt)], .obj [("text", .str "Look")] ] := by
  obtain ⟨-, hparts, -, hupload⟩ := non_image_attachment_contributes_nothing exampleVideoAsset
    initialState "Look" "AIza-1" (by decide)
  refine ⟨hupload ⟨initialState, []⟩ [] (by decide), ?_⟩
  rw [hparts]
  rfl


/-! ## The copy feedback and the archive -/

theorem intercalate_go_length (sep acc : String) (l : List String) :
    (String.intercalate.go acc sep l).length =
      acc.length + (l.map (fun a => sep.length + a.length)).sum := by
  induction l generalizing acc with
  | nil => simp [String.intercalate.go]
  | cons a rest ih =>
    simp only [String.intercalate.go, ih, String.length_append, List.map_cons, List.sum_cons]
    omega

theorem intercalate_length_succ (l : List String) (hne : l ≠ []) :
    (",".intercalate l).length + 1 = (l.map (fun a => 1 + a.length)).sum := by
  cases l with
  | nil => exact absurd rfl hne
  | cons a rest =>
    have hsep : (",").length = 1 := rfl
    simp only [String.intercalate, intercalate_go_length, hsep, List.map_cons, List.sum_cons]
    omega

/-- With the field `isHighlighted: false` the JSON text of a message is 22
characters longer. -/
theorem messageJson_highlight_length (m : Message) (hplain : m.isHighlighted = none) :
    (messageJson { m with isHighlighted := some false }).length = (messageJson m).length + 22 := by
  have hfield : ("\"isHighlighted\":" ++ "false").length = 21 := by decide
  cases ht : m.text.jsonText with
  | none =>
    have h1 := intercalate_length_succ
      (["\"isUser\":" ++ (if m.isUser then "true" else "false")] ++
        ["\"timestamp\":" ++ jsonQuote m.timestamp] ++ ["\"isHighlighted\":" ++ "false"])
      (by simp)
    have h2 := intercalate_length_succ
      (["\"isUser\":" ++ (if m.isUser then "true" else "false")] ++
        ["\"timestamp\":" ++ jsonQuote m.timestamp])
      (by simp)
    simp only [messageJson, ht, hplain, String.length_append, List.nil_append,
      List.append_nil, Bool.false_eq_true, if_false]
    simp only [List.map_append, List.map_cons, List.map_nil, List.sum_append, List.sum_cons,
      List.sum_nil, hfield] at h1 h2
    omega
  | some t =>
    have h1 := intercalate_length_succ
      (["\"text\":" ++ t] ++ ["\"isUser\":" ++ (if m.isUser then "true" else "false")] ++
        ["\"timestamp\":" ++ jsonQuote m.timestamp] ++ ["\"isHighlighted\":" ++ "false"])
      (by simp)
    have h2 := intercalate_length_succ
      (["\"text\":" ++ t] ++ ["\"isUser\":" ++ (if m.isUser then "true" else "false")] ++
        ["\"timestamp\":" ++ jsonQuote m.timestamp])
      (by simp)
    simp only [messageJson, ht, hplain, String.length_append, List.append_nil,
      Bool.false_eq_true, if_false]
    simp only [List.map_append, List.map_cons, List.map_nil, List.sum_append, List.sum_cons,
      List.sum_nil, hfield] at h1 h2
    omega


theorem setHighlight_twice (index : Nat) (u v : Bool) (l : List Message) :
    setHighlight index v (setHighlight index u l) = setHighlight index v l := by
  induction l generalizing index with
  | nil => simp [setHighlight]
  | cons m rest ih =>
    cases index with
    | zero => simp [setHighlight]
    | succ i => simp [setHighlight, ih]

theorem setHighlight_ne_nil (index : Nat) (v : Bool) (l : List Message) (hne : l ≠ []) :
    setHighlight index v l ≠ [] := by
  cases l with
  | nil => exact absurd rfl hne
  | cons m rest => cases index <;> simp [setHighlight]

theorem setHighlight_json_sum (index : Nat) (l : List Message) (msg : Message)
    (hmsg : l[index]? = some msg) (hplain : msg.isHighlighted = none) :
    (((setHighlight index false l).map messageJson).map (fun a => 1 + a.length)).sum =
      ((l.map messageJson).map (fun a => 1 + a.length)).sum + 22 := by
  induction l generalizing index with
  | nil => simp at hmsg
  | cons m rest ih =>
    cases index with
    | zero =>
      simp only [List.getElem?_cons_zero, Option.some.injEq] at hmsg
      subst hmsg
      simp only [setHighlight, List.map_cons, List.sum_cons, messageJson_highlight_length m hplain]
      omega
    | succ i =>
      simp only [List.getElem?_cons_succ] at hmsg
      simp only [setHighlight, List.map_cons, List.sum_cons, ih i hmsg]
      omega

/-- The JSON text of a conversation changes when a message without the field
`isHighlighted` gets `isHighlighted: false`. -/
theorem messagesJson_highlight_ne (index : Nat) (l : List Message) (msg : Message)
    (hmsg : l[index]? = some msg) (hplain : msg.isHighlighted = none) :
    messagesJson (setHighlight index false l) ≠ messagesJson l := by
  have hne : l ≠ [] := by
    intro h
    rw [h] at hmsg
    simp at hmsg
  have h1 := intercalate_length_succ ((setHighlight index false l).map messageJson)
    (by simpa using setHighlight_ne_nil index false l hne)
  have h2 := intercalate_length_succ (l.map messageJson) (by simpa using hne)
  rw [setHighlight_json_sum index l msg hmsg hplain] at h1
  intro heq
  have hlen := congrArg String.length heq
  simp only [messagesJson, String.length_append] at hlen
  omega

theorem viewUpdate_subset (e : ChatArchive) (h : List ChatArchive) (he : e ∈ h)
    (x : ChatArchive) (hx : x ∈ viewUpdate e h) : x ∈ h := by
  obtain ⟨pre, e2, post, hsplit, hpre, he2⟩ :=
    exists_first (fun prev : ChatArchive => prev.id == e.id) h ⟨e, he, by simp⟩
  rw [hsplit, viewUpdate_match e pre e2 post (fun y hy => by simpa using hpre y hy)
    (by simpa using he2)] at hx
  rcases List.mem_append.mp hx with hx | hx
  · rw [hsplit]
    exact List.mem_append_left _ hx
  · rcases List.mem_cons.mp hx with rfl | hx
    · exact he
    · rw [hsplit]
      exact List.mem_append_right _ (List.mem_cons_of_mem _ hx)

theorem restoreAndCopy_state (e : ChatArchive) (index : Nat) (w : World) :
    (restoreAndCopy e index w).state.messages = setHighlight index false e.messages ∧
      (restoreAndCopy e index w).state.chatHistory = viewUpdate e w.state.chatHistory := by
  constructor <;>
    simp [restoreAndCopy, copyToClipboardTimeout, copyToClipboard, viewChatHistory,
      World.setMessages, World.setIsHistoryModalVisible, World.setChatHistory, setHighlight_twice]

/-- C30 (as amended): the copy-feedback cycle is not neutral for the equality
test of the archive. For an archive `e` with a message that has no
`isHighlighted` field, restoring `e`, running the highlight and its reset on
that message and archiving again leaves a conversation whose JSON text differs
from the archived one, because the message now carries `isHighlighted: false`;
`e` is not overwritten, and, provided no other archive already holds the new
text, a second entry is appended. -/
theorem highlight_cycle_appends_second_archive (net : Request → NetResult)
    (fallbackTime currentDateTime : String) (currentChatId : Nat) (e : ChatArchive)
    (index : Nat) (msg : Message) (w : World)
    (he : e ∈ w.state.chatHistory)
    (hmsg : e.messages[index]? = some msg) (hplain : msg.isHighlighted = none)
    (hother : ∀ x ∈ w.state.chatHistory, messagesJson x.messages ≠ messagesJson e.messages →
      messagesJson x.messages ≠ messagesJson (setHighlight index false e.messages)) :
    (restoreAndCopy e index w).state.messages = setHighlight index false e.messages ∧
    messagesJson (restoreAndCopy e index w).state.messages ≠ messagesJson e.messages ∧
    ∃ chatName,
      (saveCurrentChat net fallbackTime currentDateTime currentChatId
          (restoreAndCopy e index w).state (restoreAndCopy e index w)).world.state.chatHistory =
        (restoreAndCopy e index w).state.chatHistory ++
          [{ id := currentChatId, messages := setHighlight index false e.messages,
             name := chatName }] ∧
      e ∈ (restoreAndCopy e index w).state.chatHistory := by
  obtain ⟨hm, hh⟩ := restoreAndCopy_state e index w
  have hne := messagesJson_highlight_ne index e.messages msg hmsg hplain
  have hnonempty : (restoreAndCopy e index w).state.messages ≠ [] := by
    rw [hm]
    refine setHighlight_ne_nil index false e.messages (fun h => ?_)
    rw [h] at hmsg
    simp at hmsg
  have hview : e ∈ viewUpdate e w.state.chatHistory := by
    obtain ⟨pre, e2, post, hsplit, hpre, he2⟩ :=
      exists_first (fun prev : ChatArchive => prev.id == e.id) w.state.chatHistory
        ⟨e, he, by simp⟩
    rw [hsplit, viewUpdate_match e pre e2 post (fun y hy => by simpa using hpre y hy)
      (by simpa using he2)]
    exact List.mem_append_right _ (List.mem_cons_self _ _)
  refine ⟨hm, by rw [hm]; exact hne,
    generatedTitle (net (titleRequest (restoreAndCopy e index w).state)) fallbackTime ++
      " (" ++ currentDateTime ++ ")", ?_, by rw [hh]; exact hview⟩
  rw [saveCurrentChat_nonempty net fallbackTime currentDateTime currentChatId _ _ hnonempty]
  simp only [World.setMessages, World.setChatHistory, World.issue]
  rw [hm]
  refine archiveUpdate_fresh _ _ _ _ (fun x hx => ?_)
  rw [hh] at hx
  have hxh := viewUpdate_subset e w.state.chatHistory he x hx
  by_cases hsame : messagesJson x.messages = messagesJson e.messages
  · rw [hsame]
    exact hne.symm
  · exact hother x hxh hsame


/-- C30 (as amended), on `exampleArchive`: after the restore of its entry, one copy-feedback
cycle on the first message and a second save, the archive list has two entries,
the old one and a new one. -/
theorem highlight_cycle_appends_second_archive_witness :
    (saveCurrentChat exampleTitleNet "1.1.2025, 10:40:00" "1.1.2025, 10:40:01" 3000
        (restoreAndCopy exampleArchiveEntry 0 exampleArchiveWorld).state
        (restoreAndCopy exampleArchiveEntry 0 exampleArchiveWorld)).world.state.chatHistory.map
          (fun a => (a.id, a.messages.map (fun m => m.isHighlighted))) =
      [(1000, [none, none]), (3000, [some false, none])] := by
  obtain ⟨-, -, chatName, hsave, -⟩ :=
    highlight_cycle_appends_second_archive exampleTitleNet "1.1.2025, 10:40:00"
      "1.1.2025, 10:40:01" 3000 exampleArchiveEntry 0
      { text := .str "Hi", isUser := true, timestamp := "10:14" } exampleArchiveWorld
      (List.mem_singleton_self _) rfl rfl
      (fun x hx hne => by
        rw [show x = exampleArchiveEntry from List.mem_singleton.mp hx] at hne
        exact absurd rfl hne)
  rw [hsave]
  rfl


/-- C30 fails as stated: when the archive list already holds the conversation
in its highlighted form, as after an earlier such cycle, the restore of the
first archive, the copy-feedback cycle on its first message and the save append
nothing; the list keeps its two entries and the second one is renamed. -/
theorem highlight_cycle_no_append_counterexample :
    (examplePrior.map (fun m => m.isHighlighted) = [none, none]) ∧
      exampleHighlightedArchiveWorld.state.chatHistory.map (fun a => a.id) = [1000, 2000] ∧
      (saveCurrentChat exampleDownNet "1.1.2025, 10:40:00" "1.1.2025, 10:40:01" 3000
        (restoreAndCopy exampleArchiveEntry 0 exampleHighlightedArchiveWorld).state
        (restoreAndCopy exampleArchiveEntry 0 exampleHighlightedArchiveWorld)
        ).world.state.chatHistory.map (fun a => (a.id, a.name)) =
        [ (1000, "First chat (1.1.2025, 10:20:00)"),
          (2000, "Chat from 1.1.2025, 10:40:00 (1.1.2025, 10:40:01)") ] := by
  decide


end LlmChat
